import Mathlib

/-!
# Euler flux / Jacobian kernel of `hermes2d/examples/euler/forms.cpp`

A shallow embedding of the equation-of-state kernel, the two flux Jacobians,
the contraction flux `f_x`, the volumetric weak forms, the far-field
(inlet/outlet) boundary solver and the solid-wall boundary form; the sanity checks and
the loop of `power_iteration` and `source_fn` (neutronics example) are in the namespace
`Neutronics`.

* The C++ templates are generic in `Scalar`; the embedding is generic in a field `K`
  (exact arithmetic; `double` rounding is not modelled).
* The macros `R`, `c_v`, `kappa` (from `params.h`) and the constant `TAU` (from the
  example driver) are not part of the translated file; they are the fields of `Params`.
* `std::sqrt` is passed to `calc_sound_speed` as the argument `sqrt`; the boundary solver
  takes the library functions it calls (`sqrt`, `pow`, `atan2`, `cos`, `sin`) as a `MathOps`.
* `T_rot` and `dot_vector` belong to `numerical_flux.h`, which is not part of the translated
  file either; they are written from the description of the rotation frame.
-/

namespace Euler

/-- Process-wide read-only constants: gas constant `R`, specific heat `c_v`,
heat-capacity ratio `kappa` and time step `TAU`. -/
structure Params (K : Type) where
  R : K
  c_v : K
  kappa : K
  TAU : K

section Kernel

variable {K : Type} [Field K]

/-! ## Equation of state (forms.cpp 60-77) -/

/-- Source `calc_pressure`: `(R/c_v) * (energy - (rho_v_x*rho_v_x + rho_v_y*rho_v_y) / (2*rho))`. -/
def calc_pressure (P : Params K) (rho rho_v_x rho_v_y energy : K) : K :=
  (P.R / P.c_v) * (energy - (rho_v_x * rho_v_x + rho_v_y * rho_v_y) / (2 * rho))

/-- Source `calc_sound_speed`: `std::sqrt(kappa * calc_pressure(..) / rho)`. -/
def calc_sound_speed (sqrt : K → K) (P : Params K) (rho rho_v_x rho_v_y energy : K) : K :=
  sqrt (P.kappa * calc_pressure P rho rho_v_x rho_v_y energy / rho)

/-- Source `calc_energy`: `(c_v/R) * pressure + (rho_v_x*rho_v_x+rho_v_y*rho_v_y) / 2*rho`.
In C++ `a / 2*rho` parses as `(a / 2) * rho`. -/
def calc_energy (P : Params K) (rho rho_v_x rho_v_y pressure : K) : K :=
  (P.c_v / P.R) * pressure + ((rho_v_x * rho_v_x + rho_v_y * rho_v_y) / 2) * rho

/-! ## First flux Jacobian (forms.cpp 82-176) -/

/-- Source `A_1_0_0`. -/
def A_1_0_0 (_P : Params K) (_rho _rho_v_x _rho_v_y _energy : K) : K := 0

/-- Source `A_1_0_1`. -/
def A_1_0_1 (_P : Params K) (_rho _rho_v_x _rho_v_y _energy : K) : K := 1

/-- Source `A_1_0_2`. -/
def A_1_0_2 (_P : Params K) (_rho _rho_v_x _rho_v_y _energy : K) : K := 0

/-- Source `A_1_0_3`. -/
def A_1_0_3 (_P : Params K) (_rho _rho_v_x _rho_v_y _energy : K) : K := 0

/-- Source `A_1_1_0`. -/
def A_1_1_0 (P : Params K) (rho rho_v_x rho_v_y _energy : K) : K :=
  (-((rho_v_x * rho_v_x) / (rho * rho)))
    + 0.5 * (P.R / P.c_v) * ((rho_v_x * rho_v_x + rho_v_y * rho_v_y) / (rho * rho))

/-- Source `A_1_1_1`. -/
def A_1_1_1 (P : Params K) (rho rho_v_x _rho_v_y _energy : K) : K :=
  2 * (rho_v_x / rho) - (P.R / P.c_v) * (rho_v_x / rho)

/-- Source `A_1_1_2`. -/
def A_1_1_2 (P : Params K) (rho _rho_v_x rho_v_y _energy : K) : K :=
  (-(P.R / P.c_v)) * (rho_v_y / rho)

/-- Source `A_1_1_3`. -/
def A_1_1_3 (P : Params K) (_rho _rho_v_x _rho_v_y _energy : K) : K :=
  P.R / P.c_v

/-- Source `A_1_2_0`. -/
def A_1_2_0 (_P : Params K) (rho rho_v_x rho_v_y _energy : K) : K :=
  (-rho_v_x) * rho_v_y / (rho * rho)

/-- Source `A_1_2_1`. -/
def A_1_2_1 (_P : Params K) (rho _rho_v_x rho_v_y _energy : K) : K :=
  rho_v_y / rho

/-- Source `A_1_2_2`. -/
def A_1_2_2 (_P : Params K) (rho rho_v_x _rho_v_y _energy : K) : K :=
  rho_v_x / rho

/-- Source `A_1_2_3`. -/
def A_1_2_3 (_P : Params K) (_rho _rho_v_x _rho_v_y _energy : K) : K := 0

/-- Source `A_1_3_0`. -/
def A_1_3_0 (P : Params K) (rho rho_v_x rho_v_y energy : K) : K :=
  (-(rho_v_x * energy)) / (rho * rho)
    - (rho_v_x / (rho * rho)) * (P.R / P.c_v)
        * (energy - ((rho_v_x * rho_v_x + rho_v_y * rho_v_y) / (2 * rho)))
    + (rho_v_x / rho) * (P.R / P.c_v)
        * ((rho_v_x * rho_v_x + rho_v_y * rho_v_y) / (2 * rho * rho))

/-- Source `A_1_3_1`; the kinetic term is divided by `2 * rho * rho` in the source. -/
def A_1_3_1 (P : Params K) (rho rho_v_x rho_v_y energy : K) : K :=
  (energy / rho)
    + (1 / rho) * (P.R / P.c_v)
        * (energy - ((rho_v_x * rho_v_x + rho_v_y * rho_v_y) / (2 * rho * rho)))
    - (P.R / P.c_v) * ((rho_v_x * rho_v_x) / (rho * rho))

/-- Source `A_1_3_2`. -/
def A_1_3_2 (P : Params K) (rho rho_v_x rho_v_y _energy : K) : K :=
  (-(P.R / P.c_v)) * (rho_v_x * rho_v_y) / (rho * rho)

/-- Source `A_1_3_3`. -/
def A_1_3_3 (P : Params K) (rho rho_v_x _rho_v_y _energy : K) : K :=
  rho_v_x / rho + (P.R / P.c_v) * (rho_v_x / rho)

/-! ## First flux (forms.cpp 183-229) -/

/-- Source `f_1_0`. -/
def f_1_0 (P : Params K) (rho rho_v_x rho_v_y energy : K) : K :=
  A_1_0_0 P rho rho_v_x rho_v_y energy * rho
    + A_1_0_1 P rho rho_v_x rho_v_y energy * rho_v_x
    + A_1_0_2 P rho rho_v_x rho_v_y energy * rho_v_y
    + A_1_0_3 P rho rho_v_x rho_v_y energy * energy

/-- Source `f_1_1`. -/
def f_1_1 (P : Params K) (rho rho_v_x rho_v_y energy : K) : K :=
  A_1_1_0 P rho rho_v_x rho_v_y energy * rho
    + A_1_1_1 P rho rho_v_x rho_v_y energy * rho_v_x
    + A_1_1_2 P rho rho_v_x rho_v_y energy * rho_v_y
    + A_1_1_3 P rho rho_v_x rho_v_y energy * energy

/-- Source `f_1_2`. -/
def f_1_2 (P : Params K) (rho rho_v_x rho_v_y energy : K) : K :=
  A_1_2_0 P rho rho_v_x rho_v_y energy * rho
    + A_1_2_1 P rho rho_v_x rho_v_y energy * rho_v_x
    + A_1_2_2 P rho rho_v_x rho_v_y energy * rho_v_y
    + A_1_2_3 P rho rho_v_x rho_v_y energy * energy

/-- Source `f_1_3`. -/
def f_1_3 (P : Params K) (rho rho_v_x rho_v_y energy : K) : K :=
  A_1_3_0 P rho rho_v_x rho_v_y energy * rho
    + A_1_3_1 P rho rho_v_x rho_v_y energy * rho_v_x
    + A_1_3_2 P rho rho_v_x rho_v_y energy * rho_v_y
    + A_1_3_3 P rho rho_v_x rho_v_y energy * energy

/-- Source `f_x`: dispatch on the row index; for an index outside `0..3` the C++
function falls off its end without a return value, modelled as `none`. -/
def f_x (P : Params K) (i : Int) (w0 w1 w3 w4 : K) : Option K :=
  if i = 0 then some (f_1_0 P w0 w1 w3 w4)
  else if i = 1 then some (f_1_1 P w0 w1 w3 w4)
  else if i = 2 then some (f_1_2 P w0 w1 w3 w4)
  else if i = 3 then some (f_1_3 P w0 w1 w3 w4)
  else none

/-! ## Second flux Jacobian (forms.cpp 236-332) -/

/-- Source `A_2_0_0`. -/
def A_2_0_0 (_P : Params K) (_rho _rho_v_x _rho_v_y _energy : K) : K := 0

/-- Source `A_2_0_1`. -/
def A_2_0_1 (_P : Params K) (_rho _rho_v_x _rho_v_y _energy : K) : K := 0

/-- Source `A_2_0_2`. -/
def A_2_0_2 (_P : Params K) (_rho _rho_v_x _rho_v_y _energy : K) : K := 1

/-- Source `A_2_0_3`. -/
def A_2_0_3 (_P : Params K) (_rho _rho_v_x _rho_v_y _energy : K) : K := 0

/-- Source `A_2_1_0`. -/
def A_2_1_0 (_P : Params K) (rho rho_v_x rho_v_y _energy : K) : K :=
  (-rho_v_x) * rho_v_y / (rho * rho)

/-- Source `A_2_1_1`. -/
def A_2_1_1 (_P : Params K) (rho _rho_v_x rho_v_y _energy : K) : K :=
  rho_v_y / rho

/-- Source `A_2_1_2`. -/
def A_2_1_2 (_P : Params K) (rho rho_v_x _rho_v_y _energy : K) : K :=
  rho_v_x / rho

/-- Source `A_2_1_3`. -/
def A_2_1_3 (_P : Params K) (_rho _rho_v_x _rho_v_y _energy : K) : K := 0

/-- Source `A_2_2_0`. -/
def A_2_2_0 (P : Params K) (rho rho_v_x rho_v_y _energy : K) : K :=
  (-((rho_v_y * rho_v_y) / (rho * rho)))
    + 0.5 * (P.R / P.c_v) * ((rho_v_x * rho_v_x + rho_v_y * rho_v_y) / (rho * rho))

/-- Source `A_2_2_1`. -/
def A_2_2_1 (P : Params K) (rho rho_v_x _rho_v_y _energy : K) : K :=
  (-(P.R / P.c_v)) * (rho_v_x / rho)

/-- Source `A_2_2_2`. -/
def A_2_2_2 (P : Params K) (rho _rho_v_x rho_v_y _energy : K) : K :=
  2 * (rho_v_y / rho) - (P.R / P.c_v) * (rho_v_y / rho)

/-- Source `A_2_2_3`. -/
def A_2_2_3 (P : Params K) (_rho _rho_v_x _rho_v_y _energy : K) : K :=
  P.R / P.c_v

/-- Source `A_2_3_0`. -/
def A_2_3_0 (P : Params K) (rho rho_v_x rho_v_y energy : K) : K :=
  (-(rho_v_y * energy)) / (rho * rho)
    - (rho_v_y / (rho * rho)) * (P.R / P.c_v)
        * (energy - ((rho_v_x * rho_v_x + rho_v_y * rho_v_y) / (2 * rho)))
    + (rho_v_y / rho) * (P.R / P.c_v)
        * ((rho_v_x * rho_v_x + rho_v_y * rho_v_y) / (2 * rho * rho))

/-- Source `A_2_3_1`. -/
def A_2_3_1 (P : Params K) (rho rho_v_x rho_v_y _energy : K) : K :=
  (-(P.R / P.c_v)) * (rho_v_x * rho_v_y) / (rho * rho)

/-- Source `A_2_3_2`; the kinetic term is divided by `2 * rho * rho` in the source. -/
def A_2_3_2 (P : Params K) (rho rho_v_x rho_v_y energy : K) : K :=
  (energy / rho)
    + (1 / rho) * (P.R / P.c_v)
        * (energy - ((rho_v_x * rho_v_x + rho_v_y * rho_v_y) / (2 * rho * rho)))
    - (P.R / P.c_v) * ((rho_v_y * rho_v_y) / (rho * rho))

/-- Source `A_2_3_3`. -/
def A_2_3_3 (P : Params K) (rho _rho_v_x rho_v_y _energy : K) : K :=
  rho_v_y / rho + (P.R / P.c_v) * (rho_v_y / rho)

/-! ## Index tables

The source has one function per Jacobian entry; the tables below only select
the function `A_d_m_n` for a row `m` and a column `n`. -/

/-- Entry `(m, n)` of the first flux Jacobian: the source function `A_1_m_n`. -/
def A_1 (P : Params K) (m n : Fin 4) (rho rho_v_x rho_v_y energy : K) : K :=
  ![![A_1_0_0 P rho rho_v_x rho_v_y energy, A_1_0_1 P rho rho_v_x rho_v_y energy,
      A_1_0_2 P rho rho_v_x rho_v_y energy, A_1_0_3 P rho rho_v_x rho_v_y energy],
    ![A_1_1_0 P rho rho_v_x rho_v_y energy, A_1_1_1 P rho rho_v_x rho_v_y energy,
      A_1_1_2 P rho rho_v_x rho_v_y energy, A_1_1_3 P rho rho_v_x rho_v_y energy],
    ![A_1_2_0 P rho rho_v_x rho_v_y energy, A_1_2_1 P rho rho_v_x rho_v_y energy,
      A_1_2_2 P rho rho_v_x rho_v_y energy, A_1_2_3 P rho rho_v_x rho_v_y energy],
    ![A_1_3_0 P rho rho_v_x rho_v_y energy, A_1_3_1 P rho rho_v_x rho_v_y energy,
      A_1_3_2 P rho rho_v_x rho_v_y energy, A_1_3_3 P rho rho_v_x rho_v_y energy]] m n

/-- Entry `(m, n)` of the second flux Jacobian: the source function `A_2_m_n`. -/
def A_2 (P : Params K) (m n : Fin 4) (rho rho_v_x rho_v_y energy : K) : K :=
  ![![A_2_0_0 P rho rho_v_x rho_v_y energy, A_2_0_1 P rho rho_v_x rho_v_y energy,
      A_2_0_2 P rho rho_v_x rho_v_y energy, A_2_0_3 P rho rho_v_x rho_v_y energy],
    ![A_2_1_0 P rho rho_v_x rho_v_y energy, A_2_1_1 P rho rho_v_x rho_v_y energy,
      A_2_1_2 P rho rho_v_x rho_v_y energy, A_2_1_3 P rho rho_v_x rho_v_y energy],
    ![A_2_2_0 P rho rho_v_x rho_v_y energy, A_2_2_1 P rho rho_v_x rho_v_y energy,
      A_2_2_2 P rho rho_v_x rho_v_y energy, A_2_2_3 P rho rho_v_x rho_v_y energy],
    ![A_2_3_0 P rho rho_v_x rho_v_y energy, A_2_3_1 P rho rho_v_x rho_v_y energy,
      A_2_3_2 P rho rho_v_x rho_v_y energy, A_2_3_3 P rho rho_v_x rho_v_y energy]] m n

/-! ## Weak-form callbacks (forms.cpp 335-608)

`Func`, `Geom` and `ExtData` are framework types; only the members read by
`forms.cpp` are kept. C arrays are functions of the index. -/

/-- Framework type `Func`: values and gradient of a function at the quadrature points. -/
structure Func (K : Type) where
  val : Nat → K
  dx : Nat → K
  dy : Nat → K

/-- Framework type `Geom`: normal and position at the quadrature points. -/
structure Geom (K : Type) where
  nx : Nat → K
  ny : Nat → K
  y : Nat → K

/-- Framework type `ExtData`: the external functions `fn[0], fn[1], ...` of a form. -/
structure ExtData (K : Type) where
  fn : Nat → Func K

/-- The accumulation loop shared by every form:
`result = 0; for (int i = 0; i < n; i++) result += term(i); return result;`. -/
def accumulate (n : Int) (term : Nat → K) : K :=
  (List.range n.toNat).foldl (fun result i => result + term i) 0

/-- Source `bilinear_form_0_0_time` (forms.cpp 336-343). -/
def bilinear_form_0_0_time (P : Params K) (n : Int) (wt : Nat → K) (_ue : Nat → Func K)
    (u v : Func K) (_e : Geom K) (_ext : ExtData K) : K :=
  accumulate n (fun i => wt i * u.val i * v.val i) / P.TAU

/-- Source `bilinear_form_1_1_time` (forms.cpp 345-352). -/
def bilinear_form_1_1_time (P : Params K) (n : Int) (wt : Nat → K) (_ue : Nat → Func K)
    (u v : Func K) (_e : Geom K) (_ext : ExtData K) : K :=
  accumulate n (fun i => wt i * u.val i * v.val i) / P.TAU

/-- Source `bilinear_form_2_2_time` (forms.cpp 354-361). -/
def bilinear_form_2_2_time (P : Params K) (n : Int) (wt : Nat → K) (_ue : Nat → Func K)
    (u v : Func K) (_e : Geom K) (_ext : ExtData K) : K :=
  accumulate n (fun i => wt i * u.val i * v.val i) / P.TAU

/-- Source `bilinear_form_3_3_time` (forms.cpp 363-370). -/
def bilinear_form_3_3_time (P : Params K) (n : Int) (wt : Nat → K) (_ue : Nat → Func K)
    (u v : Func K) (_e : Geom K) (_ext : ExtData K) : K :=
  accumulate n (fun i => wt i * u.val i * v.val i) / P.TAU

/-- Source `linear_form_0_1` (forms.cpp 376-383): reads `ext->fn[0]`. -/
def linear_form_0_1 (_P : Params K) (n : Int) (wt : Nat → K) (_ue : Nat → Func K)
    (_u v : Func K) (_e : Geom K) (ext : ExtData K) : K :=
  accumulate n (fun i => wt i * (ext.fn 0).val i * v.dx i)

/-- Source `linear_form_0_2` (forms.cpp 385-392): reads `ext->fn[0]`. -/
def linear_form_0_2 (_P : Params K) (n : Int) (wt : Nat → K) (_ue : Nat → Func K)
    (_u v : Func K) (_e : Geom K) (ext : ExtData K) : K :=
  accumulate n (fun i => wt i * (ext.fn 0).val i * v.dy i)

/-- Source `linear_form_1_0_first_flux` (forms.cpp 394-401). -/
def linear_form_1_0_first_flux (P : Params K) (n : Int) (wt : Nat → K) (_ue : Nat → Func K)
    (_u v : Func K) (_e : Geom K) (ext : ExtData K) : K :=
  accumulate n (fun i => wt i * (ext.fn 0).val i
    * A_1_1_0 P ((ext.fn 0).val i) ((ext.fn 1).val i) ((ext.fn 2).val i) 0 * v.dx i)

/-- Source `linear_form_1_0_second_flux` (forms.cpp 403-410). -/
def linear_form_1_0_second_flux (P : Params K) (n : Int) (wt : Nat → K) (_ue : Nat → Func K)
    (_u v : Func K) (_e : Geom K) (ext : ExtData K) : K :=
  accumulate n (fun i => wt i * (ext.fn 0).val i
    * A_2_1_0 P ((ext.fn 0).val i) ((ext.fn 1).val i) ((ext.fn 2).val i) 0 * v.dy i)

/-- Source `linear_form_1_1_first_flux` (forms.cpp 412-419). -/
def linear_form_1_1_first_flux (P : Params K) (n : Int) (wt : Nat → K) (_ue : Nat → Func K)
    (_u v : Func K) (_e : Geom K) (ext : ExtData K) : K :=
  accumulate n (fun i => wt i * (ext.fn 1).val i
    * A_1_1_1 P ((ext.fn 0).val i) ((ext.fn 1).val i) ((ext.fn 2).val i) 0 * v.dx i)

/-- Source `linear_form_1_1_second_flux` (forms.cpp 421-428). -/
def linear_form_1_1_second_flux (P : Params K) (n : Int) (wt : Nat → K) (_ue : Nat → Func K)
    (_u v : Func K) (_e : Geom K) (ext : ExtData K) : K :=
  accumulate n (fun i => wt i * (ext.fn 1).val i
    * A_2_1_1 P ((ext.fn 0).val i) ((ext.fn 1).val i) ((ext.fn 2).val i) 0 * v.dy i)

/-- Source `linear_form_1_2_first_flux` (forms.cpp 430-437). -/
def linear_form_1_2_first_flux (P : Params K) (n : Int) (wt : Nat → K) (_ue : Nat → Func K)
    (_u v : Func K) (_e : Geom K) (ext : ExtData K) : K :=
  accumulate n (fun i => wt i * (ext.fn 2).val i
    * A_1_1_2 P ((ext.fn 0).val i) ((ext.fn 1).val i) ((ext.fn 2).val i) 0 * v.dx i)

/-- Source `linear_form_1_2_second_flux` (forms.cpp 439-446). -/
def linear_form_1_2_second_flux (P : Params K) (n : Int) (wt : Nat → K) (_ue : Nat → Func K)
    (_u v : Func K) (_e : Geom K) (ext : ExtData K) : K :=
  accumulate n (fun i => wt i * (ext.fn 2).val i
    * A_2_1_2 P ((ext.fn 0).val i) ((ext.fn 1).val i) ((ext.fn 2).val i) 0 * v.dy i)

/-- Source `linear_form_1_3_first_flux` (forms.cpp 448-455). -/
def linear_form_1_3_first_flux (P : Params K) (n : Int) (wt : Nat → K) (_ue : Nat → Func K)
    (_u v : Func K) (_e : Geom K) (ext : ExtData K) : K :=
  accumulate n (fun i => wt i * (ext.fn 3).val i
    * A_1_1_3 P ((ext.fn 0).val i) ((ext.fn 1).val i) ((ext.fn 2).val i) 0 * v.dx i)

/-- Source `linear_form_1_3_second_flux` (forms.cpp 457-464). -/
def linear_form_1_3_second_flux (P : Params K) (n : Int) (wt : Nat → K) (_ue : Nat → Func K)
    (_u v : Func K) (_e : Geom K) (ext : ExtData K) : K :=
  accumulate n (fun i => wt i * (ext.fn 3).val i
    * A_2_1_3 P ((ext.fn 0).val i) ((ext.fn 1).val i) ((ext.fn 2).val i) 0 * v.dy i)

/-- Source `linear_form_2_0_first_flux` (forms.cpp 466-473). -/
def linear_form_2_0_first_flux (P : Params K) (n : Int) (wt : Nat → K) (_ue : Nat → Func K)
    (_u v : Func K) (_e : Geom K) (ext : ExtData K) : K :=
  accumulate n (fun i => wt i * (ext.fn 0).val i
    * A_1_2_0 P ((ext.fn 0).val i) ((ext.fn 1).val i) ((ext.fn 2).val i) 0 * v.dx i)

/-- Source `linear_form_2_0_second_flux` (forms.cpp 475-482). -/
def linear_form_2_0_second_flux (P : Params K) (n : Int) (wt : Nat → K) (_ue : Nat → Func K)
    (_u v : Func K) (_e : Geom K) (ext : ExtData K) : K :=
  accumulate n (fun i => wt i * (ext.fn 0).val i
    * A_2_2_0 P ((ext.fn 0).val i) ((ext.fn 1).val i) ((ext.fn 2).val i) 0 * v.dy i)

/-- Source `linear_form_2_1_first_flux` (forms.cpp 484-491). -/
def linear_form_2_1_first_flux (P : Params K) (n : Int) (wt : Nat → K) (_ue : Nat → Func K)
    (_u v : Func K) (_e : Geom K) (ext : ExtData K) : K :=
  accumulate n (fun i => wt i * (ext.fn 1).val i
    * A_1_2_1 P ((ext.fn 0).val i) ((ext.fn 1).val i) ((ext.fn 2).val i) 0 * v.dx i)

/-- Source `linear_form_2_1_second_flux` (forms.cpp 493-500). -/
def linear_form_2_1_second_flux (P : Params K) (n : Int) (wt : Nat → K) (_ue : Nat → Func K)
    (_u v : Func K) (_e : Geom K) (ext : ExtData K) : K :=
  accumulate n (fun i => wt i * (ext.fn 1).val i
    * A_2_2_1 P ((ext.fn 0).val i) ((ext.fn 1).val i) ((ext.fn 2).val i) 0 * v.dy i)

/-- Source `linear_form_2_2_first_flux` (forms.cpp 502-509). -/
def linear_form_2_2_first_flux (P : Params K) (n : Int) (wt : Nat → K) (_ue : Nat → Func K)
    (_u v : Func K) (_e : Geom K) (ext : ExtData K) : K :=
  accumulate n (fun i => wt i * (ext.fn 2).val i
    * A_1_2_2 P ((ext.fn 0).val i) ((ext.fn 1).val i) ((ext.fn 2).val i) 0 * v.dx i)

/-- Source `linear_form_2_2_second_flux` (forms.cpp 511-518). -/
def linear_form_2_2_second_flux (P : Params K) (n : Int) (wt : Nat → K) (_ue : Nat → Func K)
    (_u v : Func K) (_e : Geom K) (ext : ExtData K) : K :=
  accumulate n (fun i => wt i * (ext.fn 2).val i
    * A_2_2_2 P ((ext.fn 0).val i) ((ext.fn 1).val i) ((ext.fn 2).val i) 0 * v.dy i)

/-- Source `linear_form_2_3_first_flux` (forms.cpp 520-527). -/
def linear_form_2_3_first_flux (P : Params K) (n : Int) (wt : Nat → K) (_ue : Nat → Func K)
    (_u v : Func K) (_e : Geom K) (ext : ExtData K) : K :=
  accumulate n (fun i => wt i * (ext.fn 3).val i
    * A_1_2_3 P ((ext.fn 0).val i) ((ext.fn 1).val i) ((ext.fn 2).val i) 0 * v.dx i)

/-- Source `linear_form_2_3_second_flux` (forms.cpp 529-536). -/
def linear_form_2_3_second_flux (P : Params K) (n : Int) (wt : Nat → K) (_ue : Nat → Func K)
    (_u v : Func K) (_e : Geom K) (ext : ExtData K) : K :=
  accumulate n (fun i => wt i * (ext.fn 3).val i
    * A_2_2_3 P ((ext.fn 0).val i) ((ext.fn 1).val i) ((ext.fn 2).val i) 0 * v.dy i)

/-- Source `linear_form_3_0_first_flux` (forms.cpp 538-545). -/
def linear_form_3_0_first_flux (P : Params K) (n : Int) (wt : Nat → K) (_ue : Nat → Func K)
    (_u v : Func K) (_e : Geom K) (ext : ExtData K) : K :=
  accumulate n (fun i => wt i * (ext.fn 0).val i
    * A_1_3_0 P ((ext.fn 0).val i) ((ext.fn 1).val i) ((ext.fn 2).val i) ((ext.fn 3).val i) * v.dx i)

/-- Source `linear_form_3_0_second_flux` (forms.cpp 547-554). -/
def linear_form_3_0_second_flux (P : Params K) (n : Int) (wt : Nat → K) (_ue : Nat → Func K)
    (_u v : Func K) (_e : Geom K) (ext : ExtData K) : K :=
  accumulate n (fun i => wt i * (ext.fn 0).val i
    * A_2_3_0 P ((ext.fn 0).val i) ((ext.fn 1).val i) ((ext.fn 2).val i) ((ext.fn 3).val i) * v.dy i)

/-- Source `linear_form_3_1_first_flux` (forms.cpp 556-563). -/
def linear_form_3_1_first_flux (P : Params K) (n : Int) (wt : Nat → K) (_ue : Nat → Func K)
    (_u v : Func K) (_e : Geom K) (ext : ExtData K) : K :=
  accumulate n (fun i => wt i * (ext.fn 1).val i
    * A_1_3_1 P ((ext.fn 0).val i) ((ext.fn 1).val i) ((ext.fn 2).val i) ((ext.fn 3).val i) * v.dx i)

/-- Source `linear_form_3_1_second_flux` (forms.cpp 565-572). -/
def linear_form_3_1_second_flux (P : Params K) (n : Int) (wt : Nat → K) (_ue : Nat → Func K)
    (_u v : Func K) (_e : Geom K) (ext : ExtData K) : K :=
  accumulate n (fun i => wt i * (ext.fn 1).val i
    * A_2_3_1 P ((ext.fn 0).val i) ((ext.fn 1).val i) ((ext.fn 2).val i) 0 * v.dy i)

/-- Source `linear_form_3_2_first_flux` (forms.cpp 574-581). -/
def linear_form_3_2_first_flux (P : Params K) (n : Int) (wt : Nat → K) (_ue : Nat → Func K)
    (_u v : Func K) (_e : Geom K) (ext : ExtData K) : K :=
  accumulate n (fun i => wt i * (ext.fn 2).val i
    * A_1_3_2 P ((ext.fn 0).val i) ((ext.fn 1).val i) ((ext.fn 2).val i) 0 * v.dx i)

/-- Source `linear_form_3_2_second_flux` (forms.cpp 583-590). -/
def linear_form_3_2_second_flux (P : Params K) (n : Int) (wt : Nat → K) (_ue : Nat → Func K)
    (_u v : Func K) (_e : Geom K) (ext : ExtData K) : K :=
  accumulate n (fun i => wt i * (ext.fn 2).val i
    * A_2_3_2 P ((ext.fn 0).val i) ((ext.fn 1).val i) ((ext.fn 2).val i) ((ext.fn 3).val i) * v.dy i)

/-- Source `linear_form_3_3_first_flux` (forms.cpp 592-599). -/
def linear_form_3_3_first_flux (P : Params K) (n : Int) (wt : Nat → K) (_ue : Nat → Func K)
    (_u v : Func K) (_e : Geom K) (ext : ExtData K) : K :=
  accumulate n (fun i => wt i * (ext.fn 3).val i
    * A_1_3_3 P ((ext.fn 0).val i) ((ext.fn 1).val i) ((ext.fn 2).val i) 0 * v.dx i)

/-- Source `linear_form_3_3_second_flux` (forms.cpp 601-608). -/
def linear_form_3_3_second_flux (P : Params K) (n : Int) (wt : Nat → K) (_ue : Nat → Func K)
    (_u v : Func K) (_e : Geom K) (ext : ExtData K) : K :=
  accumulate n (fun i => wt i * (ext.fn 3).val i
    * A_2_3_3 P ((ext.fn 0).val i) ((ext.fn 1).val i) ((ext.fn 2).val i) 0 * v.dy i)

/-- Selects the source function `linear_form_m_n_first_flux` for a row `m = r + 1`
(`r : Fin 3`, rows 1 to 3) and a state component `n`. -/
def linear_form_first_flux (P : Params K) (r : Fin 3) (c : Fin 4) :
    Int → (Nat → K) → (Nat → Func K) → Func K → Func K → Geom K → ExtData K → K :=
  ![![linear_form_1_0_first_flux P, linear_form_1_1_first_flux P,
      linear_form_1_2_first_flux P, linear_form_1_3_first_flux P],
    ![linear_form_2_0_first_flux P, linear_form_2_1_first_flux P,
      linear_form_2_2_first_flux P, linear_form_2_3_first_flux P],
    ![linear_form_3_0_first_flux P, linear_form_3_1_first_flux P,
      linear_form_3_2_first_flux P, linear_form_3_3_first_flux P]] r c

/-- Selects the source function `linear_form_m_n_second_flux` for a row `m = r + 1`
(`r : Fin 3`, rows 1 to 3) and a state component `n`. -/
def linear_form_second_flux (P : Params K) (r : Fin 3) (c : Fin 4) :
    Int → (Nat → K) → (Nat → Func K) → Func K → Func K → Geom K → ExtData K → K :=
  ![![linear_form_1_0_second_flux P, linear_form_1_1_second_flux P,
      linear_form_1_2_second_flux P, linear_form_1_3_second_flux P],
    ![linear_form_2_0_second_flux P, linear_form_2_1_second_flux P,
      linear_form_2_2_second_flux P, linear_form_2_3_second_flux P],
    ![linear_form_3_0_second_flux P, linear_form_3_1_second_flux P,
      linear_form_3_2_second_flux P, linear_form_3_3_second_flux P]] r c

/-! ## Reference fluxes

The analytic Euler fluxes, written from their textbook form; the Jacobian
entries of the source are compared with their partial derivatives. -/

/-- Analytic x-direction Euler flux
`(rho_v_x, rho_v_x^2/rho + p, rho_v_x*rho_v_y/rho, (rho_v_x/rho)*(E + p))`, `p = calc_pressure`. -/
def euler_flux_x (P : Params K) (m : Fin 4) (rho rho_v_x rho_v_y energy : K) : K :=
  ![rho_v_x,
    rho_v_x ^ 2 / rho + calc_pressure P rho rho_v_x rho_v_y energy,
    rho_v_x * rho_v_y / rho,
    (rho_v_x / rho) * (energy + calc_pressure P rho rho_v_x rho_v_y energy)] m

/-- Analytic y-direction Euler flux
`(rho_v_y, rho_v_x*rho_v_y/rho, rho_v_y^2/rho + p, (rho_v_y/rho)*(E + p))`, `p = calc_pressure`. -/
def euler_flux_y (P : Params K) (m : Fin 4) (rho rho_v_x rho_v_y energy : K) : K :=
  ![rho_v_y,
    rho_v_x * rho_v_y / rho,
    rho_v_y ^ 2 / rho + calc_pressure P rho rho_v_x rho_v_y energy,
    (rho_v_y / rho) * (energy + calc_pressure P rho rho_v_x rho_v_y energy)] m

end Kernel

/-! ## Far-field boundary solver (forms.cpp 9-38, 746-929)

`std::sqrt`, `std::pow`, `atan2`, `cos` and `sin` are library functions; they are the
fields of `MathOps`. The helpers `T_rot` and `dot_vector` come from `numerical_flux.h`. -/

/-- The `<cmath>` functions called by the boundary solver and by `T_rot`. -/
structure MathOps (K : Type) where
  sqrt : K → K
  pow : K → K → K
  atan2 : K → K → K
  cos : K → K
  sin : K → K

/-- The library functions read as the real functions: `std::sqrt` as `Real.sqrt`, `std::pow`
as `Real.rpow`, `atan2 y x` as the argument of `x + y i`, `cos` and `sin` as the real ones. -/
structure MathOps.IsReal (M : MathOps ℝ) : Prop where
  sqrt_eq : M.sqrt = Real.sqrt
  pow_eq : M.pow = Real.rpow
  atan2_eq : ∀ y x : ℝ, M.atan2 y x = Complex.arg ⟨x, y⟩
  cos_eq : M.cos = Real.cos
  sin_eq : M.sin = Real.sin

section Boundary

variable {K : Type} [LinearOrderedField K]

/-- Source `bc_density` (forms.cpp 12-15). -/
def bc_density (_y : K) : K := 1.0

/-- Source `bc_density_vel_x` (forms.cpp 18-21). -/
def bc_density_vel_x (_y : K) : K := 200.0

/-- Source `bc_density_vel_y` (forms.cpp 24-27). -/
def bc_density_vel_y (_y : K) : K := 0

/-- Source `bc_energy` (forms.cpp 30-33). -/
def bc_energy (_y : K) : K := 1E5

/-- Source `bc_pressure` (forms.cpp 35-38). -/
def bc_pressure (P : Params K) (y : K) : K :=
  P.R / P.c_v * (bc_energy y
    - (bc_density_vel_x y * bc_density_vel_x y + bc_density_vel_y y * bc_density_vel_y y)
        / (2 * bc_density y))

/-- Modelled from the spec: `T_rot` of `numerical_flux.h`, which is not among the translated
sources. The spec describes a 4×4 block matrix, identity on density and energy, with a 2×2
rotation on the momentum pair, that for the angle `atan2(n_y, n_x)` maps a global vector into
the frame aligned with the boundary normal: the local x-momentum is
`cos(beta) * m_x + sin(beta) * m_y`. -/
def T_rot (M : MathOps K) (beta : K) : Fin 4 → Fin 4 → K :=
  ![![1, 0, 0, 0],
    ![0, M.cos beta, M.sin beta, 0],
    ![0, -M.sin beta, M.cos beta, 0],
    ![0, 0, 0, 1]]

/-- Modelled from the spec: `dot_vector` of `numerical_flux.h`, which is not among the
translated sources: the product of a 4×4 matrix with a 4-vector, returned as a new vector. -/
def dot_vector (A : Fin 4 → Fin 4 → K) (B : Fin 4 → K) : Fin 4 → K :=
  fun i => A i 0 * B 0 + A i 1 * B 1 + A i 2 * B 2 + A i 3 * B 3

/-- Read `a[j]` from a C array of length 4 with an `int` index; outside `0..3` the read is
undefined, modelled as `none`. -/
def vec4_get (a : Fin 4 → K) (j : Int) : Option K :=
  if j = 0 then some (a 0)
  else if j = 1 then some (a 1)
  else if j = 2 then some (a 2)
  else if j = 3 then some (a 3)
  else none

/-- Source `sound_speed_l` (forms.cpp 778): sound speed of the left (inner) state; the outlet
branch writes the same call inline (forms.cpp 850, 854, 855). -/
def sound_speed_l (M : MathOps K) (P : Params K) (wl : Fin 4 → K) : K :=
  calc_sound_speed M.sqrt P (wl 0) (wl 1) (wl 2) (wl 3)

/-- Source `sound_speed_l_star` (forms.cpp 792 and 854). -/
def sound_speed_l_star (M : MathOps K) (P : Params K) (wl : Fin 4 → K) : K :=
  P.R / (P.c_v * (2 + P.R / P.c_v)) * wl 1 / wl 0
    + 2 * sound_speed_l M P wl / (2 + P.R / P.c_v)

/-- Source `rho_l_star` (forms.cpp 793 and 855). -/
def rho_l_star (M : MathOps K) (P : Params K) (wl : Fin 4 → K) : K :=
  M.pow (sound_speed_l_star M P wl / sound_speed_l M P wl) (2 * P.c_v / P.R) * wl 0

/-- Source `velocity_x_l_star` (forms.cpp 794 and 856). -/
def velocity_x_l_star (M : MathOps K) (P : Params K) (wl : Fin 4 → K) : K :=
  sound_speed_l_star M P wl

/-- Source `velocity_y_l_star` (forms.cpp 795 and 857). -/
def velocity_y_l_star (wl : Fin 4 → K) : K :=
  wl 2 / wl 0

/-- Source `p_l_star` (forms.cpp 796 and 858). -/
def p_l_star (M : MathOps K) (P : Params K) (wl : Fin 4 → K) : K :=
  rho_l_star M P wl * sound_speed_l_star M P wl * sound_speed_l_star M P wl / P.kappa

/-- Source `energy_l_star` (forms.cpp 797 and 859). -/
def energy_l_star (M : MathOps K) (P : Params K) (wl : Fin 4 → K) : K :=
  calc_energy P (rho_l_star M P wl) (velocity_x_l_star M P wl * rho_l_star M P wl)
    (velocity_y_l_star wl * rho_l_star M P wl) (p_l_star M P wl)

/-- The star state as assigned to `flux_global` (forms.cpp 831-834 and 894-897). -/
def star_flux_global (M : MathOps K) (P : Params K) (wl : Fin 4 → K) : Fin 4 → K :=
  ![rho_l_star M P wl, velocity_x_l_star M P wl * rho_l_star M P wl,
    velocity_y_l_star wl * rho_l_star M P wl, energy_l_star M P wl]

end Boundary

/-! ### Inlet branch, local variables (forms.cpp 772-789) -/

namespace Inlet

section

variable {K : Type} [LinearOrderedField K]

/-- Source `velocity_x_b` (forms.cpp 774). -/
def velocity_x_b (y : K) : K :=
  bc_density_vel_x y / bc_density y

/-- Source `sound_speed_1` (forms.cpp 781): the correction is `(R/c_v)` times the velocity
difference. -/
def sound_speed_1 (M : MathOps K) (P : Params K) (wl : Fin 4 → K) (y : K) : K :=
  sound_speed_l M P wl + (P.R / P.c_v) * (wl 1 / wl 0 - velocity_x_b y)

/-- Source `rho_1` (forms.cpp 782). -/
def rho_1 (M : MathOps K) (P : Params K) (wl : Fin 4 → K) (y : K) : K :=
  M.pow (sound_speed_1 M P wl y * sound_speed_1 M P wl y * wl 0
          / (P.kappa * calc_pressure P (wl 0) (wl 1) (wl 2) (wl 3))) (P.c_v / P.R) * wl 0

/-- Source `velocity_x_1` (forms.cpp 783). -/
def velocity_x_1 (y : K) : K :=
  velocity_x_b y

/-- Source `velocity_y_1` (forms.cpp 784). -/
def velocity_y_1 (wl : Fin 4 → K) : K :=
  wl 2 / wl 0

/-- Source `p_b` of the inlet branch (forms.cpp 787). -/
def p_b (M : MathOps K) (P : Params K) (wl : Fin 4 → K) (y : K) : K :=
  rho_1 M P wl y * sound_speed_1 M P wl y * sound_speed_1 M P wl y / P.kappa

/-- Source `energy_1` (forms.cpp 789). -/
def energy_1 (M : MathOps K) (P : Params K) (wl : Fin 4 → K) (y : K) : K :=
  calc_energy P (rho_1 M P wl y) (velocity_x_1 y * rho_1 M P wl y)
    (velocity_y_1 wl * rho_1 M P wl y) (p_b M P wl y)

/-- The intersection state as assigned to `flux_global` (forms.cpp 809-812). -/
def flux_global (M : MathOps K) (P : Params K) (wl : Fin 4 → K) (y : K) : Fin 4 → K :=
  ![rho_1 M P wl y, velocity_x_1 y * rho_1 M P wl y, velocity_y_1 wl * rho_1 M P wl y,
    energy_1 M P wl y]

end

end Inlet

/-! ### Outlet branch, local variables (forms.cpp 848-861) -/

namespace Outlet

section

variable {K : Type} [LinearOrderedField K]

/-- Source `p_b` of the outlet branch (forms.cpp 848). -/
def p_b (P : Params K) (y : K) : K :=
  bc_pressure P y

/-- Source `rho_b` (forms.cpp 849). -/
def rho_b (M : MathOps K) (P : Params K) (wl : Fin 4 → K) (y : K) : K :=
  wl 0 * M.pow (p_b P y / calc_pressure P (wl 0) (wl 1) (wl 2) (wl 3)) (1 / P.kappa)

/-- Source `velocity_x_b` of the outlet branch (forms.cpp 850). -/
def velocity_x_b (M : MathOps K) (P : Params K) (wl : Fin 4 → K) (y : K) : K :=
  (wl 1 / wl 0)
    + 2 * (P.c_v / P.R)
        * (calc_sound_speed M.sqrt P (wl 0) (wl 1) (wl 2) (wl 3)
            - M.sqrt (P.kappa * p_b P y / rho_b M P wl y))

/-- Source `velocity_y_b` (forms.cpp 851). -/
def velocity_y_b (wl : Fin 4 → K) : K :=
  wl 2 / wl 0

/-- Source `energy_b` (forms.cpp 852). -/
def energy_b (M : MathOps K) (P : Params K) (wl : Fin 4 → K) (y : K) : K :=
  calc_energy P (rho_b M P wl y) (velocity_x_b M P wl y * rho_b M P wl y)
    (velocity_y_b wl * rho_b M P wl y) (p_b P y)

/-- Source `sound_speed_b` (forms.cpp 861). -/
def sound_speed_b (M : MathOps K) (P : Params K) (wl : Fin 4 → K) (y : K) : K :=
  calc_sound_speed M.sqrt P (rho_b M P wl y) (velocity_x_b M P wl y * rho_b M P wl y)
    (velocity_y_b wl * rho_b M P wl y) (energy_b M P wl y)

/-- The boundary state as assigned to `flux_global` (forms.cpp 872-875). -/
def flux_global (M : MathOps K) (P : Params K) (wl : Fin 4 → K) (y : K) : Fin 4 → K :=
  ![rho_b M P wl y, velocity_x_b M P wl y * rho_b M P wl y, velocity_y_b wl * rho_b M P wl y,
    energy_b M P wl y]

end

end Outlet

section BoundaryForms

variable {K : Type} [LinearOrderedField K]

/-- The block that closes each of the four branches (forms.cpp 803-819, 825-841, 866-882,
888-904, identical up to the state assigned to `flux_global`): rotate the state with
`T_rot(alpha)`, `alpha = atan2(ny, nx)`, evaluate `f_x(0..3, ·)` on the rotated state, and
apply `T_rot(-alpha)` to the four values. The last call is `dot_vector(flux, mat_rot_inv, flux)`
and is read as the product of `mat_rot_inv` with the vector of the four `f_x` values. -/
def rotated_flux (M : MathOps K) (P : Params K) (nx ny : K) (flux_global : Fin 4 → K) :
    Option (Fin 4 → K) :=
  let alpha := M.atan2 ny nx
  let mat_rot := T_rot M alpha
  let flux_local := dot_vector mat_rot flux_global
  (f_x P 0 (flux_local 0) (flux_local 1) (flux_local 2) (flux_local 3)).bind fun flux0 =>
  (f_x P 1 (flux_local 0) (flux_local 1) (flux_local 2) (flux_local 3)).bind fun flux1 =>
  (f_x P 2 (flux_local 0) (flux_local 1) (flux_local 2) (flux_local 3)).bind fun flux2 =>
  (f_x P 3 (flux_local 0) (flux_local 1) (flux_local 2) (flux_local 3)).bind fun flux3 =>
  let mat_rot_inv := T_rot M (-alpha)
  some (dot_vector mat_rot_inv ![flux0, flux1, flux2, flux3])

/-- The inlet part of the loop body (forms.cpp 771-843): the intersection state when
`velocity_x_b < sound_speed_1`, the star state otherwise. -/
def inlet_flux (M : MathOps K) (P : Params K) (nx ny y : K) (wl : Fin 4 → K) :
    Option (Fin 4 → K) :=
  if Inlet.velocity_x_b y < Inlet.sound_speed_1 M P wl y then
    rotated_flux M P nx ny (Inlet.flux_global M P wl y)
  else
    rotated_flux M P nx ny (star_flux_global M P wl)

/-- The outlet part of the loop body (forms.cpp 846-906): the boundary state when
`velocity_x_b < sound_speed_b`, the star state otherwise. -/
def outlet_flux (M : MathOps K) (P : Params K) (nx ny y : K) (wl : Fin 4 → K) :
    Option (Fin 4 → K) :=
  if Outlet.velocity_x_b M P wl y < Outlet.sound_speed_b M P wl y then
    rotated_flux M P nx ny (Outlet.flux_global M P wl y)
  else
    rotated_flux M P nx ny (star_flux_global M P wl)

/-- The flux vector `flux[0..3]` computed by one pass of the loop body of
`bdy_flux_inlet_outlet_comp` (forms.cpp 760-906) from the left state `wl`, the normal
`(nx, ny)` and the boundary coordinate `y`. -/
def far_field_flux (M : MathOps K) (P : Params K) (nx ny y : K) (wl : Fin 4 → K) :
    Option (Fin 4 → K) :=
  if nx < 0 then inlet_flux M P nx ny y wl else outlet_flux M P nx ny y wl

/-- The left (inner) state `wl[0..3]` at point `i` (forms.cpp 761-767). -/
def left_state (ext : ExtData K) (i : Nat) : Fin 4 → K :=
  ![(ext.fn 0).val i, (ext.fn 1).val i, (ext.fn 2).val i, (ext.fn 3).val i]

/-- Source `bdy_flux_inlet_outlet_comp` (forms.cpp 750-910): for each point compute the flux
vector and add `wt[i] * v->val[i] * flux[element]` to `result`. -/
def bdy_flux_inlet_outlet_comp (M : MathOps K) (P : Params K) (element : Int) (n : Int)
    (wt : Nat → K) (_ue : Nat → Func K) (v : Func K) (e : Geom K) (ext : ExtData K) :
    Option K :=
  (List.range n.toNat).foldlM
    (fun result i =>
      (far_field_flux M P (e.nx i) (e.ny i) (e.y i) (left_state ext i)).bind fun flux =>
      (vec4_get flux element).bind fun flux_element =>
      some (result + wt i * v.val i * flux_element))
    0

/-- Source `bdy_flux_inlet_outlet_comp_0` (forms.cpp 914-917). -/
def bdy_flux_inlet_outlet_comp_0 (M : MathOps K) (P : Params K) (n : Int) (wt : Nat → K)
    (ue : Nat → Func K) (v : Func K) (e : Geom K) (ext : ExtData K) : Option K :=
  bdy_flux_inlet_outlet_comp M P 0 n wt ue v e ext

/-- Source `bdy_flux_inlet_outlet_comp_1` (forms.cpp 918-921). -/
def bdy_flux_inlet_outlet_comp_1 (M : MathOps K) (P : Params K) (n : Int) (wt : Nat → K)
    (ue : Nat → Func K) (v : Func K) (e : Geom K) (ext : ExtData K) : Option K :=
  bdy_flux_inlet_outlet_comp M P 1 n wt ue v e ext

/-- Source `bdy_flux_inlet_outlet_comp_2` (forms.cpp 922-925). -/
def bdy_flux_inlet_outlet_comp_2 (M : MathOps K) (P : Params K) (n : Int) (wt : Nat → K)
    (ue : Nat → Func K) (v : Func K) (e : Geom K) (ext : ExtData K) : Option K :=
  bdy_flux_inlet_outlet_comp M P 2 n wt ue v e ext

/-- Source `bdy_flux_inlet_outlet_comp_3` (forms.cpp 926-929). -/
def bdy_flux_inlet_outlet_comp_3 (M : MathOps K) (P : Params K) (n : Int) (wt : Nat → K)
    (ue : Nat → Func K) (v : Func K) (e : Geom K) (ext : ExtData K) : Option K :=
  bdy_flux_inlet_outlet_comp M P 3 n wt ue v e ext

end BoundaryForms

/-- The statement "`r` is `rotate(-alpha)` applied to `(f_x(0,u), f_x(1,u), f_x(2,u), f_x(3,u))`
with `u = rotate(alpha) * w` and `alpha = atan2(ny, nx)`": every `f_x(m, u)` returns a value
`F m`, and `r` is the product of `T_rot(-alpha)` with `F`. -/
def IsRotatedFluxOf {K : Type} [LinearOrderedField K] (M : MathOps K) (P : Params K)
    (nx ny : K) (w : Fin 4 → K) (r : Option (Fin 4 → K)) : Prop :=
  ∃ F : Fin 4 → K,
    (∀ m : Fin 4, f_x P ((m : Nat) : Int)
        (dot_vector (T_rot M (M.atan2 ny nx)) w 0) (dot_vector (T_rot M (M.atan2 ny nx)) w 1)
        (dot_vector (T_rot M (M.atan2 ny nx)) w 2) (dot_vector (T_rot M (M.atan2 ny nx)) w 3)
      = some (F m)) ∧
    r = some (dot_vector (T_rot M (-(M.atan2 ny nx))) F)

/-! ## Solid-wall boundary form (forms.cpp 680-745)

`numerical_flux_i` is the interior numerical-flux routine of `numerical_flux.h`; the form
only calls it, so it is an argument of the form. -/

namespace SolidWall

section

variable {K : Type} [LinearOrderedField K]

/-- Source `sound_speed_b` (forms.cpp 699). -/
def sound_speed_b (M : MathOps K) (P : Params K) (wl : Fin 4 → K) : K :=
  sound_speed_l M P wl + (P.R / P.c_v) * wl 1 / (2 * wl 0)

/-- Source `rho_b` of the solid-wall form (forms.cpp 700). -/
def rho_b (M : MathOps K) (P : Params K) (wl : Fin 4 → K) : K :=
  M.pow (sound_speed_b M P wl * sound_speed_b M P wl * wl 0
          / (P.kappa * calc_pressure P (wl 0) (wl 1) (wl 2) (wl 3))) (P.c_v / P.R) * wl 0

/-- Source `p_b` of the solid-wall form (forms.cpp 701). -/
def p_b (M : MathOps K) (P : Params K) (wl : Fin 4 → K) : K :=
  rho_b M P wl * sound_speed_b M P wl * sound_speed_b M P wl / P.kappa

/-- The wall flux of forms.cpp 704-713 for a wall pressure `p_b`: the local flux
`(0, p_b, 0, 0)` multiplied by `T_rot(-alpha)`, `alpha = atan2(ny, nx)`. -/
def rotated_wall_flux (M : MathOps K) (nx ny p_b : K) : Fin 4 → K :=
  let alpha := M.atan2 ny nx
  let flux_local : Fin 4 → K := ![0, p_b, 0, 0]
  dot_vector (T_rot M (-alpha)) flux_local

/-- Source `flux` of the solid-wall form (forms.cpp 704-713), from the interior state. -/
def flux (M : MathOps K) (P : Params K) (nx ny : K) (wl : Fin 4 → K) : Fin 4 → K :=
  rotated_wall_flux M nx ny (p_b M P wl)

/-- Source `w_l` (forms.cpp 716-721): the interior state at point `i`. -/
def w_l (ext : ExtData K) (i : Nat) : Fin 4 → K :=
  ![(ext.fn 0).val i, (ext.fn 1).val i, (ext.fn 2).val i, (ext.fn 3).val i]

/-- Source `w_r` (forms.cpp 717-721): the "mirrored" state, assigned together with `w_l`. -/
def w_r (ext : ExtData K) (i : Nat) : Fin 4 → K :=
  ![(ext.fn 0).val i, (ext.fn 1).val i, (ext.fn 2).val i, (ext.fn 3).val i]

end

end SolidWall

section SolidWallForms

variable {K : Type} [LinearOrderedField K]

/-- Source `bdy_flux_solid_wall_comp` (forms.cpp 684-728): the wall flux is computed at each
point, and `wt[i] * v->val[i] * numerical_flux_i(element, w_l, w_r, nx[i], ny[i])` is added
to `result`; the line using `flux[element]` is commented out in the source. -/
def bdy_flux_solid_wall_comp
    (numerical_flux_i : Int → (Fin 4 → K) → (Fin 4 → K) → K → K → K)
    (M : MathOps K) (P : Params K) (element : Int) (n : Int) (wt : Nat → K)
    (_ue : Nat → Func K) (v : Func K) (e : Geom K) (ext : ExtData K) : K :=
  accumulate n (fun i =>
    let _flux := SolidWall.flux M P (e.nx i) (e.ny i) (left_state ext i)
    wt i * v.val i
      * numerical_flux_i element (SolidWall.w_l ext i) (SolidWall.w_r ext i) (e.nx i) (e.ny i))

/-- Source `bdy_flux_solid_wall_comp_0` (forms.cpp 730-733). -/
def bdy_flux_solid_wall_comp_0
    (numerical_flux_i : Int → (Fin 4 → K) → (Fin 4 → K) → K → K → K)
    (M : MathOps K) (P : Params K) (n : Int) (wt : Nat → K)
    (ue : Nat → Func K) (v : Func K) (e : Geom K) (ext : ExtData K) : K :=
  bdy_flux_solid_wall_comp numerical_flux_i M P 0 n wt ue v e ext

/-- Source `bdy_flux_solid_wall_comp_1` (forms.cpp 734-737). -/
def bdy_flux_solid_wall_comp_1
    (numerical_flux_i : Int → (Fin 4 → K) → (Fin 4 → K) → K → K → K)
    (M : MathOps K) (P : Params K) (n : Int) (wt : Nat → K)
    (ue : Nat → Func K) (v : Func K) (e : Geom K) (ext : ExtData K) : K :=
  bdy_flux_solid_wall_comp numerical_flux_i M P 1 n wt ue v e ext

/-- Source `bdy_flux_solid_wall_comp_2` (forms.cpp 738-741). -/
def bdy_flux_solid_wall_comp_2
    (numerical_flux_i : Int → (Fin 4 → K) → (Fin 4 → K) → K → K → K)
    (M : MathOps K) (P : Params K) (n : Int) (wt : Nat → K)
    (ue : Nat → Func K) (v : Func K) (e : Geom K) (ext : ExtData K) : K :=
  bdy_flux_solid_wall_comp numerical_flux_i M P 2 n wt ue v e ext

/-- Source `bdy_flux_solid_wall_comp_3` (forms.cpp 742-745). -/
def bdy_flux_solid_wall_comp_3
    (numerical_flux_i : Int → (Fin 4 → K) → (Fin 4 → K) → K → K → K)
    (M : MathOps K) (P : Params K) (n : Int) (wt : Nat → K)
    (ue : Nat → Func K) (v : Func K) (e : Geom K) (ext : ExtData K) : K :=
  bdy_flux_solid_wall_comp numerical_flux_i M P 3 n wt ue v e ext

end SolidWallForms

/-! ### Outlet branch, star state as written in the source (forms.cpp 854-859)

The outlet branch repeats the star-state construction of the inlet branch with the call
`calc_sound_speed(wl[0], wl[1], wl[2], wl[3])` written inline. -/

namespace Outlet

section

variable {K : Type} [LinearOrderedField K]

/-- Source `sound_speed_l_star` of the outlet branch (forms.cpp 854). -/
def sound_speed_l_star (M : MathOps K) (P : Params K) (wl : Fin 4 → K) : K :=
  P.R / (P.c_v * (2 + P.R / P.c_v)) * wl 1 / wl 0
    + 2 * calc_sound_speed M.sqrt P (wl 0) (wl 1) (wl 2) (wl 3) / (2 + P.R / P.c_v)

/-- Source `rho_l_star` of the outlet branch (forms.cpp 855). -/
def rho_l_star (M : MathOps K) (P : Params K) (wl : Fin 4 → K) : K :=
  M.pow (sound_speed_l_star M P wl / calc_sound_speed M.sqrt P (wl 0) (wl 1) (wl 2) (wl 3))
    (2 * P.c_v / P.R) * wl 0

/-- Source `velocity_x_l_star` of the outlet branch (forms.cpp 856). -/
def velocity_x_l_star (M : MathOps K) (P : Params K) (wl : Fin 4 → K) : K :=
  sound_speed_l_star M P wl

/-- Source `velocity_y_l_star` of the outlet branch (forms.cpp 857). -/
def velocity_y_l_star (wl : Fin 4 → K) : K :=
  wl 2 / wl 0

/-- Source `p_l_star` of the outlet branch (forms.cpp 858). -/
def p_l_star (M : MathOps K) (P : Params K) (wl : Fin 4 → K) : K :=
  rho_l_star M P wl * sound_speed_l_star M P wl * sound_speed_l_star M P wl / P.kappa

/-- Source `energy_l_star` of the outlet branch (forms.cpp 859). -/
def energy_l_star (M : MathOps K) (P : Params K) (wl : Fin 4 → K) : K :=
  calc_energy P (rho_l_star M P wl) (velocity_x_l_star M P wl * rho_l_star M P wl)
    (velocity_y_l_star wl * rho_l_star M P wl) (p_l_star M P wl)

end

end Outlet

end Euler

/-! # Power iteration of `hermes2d/examples/neutronics-4-group-adapt/main.cpp` -/

namespace Neutronics

/-- Source `N_GROUPS` (main.cpp 48). -/
def N_GROUPS : Nat := 4

/-- Source `power_iteration` (main.cpp 210-272), its sanity checks (main.cpp 214-220): each
failed check calls the fatal `error(...)`, modelled as `Except.error` with the message.
The remainder of the body (initialising the linear problem, the matrix solver, the
assemble/solve loop, main.cpp 222-271) is the argument `rest`. -/
def power_iteration (spaces_size slptr_solution_size mfptr_solution_size : Nat)
    (rest : Except String Int) : Except String Int :=
  if slptr_solution_size ≠ N_GROUPS then
    Except.error
      "Wrong number of power iteration solutions for the given number of energy groups."
  else if spaces_size ≠ N_GROUPS then
    Except.error "Spaces and solutions supplied to power_iteration do not match."
  else if slptr_solution_size ≠ mfptr_solution_size then
    Except.error
      "Number of Solutions and corresponding MeshFunctions supplied to power_iteration does not match."
  else
    rest

section Iteration

variable {K : Type} [LinearOrderedField K]

/-- Source `source_fn` (main.cpp 125-133): for every `i < n`, `out[i]` is set to `0.0` and
`nu[1][g] * Sf[1][g] * values.at(g)[i]` is added for `g = 0 .. N_GROUPS - 1`. The tables `nu`
and `Sf` belong to `physical_parameters.cpp` and are arguments; `values g` is the `g`-th
array of the tuple. -/
def source_fn (nu Sf : Nat → Nat → K) (n : Int) (values : Nat → Nat → K) (out : Nat → K) :
    Nat → K :=
  (List.range n.toNat).foldl
    (fun out i =>
      Function.update out i
        ((List.range N_GROUPS).foldl
          (fun out_i g => out_i + nu 1 g * Sf 1 g * values g i) 0.0))
    out

/-- The do-while loop of `power_iteration` (main.cpp 240-262) on the state `(k_eff, it)`.
One pass computes `k_new = k_eff * (integrate(new_source) / integrate(old_source))`, where
the ratio of the two integrals in the pass with counter `it` is `ratio it`; sets `eigen_done`
when `fabs((k_eff - k_new) / k_new) < tol`; stores `k_eff = k_new`; increments `it`; and
repeats while `eigen_done` is false. Returns `(it, k_eff)`, or `none` when `fuel` passes did
not end the loop.

For `k_new = 0` the `double` quotient `(k_eff - k_new) / k_new` is infinite (`k_eff ≠ 0`) or
not a number (`k_eff = 0`), so the comparison with `tol` is false and `eigen_done` stays
unset; the test of the model is therefore `k_new ≠ 0` together with the comparison of the
exact quotient. -/
def power_iteration_loop (tol : K) (ratio : Nat → K) : Nat → K → Nat → Option (Nat × K)
  | 0, _, _ => none
  | fuel + 1, k_eff, it =>
    let k_new := k_eff * ratio it
    if k_new ≠ 0 ∧ |(k_eff - k_new) / k_new| < tol then some (it + 1, k_new)
    else power_iteration_loop tol ratio fuel k_new (it + 1)

/-- The eigenvalue estimates of the claim: `k_0` is `k_eff` on entry and
`k_{i+1} = k_i * r_{i+1}`, with `ratio i` the ratio `r_{i+1}` of pass `i + 1`. -/
def k_seq (k_0 : K) (ratio : Nat → K) : Nat → K
  | 0 => k_0
  | i + 1 => k_seq k_0 ratio i * ratio i

/-- The stopping test of the claim at iteration `j ≥ 1`: the relative change
`(k_{j-1} - k_j) / k_j` is defined (`k_j ≠ 0`) and `|(k_{j-1} - k_j) / k_j| < tol`. -/
def stops_at (tol k_0 : K) (ratio : Nat → K) (j : Nat) : Prop :=
  k_seq k_0 ratio j ≠ 0 ∧
    |(k_seq k_0 ratio (j - 1) - k_seq k_0 ratio j) / k_seq k_0 ratio j| < tol

end Iteration

end Neutronics

namespace Euler

/-! ## Concrete data used for evaluations -/

/-- The constants used for concrete evaluations: `R/c_v = 2/5`, `kappa = 7/5`, `TAU = 1/10`. -/
def sampleParams (K : Type) [Field K] : Params K :=
  { R := 2, c_v := 5, kappa := 7 / 5, TAU := 1 / 10 }

/-- A `Func` whose value and gradient are the same constant at every point. -/
def constFunc {K : Type} (c : K) : Func K :=
  { val := fun _ => c, dx := fun _ => c, dy := fun _ => c }

/-- The previous-level state of the example's initial condition,
`(rho, rho_v_x, rho_v_y, E) = (1, 200, 0, 100000)`, as ext fields `fn[0..3]`. -/
def sampleExt (K : Type) [Field K] : ExtData K :=
  { fn := fun k => constFunc (if k = 0 then 1 else if k = 1 then 200
                              else if k = 2 then 0 else 100000) }

/-- A geometry with normal `(-1, 0)` at every point. -/
def sampleGeom (K : Type) [Field K] : Geom K :=
  { nx := fun _ => -1, ny := fun _ => 0, y := fun _ => 0 }

/-! ## Auxiliary lemmas -/

section Lemmas

variable {K : Type} [Field K]

/-- The accumulation loop computes the finite sum of its terms. -/
theorem accumulate_eq_sum (n : Int) (term : Nat → K) :
    accumulate n term = ∑ i in Finset.range n.toNat, term i := by
  unfold accumulate
  generalize n.toNat = k
  induction k with
  | zero => simp
  | succ k ih => rw [List.range_succ, List.foldl_append, ih, Finset.sum_range_succ]; rfl

end Lemmas

/-! ## Equation of state and contraction flux -/

/-- C1: for a state with `rho ≠ 0` and a row `m` in `0..3`, `f_x m w` returns row `m`
of the x-Jacobian at `w` applied to `w` itself, `∑ n, A_1_m_n(w) * w_n`. -/
theorem f_x_eq_jacobian_row_contraction {K : Type} [Field K] (P : Params K)
    (rho rho_v_x rho_v_y energy : K) (_hrho : rho ≠ 0) (m : Fin 4) :
    f_x P ((m : Nat) : Int) rho rho_v_x rho_v_y energy
      = some (∑ n : Fin 4, A_1 P m n rho rho_v_x rho_v_y energy
                * ![rho, rho_v_x, rho_v_y, energy] n) := by
  fin_cases m <;>
    simp [f_x, f_1_0, f_1_1, f_1_2, f_1_3, A_1, Fin.sum_univ_four]

/-- Witness of C1 at `w = (2, 1, 3, 5)`, row 3. -/
theorem f_x_eq_jacobian_row_contraction_witness :
    (2 : ℚ) ≠ 0 ∧
    f_x (sampleParams ℚ) (((3 : Fin 4) : Nat) : Int) 2 1 3 5
      = some (∑ n : Fin 4, A_1 (sampleParams ℚ) 3 n 2 1 3 5 * ![(2 : ℚ), 1, 3, 5] n) :=
  ⟨by norm_num, f_x_eq_jacobian_row_contraction (sampleParams ℚ) 2 1 3 5 (by norm_num) 3⟩

/-- C2 (evaluation at the failing input): with `R/c_v = 2/5` and the primitive state
`rho = 2, v_x = 1, v_y = 0, p = 1`, the energy built by `calc_energy` is `13/2` and
`calc_pressure` recovers `11/5`, not the pressure `1` it started from. -/
theorem eos_round_trip_fails_at_rho_two :
    calc_energy (sampleParams ℚ) 2 (2 * 1) (2 * 0) 1 = 13 / 2 ∧
    calc_pressure (sampleParams ℚ) 2 (2 * 1) (2 * 0)
        (calc_energy (sampleParams ℚ) 2 (2 * 1) (2 * 0) 1) = 11 / 5 ∧
    calc_pressure (sampleParams ℚ) 2 (2 * 1) (2 * 0)
        (calc_energy (sampleParams ℚ) 2 (2 * 1) (2 * 0) 1) ≠ 1 := by
  norm_num [calc_energy, calc_pressure, sampleParams]

/-- C3: for `rho ≠ 0`, `calc_pressure(rho, rho*v_x, rho*v_y, E)` is the ideal-gas pressure
`(R/c_v) * (E - rho*(v_x^2 + v_y^2)/2)`. -/
theorem calc_pressure_ideal_gas {K : Type} [LinearOrderedField K] (P : Params K)
    (rho v_x v_y E : K) (hrho : rho ≠ 0) :
    calc_pressure P rho (rho * v_x) (rho * v_y) E
      = (P.R / P.c_v) * (E - rho * (v_x ^ 2 + v_y ^ 2) / 2) := by
  unfold calc_pressure
  congr 2
  field_simp
  ring

/-- Witness of C3 at `rho = 2, v = (1, 3), E = 5`. -/
theorem calc_pressure_ideal_gas_witness :
    (2 : ℚ) ≠ 0 ∧
    calc_pressure (sampleParams ℚ) 2 (2 * 1) (2 * 3) 5
      = ((sampleParams ℚ).R / (sampleParams ℚ).c_v) * (5 - 2 * (1 ^ 2 + 3 ^ 2) / 2) :=
  ⟨by norm_num, calc_pressure_ideal_gas (sampleParams ℚ) 2 1 3 5 (by norm_num)⟩

/-- C4: for `rho > 0`, `kappa > 0` and `calc_pressure w ≥ 0`, the sound speed (with the real
square root for `std::sqrt`) is non-negative and its square is `kappa * calc_pressure w / rho`,
with the shared `calc_pressure`. -/
theorem calc_sound_speed_sq (P : Params ℝ) (rho rho_v_x rho_v_y energy : ℝ)
    (hrho : 0 < rho) (hkappa : 0 < P.kappa)
    (hp : 0 ≤ calc_pressure P rho rho_v_x rho_v_y energy) :
    0 ≤ calc_sound_speed Real.sqrt P rho rho_v_x rho_v_y energy ∧
    calc_sound_speed Real.sqrt P rho rho_v_x rho_v_y energy ^ 2
      = P.kappa * calc_pressure P rho rho_v_x rho_v_y energy / rho := by
  unfold calc_sound_speed
  exact ⟨Real.sqrt_nonneg _,
    Real.sq_sqrt (div_nonneg (mul_nonneg hkappa.le hp) hrho.le)⟩

/-- Witness of C4 at `w = (1, 200, 0, 100000)`, the example far-field profile. -/
theorem calc_sound_speed_sq_witness :
    (0 : ℝ) < 1 ∧ 0 < (sampleParams ℝ).kappa ∧
    0 ≤ calc_pressure (sampleParams ℝ) 1 200 0 100000 ∧
    0 ≤ calc_sound_speed Real.sqrt (sampleParams ℝ) 1 200 0 100000 ∧
    calc_sound_speed Real.sqrt (sampleParams ℝ) 1 200 0 100000 ^ 2
      = (sampleParams ℝ).kappa * calc_pressure (sampleParams ℝ) 1 200 0 100000 / 1 :=
  ⟨by norm_num, by norm_num [sampleParams], by norm_num [calc_pressure, sampleParams],
    calc_sound_speed_sq (sampleParams ℝ) 1 200 0 100000 (by norm_num)
      (by norm_num [sampleParams]) (by norm_num [calc_pressure, sampleParams])⟩

/-- C5 (evaluation at the failing input): with `c_v/R = 5/2`, `rho = 2`, momentum `(1, 0)` and
pressure `1` the source `calc_energy` returns `5/2 + (1/2) * 2 = 7/2`, while the total energy
`(c_v/R)*p + (rho_v_x^2 + rho_v_y^2)/(2*rho)` is `5/2 + 1/4 = 11/4`. -/
theorem calc_energy_kinetic_term_at_rho_two :
    calc_energy (sampleParams ℚ) 2 1 0 1 = 7 / 2 ∧
    ((sampleParams ℚ).c_v / (sampleParams ℚ).R) * 1 + (1 ^ 2 + 0 ^ 2) / (2 * 2) = (11 / 4 : ℚ) ∧
    calc_energy (sampleParams ℚ) 2 1 0 1
      ≠ ((sampleParams ℚ).c_v / (sampleParams ℚ).R) * 1 + (1 ^ 2 + 0 ^ 2) / (2 * 2) := by
  norm_num [calc_energy, sampleParams]

/-! ## Jacobian entries as partial derivatives -/

section Derivatives

set_option linter.unreachableTactic false
set_option linter.unnecessarySeqFocus false
set_option linter.unusedTactic false

/-- Derivative of `a + b * t⁻¹ + c * (t⁻¹)^2` at a point `t0 ≠ 0`. -/
theorem hasDerivAt_inv_poly (a b c t0 : ℝ) (h0 : t0 ≠ 0) :
    HasDerivAt (fun t : ℝ => a + b * t⁻¹ + c * (t⁻¹) ^ 2)
      (-(b * (t0⁻¹) ^ 2) - 2 * c * (t0⁻¹) ^ 3) t0 := by
  have h1 : HasDerivAt (fun t : ℝ => t⁻¹) (-(t0 ^ 2)⁻¹) t0 := hasDerivAt_inv h0
  have h := ((hasDerivAt_const t0 a).add (h1.const_mul b)).add ((h1.pow 2).const_mul c)
  convert h using 1
  field_simp
  ring

/-- Derivative of the cubic `a + b * t + c * t^2 + d * t^3`. -/
theorem hasDerivAt_cubic (a b c d t0 : ℝ) :
    HasDerivAt (fun t : ℝ => a + b * t + c * t ^ 2 + d * t ^ 3)
      (b + 2 * c * t0 + 3 * d * t0 ^ 2) t0 := by
  have h1 : HasDerivAt (fun t : ℝ => t) 1 t0 := hasDerivAt_id t0
  have h := (((hasDerivAt_const t0 a).add (h1.const_mul b)).add ((h1.pow 2).const_mul c)).add
    ((h1.pow 3).const_mul d)
  convert h using 1
  simp
  ring

/-- C6: for `rho ≠ 0` and a mass or momentum row `m ≠ 3`, every entry `A_1_m_n(w)` is the
partial derivative with respect to `w_n` of component `m` of the analytic x-flux, and every
entry `A_2_m_n(w)` that of the analytic y-flux (`p = calc_pressure`). -/
theorem jacobian_mass_momentum_rows_are_partials (P : Params ℝ) (rho mx my E : ℝ)
    (hrho : rho ≠ 0) (m : Fin 4) (hm : m ≠ 3) :
    (HasDerivAt (fun t => euler_flux_x P m t mx my E) (A_1 P m 0 rho mx my E) rho ∧
     HasDerivAt (fun t => euler_flux_x P m rho t my E) (A_1 P m 1 rho mx my E) mx ∧
     HasDerivAt (fun t => euler_flux_x P m rho mx t E) (A_1 P m 2 rho mx my E) my ∧
     HasDerivAt (fun t => euler_flux_x P m rho mx my t) (A_1 P m 3 rho mx my E) E) ∧
    (HasDerivAt (fun t => euler_flux_y P m t mx my E) (A_2 P m 0 rho mx my E) rho ∧
     HasDerivAt (fun t => euler_flux_y P m rho t my E) (A_2 P m 1 rho mx my E) mx ∧
     HasDerivAt (fun t => euler_flux_y P m rho mx t E) (A_2 P m 2 rho mx my E) my ∧
     HasDerivAt (fun t => euler_flux_y P m rho mx my t) (A_2 P m 3 rho mx my E) E) := by
  fin_cases m
  · -- row 0
    refine ⟨⟨?_, ?_, ?_, ?_⟩, ⟨?_, ?_, ?_, ?_⟩⟩
    · convert hasDerivAt_inv_poly (mx) (0) (0) rho hrho using 1
      <;> first
          | (funext t; simp [euler_flux_x, euler_flux_y, calc_pressure] <;> ring)
          | (simp [A_1, A_2, A_1_0_0, A_1_0_1, A_1_0_2, A_1_0_3, A_1_1_0, A_1_1_1, A_1_1_2, A_1_1_3,
              A_1_2_0, A_1_2_1, A_1_2_2, A_1_2_3, A_2_0_0, A_2_0_1, A_2_0_2, A_2_0_3, A_2_1_0,
              A_2_1_1, A_2_1_2, A_2_1_3, A_2_2_0, A_2_2_1, A_2_2_2, A_2_2_3] <;> ring)
    · convert hasDerivAt_cubic (0) (1) (0) (0) mx using 1
      <;> first
          | (funext t; simp [euler_flux_x, euler_flux_y, calc_pressure] <;> ring)
          | (simp [A_1, A_2, A_1_0_0, A_1_0_1, A_1_0_2, A_1_0_3, A_1_1_0, A_1_1_1, A_1_1_2, A_1_1_3,
              A_1_2_0, A_1_2_1, A_1_2_2, A_1_2_3, A_2_0_0, A_2_0_1, A_2_0_2, A_2_0_3, A_2_1_0,
              A_2_1_1, A_2_1_2, A_2_1_3, A_2_2_0, A_2_2_1, A_2_2_2, A_2_2_3] <;> ring)
    · convert hasDerivAt_cubic (mx) (0) (0) (0) my using 1
      <;> first
          | (funext t; simp [euler_flux_x, euler_flux_y, calc_pressure] <;> ring)
          | (simp [A_1, A_2, A_1_0_0, A_1_0_1, A_1_0_2, A_1_0_3, A_1_1_0, A_1_1_1, A_1_1_2, A_1_1_3,
              A_1_2_0, A_1_2_1, A_1_2_2, A_1_2_3, A_2_0_0, A_2_0_1, A_2_0_2, A_2_0_3, A_2_1_0,
              A_2_1_1, A_2_1_2, A_2_1_3, A_2_2_0, A_2_2_1, A_2_2_2, A_2_2_3] <;> ring)
    · convert hasDerivAt_cubic (mx) (0) (0) (0) E using 1
      <;> first
          | (funext t; simp [euler_flux_x, euler_flux_y, calc_pressure] <;> ring)
          | (simp [A_1, A_2, A_1_0_0, A_1_0_1, A_1_0_2, A_1_0_3, A_1_1_0, A_1_1_1, A_1_1_2, A_1_1_3,
              A_1_2_0, A_1_2_1, A_1_2_2, A_1_2_3, A_2_0_0, A_2_0_1, A_2_0_2, A_2_0_3, A_2_1_0,
              A_2_1_1, A_2_1_2, A_2_1_3, A_2_2_0, A_2_2_1, A_2_2_2, A_2_2_3] <;> ring)
    · convert hasDerivAt_inv_poly (my) (0) (0) rho hrho using 1
      <;> first
          | (funext t; simp [euler_flux_x, euler_flux_y, calc_pressure] <;> ring)
          | (simp [A_1, A_2, A_1_0_0, A_1_0_1, A_1_0_2, A_1_0_3, A_1_1_0, A_1_1_1, A_1_1_2, A_1_1_3,
              A_1_2_0, A_1_2_1, A_1_2_2, A_1_2_3, A_2_0_0, A_2_0_1, A_2_0_2, A_2_0_3, A_2_1_0,
              A_2_1_1, A_2_1_2, A_2_1_3, A_2_2_0, A_2_2_1, A_2_2_2, A_2_2_3] <;> ring)
    · convert hasDerivAt_cubic (my) (0) (0) (0) mx using 1
      <;> first
          | (funext t; simp [euler_flux_x, euler_flux_y, calc_pressure] <;> ring)
          | (simp [A_1, A_2, A_1_0_0, A_1_0_1, A_1_0_2, A_1_0_3, A_1_1_0, A_1_1_1, A_1_1_2, A_1_1_3,
              A_1_2_0, A_1_2_1, A_1_2_2, A_1_2_3, A_2_0_0, A_2_0_1, A_2_0_2, A_2_0_3, A_2_1_0,
              A_2_1_1, A_2_1_2, A_2_1_3, A_2_2_0, A_2_2_1, A_2_2_2, A_2_2_3] <;> ring)
    · convert hasDerivAt_cubic (0) (1) (0) (0) my using 1
      <;> first
          | (funext t; simp [euler_flux_x, euler_flux_y, calc_pressure] <;> ring)
          | (simp [A_1, A_2, A_1_0_0, A_1_0_1, A_1_0_2, A_1_0_3, A_1_1_0, A_1_1_1, A_1_1_2, A_1_1_3,
              A_1_2_0, A_1_2_1, A_1_2_2, A_1_2_3, A_2_0_0, A_2_0_1, A_2_0_2, A_2_0_3, A_2_1_0,
              A_2_1_1, A_2_1_2, A_2_1_3, A_2_2_0, A_2_2_1, A_2_2_2, A_2_2_3] <;> ring)
    · convert hasDerivAt_cubic (my) (0) (0) (0) E using 1
      <;> first
          | (funext t; simp [euler_flux_x, euler_flux_y, calc_pressure] <;> ring)
          | (simp [A_1, A_2, A_1_0_0, A_1_0_1, A_1_0_2, A_1_0_3, A_1_1_0, A_1_1_1, A_1_1_2, A_1_1_3,
              A_1_2_0, A_1_2_1, A_1_2_2, A_1_2_3, A_2_0_0, A_2_0_1, A_2_0_2, A_2_0_3, A_2_1_0,
              A_2_1_1, A_2_1_2, A_2_1_3, A_2_2_0, A_2_2_1, A_2_2_2, A_2_2_3] <;> ring)
  · -- row 1
    refine ⟨⟨?_, ?_, ?_, ?_⟩, ⟨?_, ?_, ?_, ?_⟩⟩
    · convert hasDerivAt_inv_poly (P.R / P.c_v * E) (mx ^ 2 - P.R / P.c_v * (mx ^ 2 + my ^ 2) / 2) (0) rho hrho using 1
      <;> first
          | (funext t; simp [euler_flux_x, euler_flux_y, calc_pressure] <;> ring)
          | (simp [A_1, A_2, A_1_0_0, A_1_0_1, A_1_0_2, A_1_0_3, A_1_1_0, A_1_1_1, A_1_1_2, A_1_1_3,
              A_1_2_0, A_1_2_1, A_1_2_2, A_1_2_3, A_2_0_0, A_2_0_1, A_2_0_2, A_2_0_3, A_2_1_0,
              A_2_1_1, A_2_1_2, A_2_1_3, A_2_2_0, A_2_2_1, A_2_2_2, A_2_2_3] <;> ring)
    · convert hasDerivAt_cubic (P.R / P.c_v * E - P.R / P.c_v * my ^ 2 / (2 * rho)) (0) (1 / rho - P.R / P.c_v / (2 * rho)) (0) mx using 1
      <;> first
          | (funext t; simp [euler_flux_x, euler_flux_y, calc_pressure] <;> ring)
          | (simp [A_1, A_2, A_1_0_0, A_1_0_1, A_1_0_2, A_1_0_3, A_1_1_0, A_1_1_1, A_1_1_2, A_1_1_3,
              A_1_2_0, A_1_2_1, A_1_2_2, A_1_2_3, A_2_0_0, A_2_0_1, A_2_0_2, A_2_0_3, A_2_1_0,
              A_2_1_1, A_2_1_2, A_2_1_3, A_2_2_0, A_2_2_1, A_2_2_2, A_2_2_3] <;> ring)
    · convert hasDerivAt_cubic (mx ^ 2 / rho + P.R / P.c_v * E - P.R / P.c_v * mx ^ 2 / (2 * rho)) (0) (-(P.R / P.c_v) / (2 * rho)) (0) my using 1
      <;> first
          | (funext t; simp [euler_flux_x, euler_flux_y, calc_pressure] <;> ring)
          | (simp [A_1, A_2, A_1_0_0, A_1_0_1, A_1_0_2, A_1_0_3, A_1_1_0, A_1_1_1, A_1_1_2, A_1_1_3,
              A_1_2_0, A_1_2_1, A_1_2_2, A_1_2_3, A_2_0_0, A_2_0_1, A_2_0_2, A_2_0_3, A_2_1_0,
              A_2_1_1, A_2_1_2, A_2_1_3, A_2_2_0, A_2_2_1, A_2_2_2, A_2_2_3] <;> ring)
    · convert hasDerivAt_cubic (mx ^ 2 / rho - P.R / P.c_v * (mx ^ 2 + my ^ 2) / (2 * rho)) (P.R / P.c_v) (0) (0) E using 1
      <;> first
          | (funext t; simp [euler_flux_x, euler_flux_y, calc_pressure] <;> ring)
          | (simp [A_1, A_2, A_1_0_0, A_1_0_1, A_1_0_2, A_1_0_3, A_1_1_0, A_1_1_1, A_1_1_2, A_1_1_3,
              A_1_2_0, A_1_2_1, A_1_2_2, A_1_2_3, A_2_0_0, A_2_0_1, A_2_0_2, A_2_0_3, A_2_1_0,
              A_2_1_1, A_2_1_2, A_2_1_3, A_2_2_0, A_2_2_1, A_2_2_2, A_2_2_3] <;> ring)
    · convert hasDerivAt_inv_poly (0) (mx * my) (0) rho hrho using 1
      <;> first
          | (funext t; simp [euler_flux_x, euler_flux_y, calc_pressure] <;> ring)
          | (simp [A_1, A_2, A_1_0_0, A_1_0_1, A_1_0_2, A_1_0_3, A_1_1_0, A_1_1_1, A_1_1_2, A_1_1_3,
              A_1_2_0, A_1_2_1, A_1_2_2, A_1_2_3, A_2_0_0, A_2_0_1, A_2_0_2, A_2_0_3, A_2_1_0,
              A_2_1_1, A_2_1_2, A_2_1_3, A_2_2_0, A_2_2_1, A_2_2_2, A_2_2_3] <;> ring)
    · convert hasDerivAt_cubic (0) (my / rho) (0) (0) mx using 1
      <;> first
          | (funext t; simp [euler_flux_x, euler_flux_y, calc_pressure] <;> ring)
          | (simp [A_1, A_2, A_1_0_0, A_1_0_1, A_1_0_2, A_1_0_3, A_1_1_0, A_1_1_1, A_1_1_2, A_1_1_3,
              A_1_2_0, A_1_2_1, A_1_2_2, A_1_2_3, A_2_0_0, A_2_0_1, A_2_0_2, A_2_0_3, A_2_1_0,
              A_2_1_1, A_2_1_2, A_2_1_3, A_2_2_0, A_2_2_1, A_2_2_2, A_2_2_3] <;> ring)
    · convert hasDerivAt_cubic (0) (mx / rho) (0) (0) my using 1
      <;> first
          | (funext t; simp [euler_flux_x, euler_flux_y, calc_pressure] <;> ring)
          | (simp [A_1, A_2, A_1_0_0, A_1_0_1, A_1_0_2, A_1_0_3, A_1_1_0, A_1_1_1, A_1_1_2, A_1_1_3,
              A_1_2_0, A_1_2_1, A_1_2_2, A_1_2_3, A_2_0_0, A_2_0_1, A_2_0_2, A_2_0_3, A_2_1_0,
              A_2_1_1, A_2_1_2, A_2_1_3, A_2_2_0, A_2_2_1, A_2_2_2, A_2_2_3] <;> ring)
    · convert hasDerivAt_cubic (mx * my / rho) (0) (0) (0) E using 1
      <;> first
          | (funext t; simp [euler_flux_x, euler_flux_y, calc_pressure] <;> ring)
          | (simp [A_1, A_2, A_1_0_0, A_1_0_1, A_1_0_2, A_1_0_3, A_1_1_0, A_1_1_1, A_1_1_2, A_1_1_3,
              A_1_2_0, A_1_2_1, A_1_2_2, A_1_2_3, A_2_0_0, A_2_0_1, A_2_0_2, A_2_0_3, A_2_1_0,
              A_2_1_1, A_2_1_2, A_2_1_3, A_2_2_0, A_2_2_1, A_2_2_2, A_2_2_3] <;> ring)
  · -- row 2
    refine ⟨⟨?_, ?_, ?_, ?_⟩, ⟨?_, ?_, ?_, ?_⟩⟩
    · convert hasDerivAt_inv_poly (0) (mx * my) (0) rho hrho using 1
      <;> first
          | (funext t; simp [euler_flux_x, euler_flux_y, calc_pressure] <;> ring)
          | (simp [A_1, A_2, A_1_0_0, A_1_0_1, A_1_0_2, A_1_0_3, A_1_1_0, A_1_1_1, A_1_1_2, A_1_1_3,
              A_1_2_0, A_1_2_1, A_1_2_2, A_1_2_3, A_2_0_0, A_2_0_1, A_2_0_2, A_2_0_3, A_2_1_0,
              A_2_1_1, A_2_1_2, A_2_1_3, A_2_2_0, A_2_2_1, A_2_2_2, A_2_2_3] <;> ring)
    · convert hasDerivAt_cubic (0) (my / rho) (0) (0) mx using 1
      <;> first
          | (funext t; simp [euler_flux_x, euler_flux_y, calc_pressure] <;> ring)
          | (simp [A_1, A_2, A_1_0_0, A_1_0_1, A_1_0_2, A_1_0_3, A_1_1_0, A_1_1_1, A_1_1_2, A_1_1_3,
              A_1_2_0, A_1_2_1, A_1_2_2, A_1_2_3, A_2_0_0, A_2_0_1, A_2_0_2, A_2_0_3, A_2_1_0,
              A_2_1_1, A_2_1_2, A_2_1_3, A_2_2_0, A_2_2_1, A_2_2_2, A_2_2_3] <;> ring)
    · convert hasDerivAt_cubic (0) (mx / rho) (0) (0) my using 1
      <;> first
          | (funext t; simp [euler_flux_x, euler_flux_y, calc_pressure] <;> ring)
          | (simp [A_1, A_2, A_1_0_0, A_1_0_1, A_1_0_2, A_1_0_3, A_1_1_0, A_1_1_1, A_1_1_2, A_1_1_3,
              A_1_2_0, A_1_2_1, A_1_2_2, A_1_2_3, A_2_0_0, A_2_0_1, A_2_0_2, A_2_0_3, A_2_1_0,
              A_2_1_1, A_2_1_2, A_2_1_3, A_2_2_0, A_2_2_1, A_2_2_2, A_2_2_3] <;> ring)
    · convert hasDerivAt_cubic (mx * my / rho) (0) (0) (0) E using 1
      <;> first
          | (funext t; simp [euler_flux_x, euler_flux_y, calc_pressure] <;> ring)
          | (simp [A_1, A_2, A_1_0_0, A_1_0_1, A_1_0_2, A_1_0_3, A_1_1_0, A_1_1_1, A_1_1_2, A_1_1_3,
              A_1_2_0, A_1_2_1, A_1_2_2, A_1_2_3, A_2_0_0, A_2_0_1, A_2_0_2, A_2_0_3, A_2_1_0,
              A_2_1_1, A_2_1_2, A_2_1_3, A_2_2_0, A_2_2_1, A_2_2_2, A_2_2_3] <;> ring)
    · convert hasDerivAt_inv_poly (P.R / P.c_v * E) (my ^ 2 - P.R / P.c_v * (mx ^ 2 + my ^ 2) / 2) (0) rho hrho using 1
      <;> first
          | (funext t; simp [euler_flux_x, euler_flux_y, calc_pressure] <;> ring)
          | (simp [A_1, A_2, A_1_0_0, A_1_0_1, A_1_0_2, A_1_0_3, A_1_1_0, A_1_1_1, A_1_1_2, A_1_1_3,
              A_1_2_0, A_1_2_1, A_1_2_2, A_1_2_3, A_2_0_0, A_2_0_1, A_2_0_2, A_2_0_3, A_2_1_0,
              A_2_1_1, A_2_1_2, A_2_1_3, A_2_2_0, A_2_2_1, A_2_2_2, A_2_2_3] <;> ring)
    · convert hasDerivAt_cubic (my ^ 2 / rho + P.R / P.c_v * E - P.R / P.c_v * my ^ 2 / (2 * rho)) (0) (-(P.R / P.c_v) / (2 * rho)) (0) mx using 1
      <;> first
          | (funext t; simp [euler_flux_x, euler_flux_y, calc_pressure] <;> ring)
          | (simp [A_1, A_2, A_1_0_0, A_1_0_1, A_1_0_2, A_1_0_3, A_1_1_0, A_1_1_1, A_1_1_2, A_1_1_3,
              A_1_2_0, A_1_2_1, A_1_2_2, A_1_2_3, A_2_0_0, A_2_0_1, A_2_0_2, A_2_0_3, A_2_1_0,
              A_2_1_1, A_2_1_2, A_2_1_3, A_2_2_0, A_2_2_1, A_2_2_2, A_2_2_3] <;> ring)
    · convert hasDerivAt_cubic (P.R / P.c_v * E - P.R / P.c_v * mx ^ 2 / (2 * rho)) (0) (1 / rho - P.R / P.c_v / (2 * rho)) (0) my using 1
      <;> first
          | (funext t; simp [euler_flux_x, euler_flux_y, calc_pressure] <;> ring)
          | (simp [A_1, A_2, A_1_0_0, A_1_0_1, A_1_0_2, A_1_0_3, A_1_1_0, A_1_1_1, A_1_1_2, A_1_1_3,
              A_1_2_0, A_1_2_1, A_1_2_2, A_1_2_3, A_2_0_0, A_2_0_1, A_2_0_2, A_2_0_3, A_2_1_0,
              A_2_1_1, A_2_1_2, A_2_1_3, A_2_2_0, A_2_2_1, A_2_2_2, A_2_2_3] <;> ring)
    · convert hasDerivAt_cubic (my ^ 2 / rho - P.R / P.c_v * (mx ^ 2 + my ^ 2) / (2 * rho)) (P.R / P.c_v) (0) (0) E using 1
      <;> first
          | (funext t; simp [euler_flux_x, euler_flux_y, calc_pressure] <;> ring)
          | (simp [A_1, A_2, A_1_0_0, A_1_0_1, A_1_0_2, A_1_0_3, A_1_1_0, A_1_1_1, A_1_1_2, A_1_1_3,
              A_1_2_0, A_1_2_1, A_1_2_2, A_1_2_3, A_2_0_0, A_2_0_1, A_2_0_2, A_2_0_3, A_2_1_0,
              A_2_1_1, A_2_1_2, A_2_1_3, A_2_2_0, A_2_2_1, A_2_2_2, A_2_2_3] <;> ring)
  · exact absurd rfl hm

/-- Witness of C6 at `w = (2, 1, 3, 5)`, momentum row 1. -/
theorem jacobian_mass_momentum_rows_are_partials_witness :
    (2 : ℝ) ≠ 0 ∧ (1 : Fin 4) ≠ 3 ∧
    ((HasDerivAt (fun t => euler_flux_x (sampleParams ℝ) 1 t 1 3 5)
        (A_1 (sampleParams ℝ) 1 0 2 1 3 5) 2 ∧
      HasDerivAt (fun t => euler_flux_x (sampleParams ℝ) 1 2 t 3 5)
        (A_1 (sampleParams ℝ) 1 1 2 1 3 5) 1 ∧
      HasDerivAt (fun t => euler_flux_x (sampleParams ℝ) 1 2 1 t 5)
        (A_1 (sampleParams ℝ) 1 2 2 1 3 5) 3 ∧
      HasDerivAt (fun t => euler_flux_x (sampleParams ℝ) 1 2 1 3 t)
        (A_1 (sampleParams ℝ) 1 3 2 1 3 5) 5) ∧
     (HasDerivAt (fun t => euler_flux_y (sampleParams ℝ) 1 t 1 3 5)
        (A_2 (sampleParams ℝ) 1 0 2 1 3 5) 2 ∧
      HasDerivAt (fun t => euler_flux_y (sampleParams ℝ) 1 2 t 3 5)
        (A_2 (sampleParams ℝ) 1 1 2 1 3 5) 1 ∧
      HasDerivAt (fun t => euler_flux_y (sampleParams ℝ) 1 2 1 t 5)
        (A_2 (sampleParams ℝ) 1 2 2 1 3 5) 3 ∧
      HasDerivAt (fun t => euler_flux_y (sampleParams ℝ) 1 2 1 3 t)
        (A_2 (sampleParams ℝ) 1 3 2 1 3 5) 5)) :=
  ⟨by norm_num, by decide,
    jacobian_mass_momentum_rows_are_partials (sampleParams ℝ) 2 1 3 5 (by norm_num) 1
      (by decide)⟩

/-- C7 (evaluation at the failing input): with `R/c_v = 2/5` and `w = (2, 1, 0, 1)` the
derivative of the x-direction energy flux `(rho_v_x/rho)*(E + p)` with respect to `rho_v_x`
is `E/rho + p/rho - (R/c_v)*rho_v_x^2/rho^2 = 11/20`, while the source `A_1_3_1` returns
`23/40`, so `A_1_3_1(w)` is not that partial derivative; `A_2_3_2` at `(2, 0, 1, 1)` returns
the same `23/40` against the derivative `11/20` of the y-direction energy flux. -/
theorem energy_row_momentum_entry_not_partial :
    A_1_3_1 (sampleParams ℝ) 2 1 0 1 = 23 / 40 ∧
    HasDerivAt (fun t => euler_flux_x (sampleParams ℝ) 3 2 t 0 1) (11 / 20) 1 ∧
    1 / 2 + calc_pressure (sampleParams ℝ) 2 1 0 1 / 2 - (2 / 5) * 1 ^ 2 / 2 ^ 2 = (11 / 20 : ℝ) ∧
    ¬ HasDerivAt (fun t => euler_flux_x (sampleParams ℝ) 3 2 t 0 1)
        (A_1 (sampleParams ℝ) 3 1 2 1 0 1) 1 ∧
    A_2_3_2 (sampleParams ℝ) 2 0 1 1 = 23 / 40 ∧
    HasDerivAt (fun t => euler_flux_y (sampleParams ℝ) 3 2 0 t 1) (11 / 20) 1 ∧
    ¬ HasDerivAt (fun t => euler_flux_y (sampleParams ℝ) 3 2 0 t 1)
        (A_2 (sampleParams ℝ) 3 2 2 0 1 1) 1 := by
  have hx : HasDerivAt (fun t => euler_flux_x (sampleParams ℝ) 3 2 t 0 1) (11 / 20) 1 := by
    convert hasDerivAt_cubic 0 (7 / 10) 0 (-(1 / 20)) 1 using 1
    · funext t; simp [euler_flux_x, calc_pressure, sampleParams]; ring
    · norm_num
  have hy : HasDerivAt (fun t => euler_flux_y (sampleParams ℝ) 3 2 0 t 1) (11 / 20) 1 := by
    convert hasDerivAt_cubic 0 (7 / 10) 0 (-(1 / 20)) 1 using 1
    · funext t; simp [euler_flux_y, calc_pressure, sampleParams]; ring
    · norm_num
  refine ⟨by norm_num [A_1_3_1, sampleParams], hx, by norm_num [calc_pressure, sampleParams],
    ?_, by norm_num [A_2_3_2, sampleParams], hy, ?_⟩
  · intro h
    have := h.unique hx
    norm_num [A_1, A_1_3_1, sampleParams] at this
  · intro h
    have := h.unique hy
    norm_num [A_2, A_2_3_2, sampleParams] at this

end Derivatives

/-! ## Weak forms -/

section Forms

/-- C8: for a row `m = r + 1` in `1..3` and a state component `c`, the first-flux form returns
`∑ i < n, wt[i] * w_c(i) * A_1_m_c(w(i)) * v.dx[i]` and the second-flux form
`∑ i < n, wt[i] * w_c(i) * A_2_m_c(w(i)) * v.dy[i]`, with the full state
`w(i) = ext.fn[0..3].val[i]` (true energy included) as Jacobian argument. -/
theorem linear_form_flux_rows_eq_sum {K : Type} [Field K] (P : Params K) (r : Fin 3) (c : Fin 4)
    (n : Int) (wt : Nat → K) (ue : Nat → Func K) (u v : Func K) (e : Geom K) (ext : ExtData K) :
    linear_form_first_flux P r c n wt ue u v e ext
      = ∑ i in Finset.range n.toNat, wt i * (ext.fn c).val i
          * A_1 P r.succ c ((ext.fn 0).val i) ((ext.fn 1).val i) ((ext.fn 2).val i)
              ((ext.fn 3).val i) * v.dx i ∧
    linear_form_second_flux P r c n wt ue u v e ext
      = ∑ i in Finset.range n.toNat, wt i * (ext.fn c).val i
          * A_2 P r.succ c ((ext.fn 0).val i) ((ext.fn 1).val i) ((ext.fn 2).val i)
              ((ext.fn 3).val i) * v.dy i := by
  fin_cases r <;> fin_cases c <;>
    simp [linear_form_first_flux, linear_form_second_flux, accumulate_eq_sum, A_1, A_2,
      linear_form_1_0_first_flux, linear_form_1_1_first_flux, linear_form_1_2_first_flux,
      linear_form_1_3_first_flux, linear_form_2_0_first_flux, linear_form_2_1_first_flux,
      linear_form_2_2_first_flux, linear_form_2_3_first_flux, linear_form_3_0_first_flux,
      linear_form_3_1_first_flux, linear_form_3_2_first_flux, linear_form_3_3_first_flux,
      linear_form_1_0_second_flux, linear_form_1_1_second_flux, linear_form_1_2_second_flux,
      linear_form_1_3_second_flux, linear_form_2_0_second_flux, linear_form_2_1_second_flux,
      linear_form_2_2_second_flux, linear_form_2_3_second_flux, linear_form_3_0_second_flux,
      linear_form_3_1_second_flux, linear_form_3_2_second_flux, linear_form_3_3_second_flux,
      A_1_1_0, A_1_1_1, A_1_1_2, A_1_1_3, A_1_2_0, A_1_2_1, A_1_2_2, A_1_2_3,
      A_1_3_2, A_1_3_3, A_2_1_0, A_2_1_1, A_2_1_2, A_2_1_3, A_2_2_0, A_2_2_1, A_2_2_2,
      A_2_2_3, A_2_3_1, A_2_3_3]

/-- C9 (counterexample): on one point with weight 1, test gradient 1 and the example state
`(1, 200, 0, 100000)` in `fn[0..3]`, `linear_form_0_1` returns `1` (the density in `fn[0]`)
while `wt * fn[1].val * A_1_0_1(w) * v.dx` is `200`, so the two differ. -/
theorem linear_form_0_1_not_slot_one :
    linear_form_0_1 (sampleParams ℚ) 1 (fun _ => 1) (fun _ => constFunc 0) (constFunc 0)
        (constFunc 1) (sampleGeom ℚ) (sampleExt ℚ) = 1 ∧
    (∑ i in Finset.range (1 : Int).toNat, (fun _ => (1 : ℚ)) i * ((sampleExt ℚ).fn 1).val i
        * A_1_0_1 (sampleParams ℚ) (((sampleExt ℚ).fn 0).val i) (((sampleExt ℚ).fn 1).val i)
            (((sampleExt ℚ).fn 2).val i) (((sampleExt ℚ).fn 3).val i)
        * (constFunc (1 : ℚ)).dx i) = 200 ∧
    linear_form_0_1 (sampleParams ℚ) 1 (fun _ => 1) (fun _ => constFunc 0) (constFunc 0)
        (constFunc 1) (sampleGeom ℚ) (sampleExt ℚ)
      ≠ ∑ i in Finset.range (1 : Int).toNat, (fun _ => (1 : ℚ)) i * ((sampleExt ℚ).fn 1).val i
        * A_1_0_1 (sampleParams ℚ) (((sampleExt ℚ).fn 0).val i) (((sampleExt ℚ).fn 1).val i)
            (((sampleExt ℚ).fn 2).val i) (((sampleExt ℚ).fn 3).val i)
        * (constFunc (1 : ℚ)).dx i := by
  simp [linear_form_0_1, accumulate_eq_sum, sampleExt, constFunc, A_1_0_1]

/-- C9 (amended): `linear_form_0_1` returns `∑ i < n, wt[i] * ext.fn[0].val[i] * A_1_0_1 * v.dx[i]`
and `linear_form_0_2` returns `∑ i < n, wt[i] * ext.fn[0].val[i] * A_2_0_2 * v.dy[i]`: the
momentum factor is read from slot 0 of the form's own ext list, and the Jacobian entries
`A_1_0_1`, `A_2_0_2` are the constant 1 whatever state `w i` they are given. -/
theorem linear_form_row_0_eq_sum_slot_zero {K : Type} [Field K] (P : Params K) (n : Int)
    (wt : Nat → K) (ue : Nat → Func K) (u v : Func K) (e : Geom K) (ext : ExtData K)
    (w : Nat → Fin 4 → K) :
    linear_form_0_1 P n wt ue u v e ext
      = ∑ i in Finset.range n.toNat, wt i * (ext.fn 0).val i
          * A_1_0_1 P (w i 0) (w i 1) (w i 2) (w i 3) * v.dx i ∧
    linear_form_0_2 P n wt ue u v e ext
      = ∑ i in Finset.range n.toNat, wt i * (ext.fn 0).val i
          * A_2_0_2 P (w i 0) (w i 1) (w i 2) (w i 3) * v.dy i := by
  simp [linear_form_0_1, linear_form_0_2, accumulate_eq_sum, A_1_0_1, A_2_0_2]

/-- C10: the four time forms return the same value,
`(∑ i < n, wt[i] * u.val[i] * v.val[i]) / TAU`, which does not involve `ue`, the geometry
or `ext`. -/
theorem bilinear_form_time_eq_sum {K : Type} [Field K] (P : Params K) (n : Int)
    (wt : Nat → K) (ue : Nat → Func K) (u v : Func K) (e : Geom K) (ext : ExtData K) :
    bilinear_form_0_0_time P n wt ue u v e ext
      = (∑ i in Finset.range n.toNat, wt i * u.val i * v.val i) / P.TAU ∧
    bilinear_form_1_1_time P n wt ue u v e ext
      = (∑ i in Finset.range n.toNat, wt i * u.val i * v.val i) / P.TAU ∧
    bilinear_form_2_2_time P n wt ue u v e ext
      = (∑ i in Finset.range n.toNat, wt i * u.val i * v.val i) / P.TAU ∧
    bilinear_form_3_3_time P n wt ue u v e ext
      = (∑ i in Finset.range n.toNat, wt i * u.val i * v.val i) / P.TAU := by
  simp [bilinear_form_0_0_time, bilinear_form_1_1_time, bilinear_form_2_2_time,
    bilinear_form_3_3_time, accumulate_eq_sum]

end Forms
/-! ## Far-field boundary solver -/

section BoundaryLemmas

variable {K : Type} [LinearOrderedField K]

/-- The rotate, flux, rotate-back block always returns a vector: the four `f_x` calls use the
literal indices `0..3`. -/
theorem rotated_flux_eq (M : MathOps K) (P : Params K) (nx ny : K) (w : Fin 4 → K) :
    rotated_flux M P nx ny w
      = some (dot_vector (T_rot M (-(M.atan2 ny nx)))
          ![f_1_0 P (dot_vector (T_rot M (M.atan2 ny nx)) w 0)
              (dot_vector (T_rot M (M.atan2 ny nx)) w 1)
              (dot_vector (T_rot M (M.atan2 ny nx)) w 2)
              (dot_vector (T_rot M (M.atan2 ny nx)) w 3),
            f_1_1 P (dot_vector (T_rot M (M.atan2 ny nx)) w 0)
              (dot_vector (T_rot M (M.atan2 ny nx)) w 1)
              (dot_vector (T_rot M (M.atan2 ny nx)) w 2)
              (dot_vector (T_rot M (M.atan2 ny nx)) w 3),
            f_1_2 P (dot_vector (T_rot M (M.atan2 ny nx)) w 0)
              (dot_vector (T_rot M (M.atan2 ny nx)) w 1)
              (dot_vector (T_rot M (M.atan2 ny nx)) w 2)
              (dot_vector (T_rot M (M.atan2 ny nx)) w 3),
            f_1_3 P (dot_vector (T_rot M (M.atan2 ny nx)) w 0)
              (dot_vector (T_rot M (M.atan2 ny nx)) w 1)
              (dot_vector (T_rot M (M.atan2 ny nx)) w 2)
              (dot_vector (T_rot M (M.atan2 ny nx)) w 3)]) := by
  simp [rotated_flux, f_x]

/-- The block computes the rotated contraction flux of the state it is given. -/
theorem rotated_flux_isRotatedFluxOf (M : MathOps K) (P : Params K) (nx ny : K)
    (w : Fin 4 → K) : IsRotatedFluxOf M P nx ny w (rotated_flux M P nx ny w) := by
  refine ⟨_, ?_, rotated_flux_eq M P nx ny w⟩
  intro m
  fin_cases m <;> simp [f_x]

/-- One pass of the loop body always produces a flux vector. -/
theorem far_field_flux_eq_some (M : MathOps K) (P : Params K) (nx ny y : K) (wl : Fin 4 → K) :
    ∃ flux, far_field_flux M P nx ny y wl = some flux := by
  unfold far_field_flux inlet_flux outlet_flux
  split_ifs <;> exact ⟨_, rotated_flux_eq M P nx ny _⟩

/-- A monadic accumulation loop whose every step succeeds returns the finite sum. -/
theorem foldlM_range_eq_sum (g : K → Nat → Option K) (term : Nat → K)
    (hg : ∀ r i, g r i = some (r + term i)) (k : Nat) :
    (List.range k).foldlM g 0 = some (∑ i in Finset.range k, term i) := by
  induction k with
  | zero => simp
  | succ k ih =>
    rw [List.range_succ, List.foldlM_append, ih, Finset.sum_range_succ]
    simp [hg]

/-- The boundary form with a valid component index is the weighted sum of that component. -/
theorem bdy_flux_inlet_outlet_comp_eq (M : MathOps K) (P : Params K) (m : Fin 4) (n : Int)
    (wt : Nat → K) (ue : Nat → Func K) (v : Func K) (e : Geom K) (ext : ExtData K)
    (flux : Nat → Fin 4 → K)
    (hflux : ∀ i, far_field_flux M P (e.nx i) (e.ny i) (e.y i) (left_state ext i)
      = some (flux i)) :
    bdy_flux_inlet_outlet_comp M P ((m : Nat) : Int) n wt ue v e ext
      = some (∑ i in Finset.range n.toNat, wt i * v.val i * flux i m) := by
  unfold bdy_flux_inlet_outlet_comp
  apply foldlM_range_eq_sum
  intro r i
  rw [hflux i]
  fin_cases m <;> simp [vec4_get]

end BoundaryLemmas

section BoundaryClaims

variable {K : Type} [LinearOrderedField K]

/-- C11: in each of the four branches (inlet subsonic, inlet supersonic, outlet subsonic,
outlet supersonic) the flux of the far-field solver is `rotate(-alpha)` applied to
`(f_x(0,u), f_x(1,u), f_x(2,u), f_x(3,u))`, `u = rotate(alpha) * w_chosen`,
`alpha = atan2(ny, nx)`, where `w_chosen` is the conserved vector of the branch's state. -/
theorem far_field_flux_is_rotated_contraction_flux (M : MathOps K) (P : Params K)
    (nx ny y : K) (wl : Fin 4 → K) :
    (nx < 0 → Inlet.velocity_x_b y < Inlet.sound_speed_1 M P wl y →
      IsRotatedFluxOf M P nx ny (Inlet.flux_global M P wl y) (far_field_flux M P nx ny y wl)) ∧
    (nx < 0 → ¬ Inlet.velocity_x_b y < Inlet.sound_speed_1 M P wl y →
      IsRotatedFluxOf M P nx ny (star_flux_global M P wl) (far_field_flux M P nx ny y wl)) ∧
    (¬ nx < 0 → Outlet.velocity_x_b M P wl y < Outlet.sound_speed_b M P wl y →
      IsRotatedFluxOf M P nx ny (Outlet.flux_global M P wl y) (far_field_flux M P nx ny y wl)) ∧
    (¬ nx < 0 → ¬ Outlet.velocity_x_b M P wl y < Outlet.sound_speed_b M P wl y →
      IsRotatedFluxOf M P nx ny (star_flux_global M P wl) (far_field_flux M P nx ny y wl)) := by
  refine ⟨?_, ?_, ?_, ?_⟩ <;> intro h1 h2 <;>
    simp only [far_field_flux, inlet_flux, outlet_flux, h1, h2, if_true, if_false] <;>
    exact rotated_flux_isRotatedFluxOf M P nx ny _

/-- C12: each wrapper `bdy_flux_inlet_outlet_comp_m` returns
`∑ i < n, wt[i] * v.val[i] * flux_i[m]`, where `flux_i` is the far-field flux vector
computed at point `i` from the interior state `ext.fn[0..3].val[i]`, the normal
`(nx[i], ny[i])` and `y[i]`; the wrappers differ only in the component `m`. -/
theorem bdy_flux_inlet_outlet_comp_wrappers_eq_sum (M : MathOps K) (P : Params K) (n : Int)
    (wt : Nat → K) (ue : Nat → Func K) (v : Func K) (e : Geom K) (ext : ExtData K) :
    ∃ flux : Nat → Fin 4 → K,
      (∀ i, far_field_flux M P (e.nx i) (e.ny i) (e.y i)
          ![(ext.fn 0).val i, (ext.fn 1).val i, (ext.fn 2).val i, (ext.fn 3).val i]
        = some (flux i)) ∧
      bdy_flux_inlet_outlet_comp_0 M P n wt ue v e ext
        = some (∑ i in Finset.range n.toNat, wt i * v.val i * flux i 0) ∧
      bdy_flux_inlet_outlet_comp_1 M P n wt ue v e ext
        = some (∑ i in Finset.range n.toNat, wt i * v.val i * flux i 1) ∧
      bdy_flux_inlet_outlet_comp_2 M P n wt ue v e ext
        = some (∑ i in Finset.range n.toNat, wt i * v.val i * flux i 2) ∧
      bdy_flux_inlet_outlet_comp_3 M P n wt ue v e ext
        = some (∑ i in Finset.range n.toNat, wt i * v.val i * flux i 3) := by
  have hex := fun i => far_field_flux_eq_some M P (e.nx i) (e.ny i) (e.y i) (left_state ext i)
  choose flux hflux using hex
  exact ⟨flux, hflux,
    bdy_flux_inlet_outlet_comp_eq M P 0 n wt ue v e ext flux hflux,
    bdy_flux_inlet_outlet_comp_eq M P 1 n wt ue v e ext flux hflux,
    bdy_flux_inlet_outlet_comp_eq M P 2 n wt ue v e ext flux hflux,
    bdy_flux_inlet_outlet_comp_eq M P 3 n wt ue v e ext flux hflux⟩

/-- C13: the solver takes the inlet construction exactly when `nx < 0` and the outlet
construction otherwise, whatever `ny` and the interior state are; a point with `nx = 0`
is treated as outlet. -/
theorem far_field_flux_branch_by_sign_of_nx (M : MathOps K) (P : Params K)
    (nx ny y : K) (wl : Fin 4 → K) :
    (nx < 0 → far_field_flux M P nx ny y wl = inlet_flux M P nx ny y wl) ∧
    (0 ≤ nx → far_field_flux M P nx ny y wl = outlet_flux M P nx ny y wl) ∧
    far_field_flux M P 0 ny y wl = outlet_flux M P 0 ny y wl := by
  refine ⟨fun h => ?_, fun h => ?_, ?_⟩
  · simp [far_field_flux, h]
  · simp [far_field_flux, not_lt.mpr h]
  · simp [far_field_flux]

end BoundaryClaims

section InletOutletClaims

/-- C14 (evaluation at the failing input): with `R/c_v = 2/5` and the interior state
`(1, 100, 0, 100000)` (so `v_{x,l} = 100`, `v_{x,far} = 200`), the source `sound_speed_1` is
`a_l + (2/5) * (100 - 200) = a_l - 40`, whatever `std::sqrt` returns for `a_l`, and not
`a_l + ((R/c_v)/2) * (v_{x,l} - v_{x,far}) = a_l - 20`. -/
theorem inlet_sound_speed_1_correction_not_halved (M : MathOps ℚ) :
    Inlet.sound_speed_1 M (sampleParams ℚ) ![1, 100, 0, 100000] 0
      = sound_speed_l M (sampleParams ℚ) ![1, 100, 0, 100000] - 40 ∧
    sound_speed_l M (sampleParams ℚ) ![1, 100, 0, 100000]
        + (((sampleParams ℚ).R / (sampleParams ℚ).c_v) / 2)
          * ((100 : ℚ) / 1 - bc_density_vel_x (0 : ℚ) / bc_density (0 : ℚ))
      = sound_speed_l M (sampleParams ℚ) ![1, 100, 0, 100000] - 20 ∧
    Inlet.sound_speed_1 M (sampleParams ℚ) ![1, 100, 0, 100000] 0
      ≠ sound_speed_l M (sampleParams ℚ) ![1, 100, 0, 100000]
        + (((sampleParams ℚ).R / (sampleParams ℚ).c_v) / 2)
          * ((100 : ℚ) / 1 - bc_density_vel_x (0 : ℚ) / bc_density (0 : ℚ)) := by
  have h1 : Inlet.sound_speed_1 M (sampleParams ℚ) ![1, 100, 0, 100000] 0
      = sound_speed_l M (sampleParams ℚ) ![1, 100, 0, 100000] - 40 := by
    simp only [Inlet.sound_speed_1, Inlet.velocity_x_b, bc_density_vel_x, bc_density,
      sampleParams, Matrix.cons_val_zero, Matrix.cons_val_one, Matrix.head_cons]
    norm_num
    ring
  have h2 : sound_speed_l M (sampleParams ℚ) ![1, 100, 0, 100000]
        + (((sampleParams ℚ).R / (sampleParams ℚ).c_v) / 2)
          * ((100 : ℚ) / 1 - bc_density_vel_x (0 : ℚ) / bc_density (0 : ℚ))
      = sound_speed_l M (sampleParams ℚ) ![1, 100, 0, 100000] - 20 := by
    simp only [bc_density_vel_x, bc_density, sampleParams]
    norm_num
    ring
  refine ⟨h1, h2, ?_⟩
  rw [h1, h2]
  intro h
  linarith

variable {K : Type} [LinearOrderedField K]

/-- C15: in the inlet branch the boundary state is the intersection state
`(rho_1, v_{x,far} * rho_1, v_y * rho_1, energy_1)` when `v_{x,far} < a_1` strictly, and the
star state `(rho_star, a_star * rho_star, v_y * rho_star, energy_star)` otherwise, with
`v_y = wl[2] / wl[0]` the interior one; a tie `v_{x,far} = a_1` selects the star state. -/
theorem inlet_flux_state_selection (M : MathOps K) (P : Params K) (nx ny y : K)
    (wl : Fin 4 → K) :
    (Inlet.velocity_x_b y < Inlet.sound_speed_1 M P wl y →
      inlet_flux M P nx ny y wl
        = rotated_flux M P nx ny
            ![Inlet.rho_1 M P wl y, Inlet.velocity_x_b y * Inlet.rho_1 M P wl y,
              wl 2 / wl 0 * Inlet.rho_1 M P wl y, Inlet.energy_1 M P wl y]) ∧
    (¬ Inlet.velocity_x_b y < Inlet.sound_speed_1 M P wl y →
      inlet_flux M P nx ny y wl
        = rotated_flux M P nx ny
            ![rho_l_star M P wl, sound_speed_l_star M P wl * rho_l_star M P wl,
              wl 2 / wl 0 * rho_l_star M P wl, energy_l_star M P wl]) ∧
    (Inlet.velocity_x_b y = Inlet.sound_speed_1 M P wl y →
      inlet_flux M P nx ny y wl
        = rotated_flux M P nx ny
            ![rho_l_star M P wl, sound_speed_l_star M P wl * rho_l_star M P wl,
              wl 2 / wl 0 * rho_l_star M P wl, energy_l_star M P wl]) := by
  refine ⟨fun h => ?_, fun h => ?_, fun h => ?_⟩
  · simp only [inlet_flux, h, if_true]; rfl
  · simp only [inlet_flux, h, if_false]; rfl
  · simp only [inlet_flux, h, lt_irrefl, if_false]; rfl

/-- C18: in the outlet branch, for an interior state with `rho_l > 0` and `p_l > 0`, the
boundary density is `rho_l * (p_far / p_l)^(1/kappa)` with `p_far = bc_pressure`, the normal
velocity is `v_{x,l} + 2*(c_v/R)*(a_l - sqrt(kappa * p_far / rho_b))` and the tangential
velocity is the interior `wl[2] / wl[0]` (real power and square root). -/
theorem outlet_boundary_state (M : MathOps ℝ) (hM : M.IsReal) (P : Params ℝ) (y : ℝ)
    (wl : Fin 4 → ℝ) (_hrho : 0 < wl 0)
    (_hp : 0 < calc_pressure P (wl 0) (wl 1) (wl 2) (wl 3)) :
    Outlet.rho_b M P wl y
      = wl 0 * (bc_pressure P y / calc_pressure P (wl 0) (wl 1) (wl 2) (wl 3)) ^ (1 / P.kappa) ∧
    Outlet.velocity_x_b M P wl y
      = wl 1 / wl 0 + 2 * (P.c_v / P.R)
          * (calc_sound_speed Real.sqrt P (wl 0) (wl 1) (wl 2) (wl 3)
              - Real.sqrt (P.kappa * bc_pressure P y / Outlet.rho_b M P wl y)) ∧
    Outlet.velocity_y_b wl = wl 2 / wl 0 ∧
    Outlet.flux_global M P wl y
      = ![Outlet.rho_b M P wl y, Outlet.velocity_x_b M P wl y * Outlet.rho_b M P wl y,
          wl 2 / wl 0 * Outlet.rho_b M P wl y, Outlet.energy_b M P wl y] := by
  refine ⟨?_, ?_, rfl, rfl⟩
  · simp only [Outlet.rho_b, Outlet.p_b, hM.pow_eq]
    rfl
  · simp only [Outlet.velocity_x_b, Outlet.p_b, hM.sqrt_eq]

/-- Witness of C18 at the interior state `(2, 2, 0, 80001)` with `R/c_v = 2/5` and the real
library functions. -/
theorem outlet_boundary_state_witness :
    (0 : ℝ) < (![2, 2, 0, 80001] : Fin 4 → ℝ) 0 ∧
    0 < calc_pressure (sampleParams ℝ) ((![2, 2, 0, 80001] : Fin 4 → ℝ) 0)
          ((![2, 2, 0, 80001] : Fin 4 → ℝ) 1) ((![2, 2, 0, 80001] : Fin 4 → ℝ) 2)
          ((![2, 2, 0, 80001] : Fin 4 → ℝ) 3) ∧
    Outlet.rho_b ⟨Real.sqrt, Real.rpow, fun y x => Complex.arg ⟨x, y⟩, Real.cos, Real.sin⟩
        (sampleParams ℝ) ![2, 2, 0, 80001] 0
      = (![2, 2, 0, 80001] : Fin 4 → ℝ) 0
          * (bc_pressure (sampleParams ℝ) 0
              / calc_pressure (sampleParams ℝ) ((![2, 2, 0, 80001] : Fin 4 → ℝ) 0)
                  ((![2, 2, 0, 80001] : Fin 4 → ℝ) 1) ((![2, 2, 0, 80001] : Fin 4 → ℝ) 2)
                  ((![2, 2, 0, 80001] : Fin 4 → ℝ) 3)) ^ (1 / (sampleParams ℝ).kappa) :=
  ⟨by norm_num, by norm_num [calc_pressure, sampleParams],
    (outlet_boundary_state
      ⟨Real.sqrt, Real.rpow, fun y x => Complex.arg ⟨x, y⟩, Real.cos, Real.sin⟩
      ⟨rfl, rfl, fun _ _ => rfl, rfl, rfl⟩ (sampleParams ℝ) 0 ![2, 2, 0, 80001]
      (by norm_num) (by norm_num [calc_pressure, sampleParams])).1⟩

/-- C20: with the real `cos` and `sin`, applying `rotate(alpha)` and then `rotate(-alpha)`
(`T_rot` followed by `dot_vector`) returns the vector; `rotate(alpha)` leaves components 0 and
3 unchanged and rotates components 1 and 2, preserving their Euclidean norm. -/
theorem rotate_back_after_rotate (M : MathOps ℝ) (hM : M.IsReal) (alpha : ℝ)
    (x : Fin 4 → ℝ) :
    dot_vector (T_rot M (-alpha)) (dot_vector (T_rot M alpha) x) = x ∧
    dot_vector (T_rot M alpha) x 0 = x 0 ∧
    dot_vector (T_rot M alpha) x 3 = x 3 ∧
    dot_vector (T_rot M alpha) x 1 = Real.cos alpha * x 1 + Real.sin alpha * x 2 ∧
    dot_vector (T_rot M alpha) x 2 = -Real.sin alpha * x 1 + Real.cos alpha * x 2 ∧
    dot_vector (T_rot M alpha) x 1 ^ 2 + dot_vector (T_rot M alpha) x 2 ^ 2
      = x 1 ^ 2 + x 2 ^ 2 := by
  have hcs := Real.cos_sq_add_sin_sq alpha
  refine ⟨?_, ?_, ?_, ?_, ?_, ?_⟩
  · funext i
    fin_cases i <;>
      simp [dot_vector, T_rot, hM.cos_eq, hM.sin_eq, Real.cos_neg, Real.sin_neg,
        Matrix.vecHead, Matrix.vecTail]
    · linear_combination (x 1) * hcs
    · linear_combination (x 2) * hcs
  · simp [dot_vector, T_rot]
  · simp [dot_vector, T_rot, Matrix.vecHead, Matrix.vecTail]
  · simp [dot_vector, T_rot, hM.cos_eq, hM.sin_eq]
  · simp [dot_vector, T_rot, hM.cos_eq, hM.sin_eq, Matrix.vecHead, Matrix.vecTail]
  · simp [dot_vector, T_rot, hM.cos_eq, hM.sin_eq, Matrix.vecHead, Matrix.vecTail]
    linear_combination (x 1 ^ 2 + x 2 ^ 2) * hcs

/-- Witness of C20 at the angle `1` and the vector `(1, 200, 0, 100000)`. -/
theorem rotate_back_after_rotate_witness :
    dot_vector
        (T_rot ⟨Real.sqrt, Real.rpow, fun y x => Complex.arg ⟨x, y⟩, Real.cos, Real.sin⟩ (-1))
        (dot_vector
          (T_rot ⟨Real.sqrt, Real.rpow, fun y x => Complex.arg ⟨x, y⟩, Real.cos, Real.sin⟩ 1)
          ![1, 200, 0, 100000])
      = ![1, 200, 0, 100000] :=
  (rotate_back_after_rotate
    ⟨Real.sqrt, Real.rpow, fun y x => Complex.arg ⟨x, y⟩, Real.cos, Real.sin⟩
    ⟨rfl, rfl, fun _ _ => rfl, rfl, rfl⟩ 1 ![1, 200, 0, 100000]).1

end InletOutletClaims

section TieEvaluation

/-- Values of the inlet construction at the interior state `(1, 100, 0, 755000/7)` with
`R/c_v = 2/5`, `kappa = 7/5` and the real library functions: `a_l = 240`, `a_1 = 200`,
`a_star = 650/3`, `rho_1 = (5/6)^5`, `rho_star = (65/72)^5`. -/
theorem inlet_values_at_tie_state (M : MathOps ℝ) (hM : M.IsReal) :
    sound_speed_l M (sampleParams ℝ) ![1, 100, 0, 755000 / 7] = 240 ∧
    Inlet.sound_speed_1 M (sampleParams ℝ) ![1, 100, 0, 755000 / 7] 0 = 200 ∧
    sound_speed_l_star M (sampleParams ℝ) ![1, 100, 0, 755000 / 7] = 650 / 3 ∧
    Inlet.rho_1 M (sampleParams ℝ) ![1, 100, 0, 755000 / 7] 0 = (5 / 6) ^ 5 ∧
    rho_l_star M (sampleParams ℝ) ![1, 100, 0, 755000 / 7] = (65 / 72) ^ 5 := by
  have hp : calc_pressure (sampleParams ℝ) 1 100 0 (755000 / 7) = 288000 / 7 := by
    norm_num [calc_pressure, sampleParams]
  have hal : sound_speed_l M (sampleParams ℝ) ![1, 100, 0, 755000 / 7] = 240 := by
    simp only [sound_speed_l, calc_sound_speed, hM.sqrt_eq, Matrix.cons_val_zero,
      Matrix.cons_val_one, Matrix.head_cons, Matrix.cons_val_two, Matrix.tail_cons,
      Matrix.cons_val_three, hp]
    rw [show (sampleParams ℝ).kappa * (288000 / 7) / 1 = (240 : ℝ) ^ 2 by
      norm_num [sampleParams]]
    exact Real.sqrt_sq (by norm_num)
  have ha1 : Inlet.sound_speed_1 M (sampleParams ℝ) ![1, 100, 0, 755000 / 7] 0 = 200 := by
    simp only [Inlet.sound_speed_1, hal, Inlet.velocity_x_b, bc_density_vel_x, bc_density,
      Matrix.cons_val_zero, Matrix.cons_val_one, Matrix.head_cons]
    norm_num [sampleParams]
  have hstar : sound_speed_l_star M (sampleParams ℝ) ![1, 100, 0, 755000 / 7] = 650 / 3 := by
    simp only [sound_speed_l_star, hal, Matrix.cons_val_zero, Matrix.cons_val_one,
      Matrix.head_cons]
    norm_num [sampleParams]
  refine ⟨hal, ha1, hstar, ?_, ?_⟩
  · simp only [Inlet.rho_1, ha1, hM.pow_eq, Matrix.cons_val_zero,
      Matrix.cons_val_one, Matrix.head_cons, Matrix.cons_val_two, Matrix.tail_cons,
      Matrix.cons_val_three, hp]
    rw [show (200 : ℝ) * 200 * 1 / ((sampleParams ℝ).kappa * (288000 / 7)) = (5 / 6) ^ (2 : ℝ) by
          rw [Real.rpow_two]; norm_num [sampleParams],
      show (sampleParams ℝ).c_v / (sampleParams ℝ).R = (5 / 2 : ℝ) by norm_num [sampleParams]]
    show ((5 / 6 : ℝ) ^ (2 : ℝ)) ^ (5 / 2 : ℝ) * 1 = (5 / 6) ^ 5
    rw [← Real.rpow_mul (by norm_num), mul_one,
      show (2 : ℝ) * (5 / 2) = ((5 : ℕ) : ℝ) by norm_num, Real.rpow_natCast]
  · simp only [rho_l_star, hstar, hal, hM.pow_eq, Matrix.cons_val_zero]
    rw [show 2 * (sampleParams ℝ).c_v / (sampleParams ℝ).R = ((5 : ℕ) : ℝ) by
          norm_num [sampleParams],
      show (650 / 3 / 240 : ℝ) = 65 / 72 by norm_num]
    show ((65 / 72 : ℝ)) ^ ((5 : ℕ) : ℝ) * 1 = (65 / 72) ^ 5
    rw [Real.rpow_natCast, mul_one]

end TieEvaluation

section NormalNegX

/-- For the normal `(-1, 0)` the angle is `pi` and the mass component of the rotated
contraction flux is minus the x-momentum of the state. -/
theorem rotated_flux_normal_neg_x (M : MathOps ℝ) (hM : M.IsReal) (P : Params ℝ)
    (w : Fin 4 → ℝ) :
    (rotated_flux M P (-1) 0 w).map (fun flux => flux 0) = some (-(w 1)) := by
  have harg : Complex.arg ⟨-1, 0⟩ = Real.pi := by
    rw [show (⟨-1, 0⟩ : ℂ) = -1 from by apply Complex.ext <;> simp]
    exact Complex.arg_neg_one
  rw [rotated_flux_eq]
  simp [dot_vector, T_rot, hM.atan2_eq, hM.cos_eq, hM.sin_eq, harg, f_1_0, A_1_0_0, A_1_0_1,
    A_1_0_2, A_1_0_3, Matrix.vecHead, Matrix.vecTail]

/-- Values of the inlet construction at the example state `(1, 200, 0, 100000)` when
`R/c_v = 2/5` and `kappa = 7/5`: `a_1 = a_l = sqrt 44800 > 200` and `rho_1 = 1`. -/
theorem inlet_values_at_example_state (M : MathOps ℝ) (hM : M.IsReal) (P : Params ℝ)
    (hg : P.R / P.c_v = 2 / 5) (hk : P.kappa = 7 / 5) (y : ℝ) :
    Inlet.velocity_x_b y = 200 ∧
    Inlet.sound_speed_1 M P ![1, 200, 0, 100000] y = Real.sqrt 44800 ∧
    Inlet.velocity_x_b y < Inlet.sound_speed_1 M P ![1, 200, 0, 100000] y ∧
    Inlet.rho_1 M P ![1, 200, 0, 100000] y = 1 := by
  have hp : calc_pressure P 1 200 0 100000 = 32000 := by
    rw [calc_pressure, hg]; norm_num
  have hv : Inlet.velocity_x_b y = 200 := by
    norm_num [Inlet.velocity_x_b, bc_density_vel_x, bc_density]
  have hal : sound_speed_l M P ![1, 200, 0, 100000] = Real.sqrt 44800 := by
    simp only [sound_speed_l, calc_sound_speed, hM.sqrt_eq, Matrix.cons_val_zero,
      Matrix.cons_val_one, Matrix.head_cons, Matrix.cons_val_two, Matrix.tail_cons,
      Matrix.cons_val_three, hp, hk]
    norm_num
  have ha1 : Inlet.sound_speed_1 M P ![1, 200, 0, 100000] y = Real.sqrt 44800 := by
    simp only [Inlet.sound_speed_1, hal, hv, hg, Matrix.cons_val_zero, Matrix.cons_val_one,
      Matrix.head_cons]
    norm_num
  refine ⟨hv, ha1, ?_, ?_⟩
  · rw [hv, ha1, Real.lt_sqrt (by norm_num)]
    norm_num
  · simp only [Inlet.rho_1, ha1, hM.pow_eq, Matrix.cons_val_zero, Matrix.cons_val_one,
      Matrix.head_cons, Matrix.cons_val_two, Matrix.tail_cons, Matrix.cons_val_three, hp, hk]
    rw [Real.mul_self_sqrt (by norm_num)]
    rw [show (44800 : ℝ) * 1 / (7 / 5 * 32000) = 1 by norm_num]
    show (1 : ℝ) ^ (P.c_v / P.R) * 1 = 1
    rw [Real.one_rpow, mul_one]

/-- Values of the outlet construction at the interior state `(2, 2, 0, 80001)` with
`R/c_v = 2/5`, `kappa = 7/5`: `p_far = 32000`, `rho_b = 2`, `v_{x,b} = 1`, `v_{y,b} = 0`,
`energy_b = 80004`. -/
theorem outlet_values_at_rho_two (M : MathOps ℝ) (hM : M.IsReal) (y : ℝ) :
    Outlet.p_b (sampleParams ℝ) y = 32000 ∧
    Outlet.rho_b M (sampleParams ℝ) ![2, 2, 0, 80001] y = 2 ∧
    Outlet.velocity_x_b M (sampleParams ℝ) ![2, 2, 0, 80001] y = 1 ∧
    Outlet.velocity_y_b (![2, 2, 0, 80001] : Fin 4 → ℝ) = 0 ∧
    Outlet.energy_b M (sampleParams ℝ) ![2, 2, 0, 80001] y = 80004 := by
  have hp : calc_pressure (sampleParams ℝ) 2 2 0 80001 = 32000 := by
    norm_num [calc_pressure, sampleParams]
  have hfar : Outlet.p_b (sampleParams ℝ) y = 32000 := by
    norm_num [Outlet.p_b, bc_pressure, bc_energy, bc_density_vel_x, bc_density_vel_y,
      bc_density, sampleParams]
  have hrho : Outlet.rho_b M (sampleParams ℝ) ![2, 2, 0, 80001] y = 2 := by
    simp only [Outlet.rho_b, hfar, hM.pow_eq, Matrix.cons_val_zero, Matrix.cons_val_one,
      Matrix.head_cons, Matrix.cons_val_two, Matrix.tail_cons, Matrix.cons_val_three, hp]
    rw [show (32000 : ℝ) / 32000 = 1 by norm_num]
    show (2 : ℝ) * (1 : ℝ) ^ (1 / (sampleParams ℝ).kappa) = 2
    rw [Real.one_rpow, mul_one]
  have hvx : Outlet.velocity_x_b M (sampleParams ℝ) ![2, 2, 0, 80001] y = 1 := by
    simp only [Outlet.velocity_x_b, calc_sound_speed, hrho, hfar, hM.sqrt_eq,
      Matrix.cons_val_zero, Matrix.cons_val_one, Matrix.head_cons, Matrix.cons_val_two,
      Matrix.tail_cons, Matrix.cons_val_three, hp]
    norm_num
  have hvy : Outlet.velocity_y_b (![2, 2, 0, 80001] : Fin 4 → ℝ) = 0 := by
    simp [Outlet.velocity_y_b]
  refine ⟨hfar, hrho, hvx, hvy, ?_⟩
  simp only [Outlet.energy_b, hrho, hvx, hvy, hfar]
  norm_num [calc_energy, sampleParams]

end NormalNegX

section ClosedEvaluations

/-- The real library functions satisfy `MathOps.IsReal`. -/
theorem real_mathOps_isReal :
    MathOps.IsReal
      ⟨Real.sqrt, Real.rpow, fun y x => Complex.arg ⟨x, y⟩, Real.cos, Real.sin⟩ :=
  ⟨rfl, rfl, fun _ _ => rfl, rfl, rfl⟩

/-- C16 (evaluation at the failing input): with `R/c_v = 2/5`, `kappa = 7/5`, the real library
functions and the valid interior state `(1, 100, 0, 755000/7)` (`p_l = 288000/7`, `a_l = 240`),
the prescribed velocity `200` equals the source `sound_speed_1` (a tie), but the intersection
state has `rho_1 = (5/6)^5` and `v_x = 200` while the star state has `rho_star = (65/72)^5` and
`v_x = 650/3`; for the normal `(-1, 0)` the mass components of the two branch fluxes
differ. -/
theorem inlet_tie_intersection_and_star_differ :
    Inlet.velocity_x_b (0 : ℝ)
      = Inlet.sound_speed_1
          ⟨Real.sqrt, Real.rpow, fun y x => Complex.arg ⟨x, y⟩, Real.cos, Real.sin⟩
          (sampleParams ℝ) ![1, 100, 0, 755000 / 7] 0 ∧
    Inlet.rho_1 ⟨Real.sqrt, Real.rpow, fun y x => Complex.arg ⟨x, y⟩, Real.cos, Real.sin⟩
        (sampleParams ℝ) ![1, 100, 0, 755000 / 7] 0 = (5 / 6) ^ 5 ∧
    rho_l_star ⟨Real.sqrt, Real.rpow, fun y x => Complex.arg ⟨x, y⟩, Real.cos, Real.sin⟩
        (sampleParams ℝ) ![1, 100, 0, 755000 / 7] = (65 / 72) ^ 5 ∧
    Inlet.velocity_x_1 (0 : ℝ) = 200 ∧
    velocity_x_l_star ⟨Real.sqrt, Real.rpow, fun y x => Complex.arg ⟨x, y⟩, Real.cos, Real.sin⟩
        (sampleParams ℝ) ![1, 100, 0, 755000 / 7] = 650 / 3 ∧
    (rotated_flux ⟨Real.sqrt, Real.rpow, fun y x => Complex.arg ⟨x, y⟩, Real.cos, Real.sin⟩
        (sampleParams ℝ) (-1) 0
        (Inlet.flux_global
          ⟨Real.sqrt, Real.rpow, fun y x => Complex.arg ⟨x, y⟩, Real.cos, Real.sin⟩
          (sampleParams ℝ) ![1, 100, 0, 755000 / 7] 0)).map (fun flux => flux 0)
      = some (-(200 * (5 / 6) ^ 5)) ∧
    (rotated_flux ⟨Real.sqrt, Real.rpow, fun y x => Complex.arg ⟨x, y⟩, Real.cos, Real.sin⟩
        (sampleParams ℝ) (-1) 0
        (star_flux_global
          ⟨Real.sqrt, Real.rpow, fun y x => Complex.arg ⟨x, y⟩, Real.cos, Real.sin⟩
          (sampleParams ℝ) ![1, 100, 0, 755000 / 7])).map (fun flux => flux 0)
      = some (-(650 / 3 * (65 / 72) ^ 5)) ∧
    (-(200 * (5 / 6) ^ 5) : ℝ) ≠ -(650 / 3 * (65 / 72) ^ 5) := by
  obtain ⟨_, ha1, hstar, hr1, hrs⟩ := inlet_values_at_tie_state _ real_mathOps_isReal
  have hv : Inlet.velocity_x_b (0 : ℝ) = 200 := by
    norm_num [Inlet.velocity_x_b, bc_density_vel_x, bc_density]
  refine ⟨by rw [hv, ha1], hr1, hrs, hv, hstar, ?_, ?_, by norm_num⟩
  · rw [rotated_flux_normal_neg_x _ real_mathOps_isReal]
    simp only [Inlet.flux_global, Matrix.cons_val_one, Matrix.head_cons, hr1,
      Inlet.velocity_x_1, hv]
  · rw [rotated_flux_normal_neg_x _ real_mathOps_isReal]
    simp only [star_flux_global, Matrix.cons_val_one, Matrix.head_cons, hrs,
      velocity_x_l_star, hstar]

/-- C17 (counterexample): with `R/c_v = 2/5`, `kappa = 7/5`, the interior state
`(1, 200, 0, 100000)` and the normal `(-1, 0)`, the first component of the far-field flux is
`-200`, while `rho_1 * v_{x,1}` of the chosen (intersection) state is `200`. -/
theorem far_field_example_mass_flux_is_negative :
    (far_field_flux ⟨Real.sqrt, Real.rpow, fun y x => Complex.arg ⟨x, y⟩, Real.cos, Real.sin⟩
        (sampleParams ℝ) (-1) 0 0 ![1, 200, 0, 100000]).map (fun flux => flux 0)
      = some (-200) ∧
    Inlet.rho_1 ⟨Real.sqrt, Real.rpow, fun y x => Complex.arg ⟨x, y⟩, Real.cos, Real.sin⟩
        (sampleParams ℝ) ![1, 200, 0, 100000] 0 * Inlet.velocity_x_1 (0 : ℝ) = 200 ∧
    (far_field_flux ⟨Real.sqrt, Real.rpow, fun y x => Complex.arg ⟨x, y⟩, Real.cos, Real.sin⟩
        (sampleParams ℝ) (-1) 0 0 ![1, 200, 0, 100000]).map (fun flux => flux 0)
      ≠ some (Inlet.rho_1
          ⟨Real.sqrt, Real.rpow, fun y x => Complex.arg ⟨x, y⟩, Real.cos, Real.sin⟩
          (sampleParams ℝ) ![1, 200, 0, 100000] 0 * Inlet.velocity_x_1 (0 : ℝ)) := by
  obtain ⟨hv, _, hlt, hr1⟩ := inlet_values_at_example_state _ real_mathOps_isReal
    (sampleParams ℝ) (by norm_num [sampleParams]) (by norm_num [sampleParams]) 0
  have hflux : (far_field_flux
      ⟨Real.sqrt, Real.rpow, fun y x => Complex.arg ⟨x, y⟩, Real.cos, Real.sin⟩
      (sampleParams ℝ) (-1) 0 0 ![1, 200, 0, 100000]).map (fun flux => flux 0)
      = some (-200) := by
    simp only [far_field_flux, inlet_flux, hlt, if_true,
      show ((-1 : ℝ) < 0) from by norm_num]
    rw [rotated_flux_normal_neg_x _ real_mathOps_isReal]
    simp only [Inlet.flux_global, Matrix.cons_val_one, Matrix.head_cons, hr1,
      Inlet.velocity_x_1, hv]
    norm_num
  have hprod : Inlet.rho_1
      ⟨Real.sqrt, Real.rpow, fun y x => Complex.arg ⟨x, y⟩, Real.cos, Real.sin⟩
      (sampleParams ℝ) ![1, 200, 0, 100000] 0 * Inlet.velocity_x_1 (0 : ℝ) = 200 := by
    rw [hr1, Inlet.velocity_x_1, hv]; norm_num
  refine ⟨hflux, hprod, ?_⟩
  rw [hflux, hprod]
  norm_num

/-- C17 (amended): with `R/c_v = 2/5`, `kappa = 7/5`, the real library functions, the interior
state `(1, 200, 0, 100000)`, the example far-field profile and the normal `(-1, 0)`, the
solver takes the inlet subsonic (intersection) branch and the first component of its flux is
`-(rho_1 * v_{x,1}) = -200`: the mass flux along the outward normal `(-1, 0)`. -/
theorem far_field_inlet_example_mass_flux (M : MathOps ℝ) (hM : M.IsReal) (P : Params ℝ)
    (hg : P.R / P.c_v = 2 / 5) (hk : P.kappa = 7 / 5) (y : ℝ) :
    Inlet.velocity_x_b y < Inlet.sound_speed_1 M P ![1, 200, 0, 100000] y ∧
    far_field_flux M P (-1) 0 y ![1, 200, 0, 100000]
      = rotated_flux M P (-1) 0 (Inlet.flux_global M P ![1, 200, 0, 100000] y) ∧
    (far_field_flux M P (-1) 0 y ![1, 200, 0, 100000]).map (fun flux => flux 0)
      = some (-(Inlet.rho_1 M P ![1, 200, 0, 100000] y * Inlet.velocity_x_1 y)) ∧
    Inlet.rho_1 M P ![1, 200, 0, 100000] y * Inlet.velocity_x_1 y = 200 := by
  obtain ⟨hv, _, hlt, hr1⟩ := inlet_values_at_example_state M hM P hg hk y
  have hbranch : far_field_flux M P (-1) 0 y ![1, 200, 0, 100000]
      = rotated_flux M P (-1) 0 (Inlet.flux_global M P ![1, 200, 0, 100000] y) := by
    simp only [far_field_flux, inlet_flux, hlt, if_true,
      show ((-1 : ℝ) < 0) from by norm_num]
  refine ⟨hlt, hbranch, ?_, ?_⟩
  · rw [hbranch, rotated_flux_normal_neg_x M hM]
    simp only [Inlet.flux_global, Matrix.cons_val_one, Matrix.head_cons, mul_comm]
  · rw [hr1, Inlet.velocity_x_1, hv]; norm_num

/-- Witness of C17 (amended) with the real library functions and `R = 2`, `c_v = 5`. -/
theorem far_field_inlet_example_mass_flux_witness :
    (sampleParams ℝ).R / (sampleParams ℝ).c_v = 2 / 5 ∧ (sampleParams ℝ).kappa = 7 / 5 ∧
    (far_field_flux ⟨Real.sqrt, Real.rpow, fun y x => Complex.arg ⟨x, y⟩, Real.cos, Real.sin⟩
        (sampleParams ℝ) (-1) 0 0 ![1, 200, 0, 100000]).map (fun flux => flux 0)
      = some (-(Inlet.rho_1
          ⟨Real.sqrt, Real.rpow, fun y x => Complex.arg ⟨x, y⟩, Real.cos, Real.sin⟩
          (sampleParams ℝ) ![1, 200, 0, 100000] 0 * Inlet.velocity_x_1 (0 : ℝ))) :=
  ⟨by norm_num [sampleParams], by norm_num [sampleParams],
    (far_field_inlet_example_mass_flux _ real_mathOps_isReal (sampleParams ℝ)
      (by norm_num [sampleParams]) (by norm_num [sampleParams]) 0).2.2.1⟩

/-- C19 (evaluation at the failing input): with `R/c_v = 2/5`, `kappa = 7/5`, the real library
functions and the interior state `(2, 2, 0, 80001)` (so `p_l = p_far = 32000`), the outlet
boundary state is `rho_b = 2`, `v_b = (1, 0)`, `energy_b = 80004`; `calc_pressure` of the
assembled conserved state is `160006/5`, not `p_far = 32000`, and
`sound_speed_b^2 = 560021/25`, not `kappa * p_far / rho_b = 22400`. -/
theorem outlet_boundary_pressure_not_p_far :
    calc_pressure (sampleParams ℝ)
        (Outlet.rho_b
          ⟨Real.sqrt, Real.rpow, fun y x => Complex.arg ⟨x, y⟩, Real.cos, Real.sin⟩
          (sampleParams ℝ) ![2, 2, 0, 80001] 0)
        (Outlet.velocity_x_b
            ⟨Real.sqrt, Real.rpow, fun y x => Complex.arg ⟨x, y⟩, Real.cos, Real.sin⟩
            (sampleParams ℝ) ![2, 2, 0, 80001] 0
          * Outlet.rho_b
            ⟨Real.sqrt, Real.rpow, fun y x => Complex.arg ⟨x, y⟩, Real.cos, Real.sin⟩
            (sampleParams ℝ) ![2, 2, 0, 80001] 0)
        (Outlet.velocity_y_b (![2, 2, 0, 80001] : Fin 4 → ℝ)
          * Outlet.rho_b
            ⟨Real.sqrt, Real.rpow, fun y x => Complex.arg ⟨x, y⟩, Real.cos, Real.sin⟩
            (sampleParams ℝ) ![2, 2, 0, 80001] 0)
        (Outlet.energy_b
          ⟨Real.sqrt, Real.rpow, fun y x => Complex.arg ⟨x, y⟩, Real.cos, Real.sin⟩
          (sampleParams ℝ) ![2, 2, 0, 80001] 0)
      = 160006 / 5 ∧
    Outlet.p_b (sampleParams ℝ) 0 = 32000 ∧
    Outlet.sound_speed_b
        ⟨Real.sqrt, Real.rpow, fun y x => Complex.arg ⟨x, y⟩, Real.cos, Real.sin⟩
        (sampleParams ℝ) ![2, 2, 0, 80001] 0 ^ 2 = 560021 / 25 ∧
    (sampleParams ℝ).kappa * Outlet.p_b (sampleParams ℝ) 0
        / Outlet.rho_b
            ⟨Real.sqrt, Real.rpow, fun y x => Complex.arg ⟨x, y⟩, Real.cos, Real.sin⟩
            (sampleParams ℝ) ![2, 2, 0, 80001] 0 = 22400 := by
  obtain ⟨hfar, hrho, hvx, hvy, he⟩ := outlet_values_at_rho_two _ real_mathOps_isReal 0
  have hp : calc_pressure (sampleParams ℝ) 2 (1 * 2) (0 * 2) 80004 = 160006 / 5 := by
    norm_num [calc_pressure, sampleParams]
  refine ⟨by rw [hrho, hvx, hvy, he, hp], hfar, ?_, ?_⟩
  · simp only [Outlet.sound_speed_b, calc_sound_speed, hrho, hvx, hvy, he, hp]
    rw [Real.sq_sqrt (by norm_num [sampleParams])]
    norm_num [sampleParams]
  · rw [hfar, hrho]; norm_num [sampleParams]

end ClosedEvaluations

/-! ## Solid-wall boundary form -/

section SolidWallClaims

/-- C21: for every unit normal `(nx, ny)` and every wall pressure `p_b`, the local flux
`(0, p_b, 0, 0)` rotated with `rotate(-alpha)`, `alpha = atan2(ny, nx)` (real `cos`, `sin`),
has components 0 and 3 equal to 0 and a momentum part of Euclidean norm `|p_b|`. -/
theorem rotated_wall_flux_mass_energy_zero (M : MathOps ℝ) (hM : M.IsReal) (nx ny p_b : ℝ)
    (_hn : nx ^ 2 + ny ^ 2 = 1) :
    SolidWall.rotated_wall_flux M nx ny p_b 0 = 0 ∧
    SolidWall.rotated_wall_flux M nx ny p_b 3 = 0 ∧
    Real.sqrt (SolidWall.rotated_wall_flux M nx ny p_b 1 ^ 2
        + SolidWall.rotated_wall_flux M nx ny p_b 2 ^ 2) = |p_b| := by
  refine ⟨?_, ?_, ?_⟩
  · simp [SolidWall.rotated_wall_flux, dot_vector, T_rot, Matrix.vecHead, Matrix.vecTail]
  · simp [SolidWall.rotated_wall_flux, dot_vector, T_rot, Matrix.vecHead, Matrix.vecTail]
  · have hcs := Real.cos_sq_add_sin_sq (M.atan2 ny nx)
    rw [← Real.sqrt_sq_eq_abs]
    congr 1
    simp [SolidWall.rotated_wall_flux, dot_vector, T_rot, hM.cos_eq, hM.sin_eq,
      Matrix.vecHead, Matrix.vecTail]
    linear_combination (p_b ^ 2) * hcs

/-- Witness of C21 at the oblique unit normal `(0.6, 0.8)` and `p_b = 32000`. -/
theorem rotated_wall_flux_mass_energy_zero_witness :
    (3 / 5 : ℝ) ^ 2 + (4 / 5) ^ 2 = 1 ∧
    SolidWall.rotated_wall_flux
        ⟨Real.sqrt, Real.rpow, fun y x => Complex.arg ⟨x, y⟩, Real.cos, Real.sin⟩
        (3 / 5) (4 / 5) 32000 0 = 0 ∧
    SolidWall.rotated_wall_flux
        ⟨Real.sqrt, Real.rpow, fun y x => Complex.arg ⟨x, y⟩, Real.cos, Real.sin⟩
        (3 / 5) (4 / 5) 32000 3 = 0 ∧
    Real.sqrt (SolidWall.rotated_wall_flux
          ⟨Real.sqrt, Real.rpow, fun y x => Complex.arg ⟨x, y⟩, Real.cos, Real.sin⟩
          (3 / 5) (4 / 5) 32000 1 ^ 2
        + SolidWall.rotated_wall_flux
          ⟨Real.sqrt, Real.rpow, fun y x => Complex.arg ⟨x, y⟩, Real.cos, Real.sin⟩
          (3 / 5) (4 / 5) 32000 2 ^ 2) = |(32000 : ℝ)| :=
  ⟨by norm_num,
    rotated_wall_flux_mass_energy_zero
      ⟨Real.sqrt, Real.rpow, fun y x => Complex.arg ⟨x, y⟩, Real.cos, Real.sin⟩
      ⟨rfl, rfl, fun _ _ => rfl, rfl, rfl⟩ (3 / 5) (4 / 5) 32000 (by norm_num)⟩

/-- The isentropic form of the density expression shared by the wall and the inlet: for
`rho_l > 0`, `p_l > 0`, `kappa > 0` and `R/c_v = kappa - 1`,
`(a_b^2 * rho_l / (kappa * p_l))^(c_v/R) * rho_l = rho_l * (a_b^2 / a_l^2)^(1/(kappa - 1))`. -/
theorem isentropic_density_form (P : Params ℝ) (wl : Fin 4 → ℝ) (hrho : 0 < wl 0)
    (hp : 0 < calc_pressure P (wl 0) (wl 1) (wl 2) (wl 3)) (hk : 0 < P.kappa)
    (hg : P.R / P.c_v = P.kappa - 1) (a_b : ℝ) :
    Real.rpow (a_b * a_b * wl 0 / (P.kappa * calc_pressure P (wl 0) (wl 1) (wl 2) (wl 3)))
        (P.c_v / P.R) * wl 0
      = wl 0 * (a_b ^ 2 / calc_sound_speed Real.sqrt P (wl 0) (wl 1) (wl 2) (wl 3) ^ 2)
          ^ (1 / (P.kappa - 1)) := by
  have hal : calc_sound_speed Real.sqrt P (wl 0) (wl 1) (wl 2) (wl 3) ^ 2
      = P.kappa * calc_pressure P (wl 0) (wl 1) (wl 2) (wl 3) / wl 0 :=
    Real.sq_sqrt (div_nonneg (mul_nonneg hk.le hp.le) hrho.le)
  have hexp : P.c_v / P.R = 1 / (P.kappa - 1) := by
    rw [← hg, one_div, inv_div]
  have hbase : a_b * a_b * wl 0 / (P.kappa * calc_pressure P (wl 0) (wl 1) (wl 2) (wl 3))
      = a_b ^ 2 / calc_sound_speed Real.sqrt P (wl 0) (wl 1) (wl 2) (wl 3) ^ 2 := by
    rw [hal, div_div_eq_mul_div]
    ring
  rw [hbase, hexp, mul_comm]
  rfl

/-- C22: for an interior state with `rho_l > 0`, `p_l > 0`, `kappa > 0` and
`R/c_v = kappa - 1 > 0`, the density expression of the code,
`(a_b^2 * rho_l / (kappa * p_l))^(c_v/R) * rho_l`, equals the isentropic relation
`rho_l * (a_b^2 / a_l^2)^(1/(kappa - 1))`, `a_l = calc_sound_speed(w_l)`, for every `a_b`;
the wall density `rho_b` and the inlet intersection density `rho_1` are this expression at
their sound speeds. -/
theorem wall_and_inlet_density_isentropic (M : MathOps ℝ) (hM : M.IsReal) (P : Params ℝ)
    (wl : Fin 4 → ℝ) (y : ℝ) (hrho : 0 < wl 0)
    (hp : 0 < calc_pressure P (wl 0) (wl 1) (wl 2) (wl 3)) (hk : 0 < P.kappa)
    (hg : P.R / P.c_v = P.kappa - 1) (_hg1 : 0 < P.kappa - 1) :
    (∀ a_b : ℝ,
      M.pow (a_b * a_b * wl 0 / (P.kappa * calc_pressure P (wl 0) (wl 1) (wl 2) (wl 3)))
          (P.c_v / P.R) * wl 0
        = wl 0 * (a_b ^ 2 / calc_sound_speed Real.sqrt P (wl 0) (wl 1) (wl 2) (wl 3) ^ 2)
            ^ (1 / (P.kappa - 1))) ∧
    SolidWall.rho_b M P wl
      = wl 0 * (SolidWall.sound_speed_b M P wl ^ 2
            / calc_sound_speed Real.sqrt P (wl 0) (wl 1) (wl 2) (wl 3) ^ 2)
          ^ (1 / (P.kappa - 1)) ∧
    Inlet.rho_1 M P wl y
      = wl 0 * (Inlet.sound_speed_1 M P wl y ^ 2
            / calc_sound_speed Real.sqrt P (wl 0) (wl 1) (wl 2) (wl 3) ^ 2)
          ^ (1 / (P.kappa - 1)) := by
  refine ⟨fun a_b => ?_, ?_, ?_⟩
  · rw [hM.pow_eq]
    exact isentropic_density_form P wl hrho hp hk hg a_b
  · rw [SolidWall.rho_b, hM.pow_eq]
    exact isentropic_density_form P wl hrho hp hk hg _
  · rw [Inlet.rho_1, hM.pow_eq]
    exact isentropic_density_form P wl hrho hp hk hg _

/-- Witness of C22 at the interior state `(1, 200, 0, 100000)` with `R = 2`, `c_v = 5`,
`kappa = 7/5` and the real library functions. -/
theorem wall_and_inlet_density_isentropic_witness :
    (0 : ℝ) < (![1, 200, 0, 100000] : Fin 4 → ℝ) 0 ∧
    0 < calc_pressure (sampleParams ℝ) ((![1, 200, 0, 100000] : Fin 4 → ℝ) 0)
          ((![1, 200, 0, 100000] : Fin 4 → ℝ) 1) ((![1, 200, 0, 100000] : Fin 4 → ℝ) 2)
          ((![1, 200, 0, 100000] : Fin 4 → ℝ) 3) ∧
    0 < (sampleParams ℝ).kappa ∧
    (sampleParams ℝ).R / (sampleParams ℝ).c_v = (sampleParams ℝ).kappa - 1 ∧
    0 < (sampleParams ℝ).kappa - 1 ∧
    SolidWall.rho_b ⟨Real.sqrt, Real.rpow, fun y x => Complex.arg ⟨x, y⟩, Real.cos, Real.sin⟩
        (sampleParams ℝ) ![1, 200, 0, 100000]
      = (![1, 200, 0, 100000] : Fin 4 → ℝ) 0
          * (SolidWall.sound_speed_b
                ⟨Real.sqrt, Real.rpow, fun y x => Complex.arg ⟨x, y⟩, Real.cos, Real.sin⟩
                (sampleParams ℝ) ![1, 200, 0, 100000] ^ 2
              / calc_sound_speed Real.sqrt (sampleParams ℝ)
                  ((![1, 200, 0, 100000] : Fin 4 → ℝ) 0) ((![1, 200, 0, 100000] : Fin 4 → ℝ) 1)
                  ((![1, 200, 0, 100000] : Fin 4 → ℝ) 2)
                  ((![1, 200, 0, 100000] : Fin 4 → ℝ) 3) ^ 2)
            ^ (1 / ((sampleParams ℝ).kappa - 1)) :=
  ⟨by norm_num, by norm_num [calc_pressure, sampleParams], by norm_num [sampleParams],
    by norm_num [sampleParams], by norm_num [sampleParams],
    (wall_and_inlet_density_isentropic
      ⟨Real.sqrt, Real.rpow, fun y x => Complex.arg ⟨x, y⟩, Real.cos, Real.sin⟩
      ⟨rfl, rfl, fun _ _ => rfl, rfl, rfl⟩ (sampleParams ℝ) ![1, 200, 0, 100000] 0
      (by norm_num) (by norm_num [calc_pressure, sampleParams]) (by norm_num [sampleParams])
      (by norm_num [sampleParams]) (by norm_num [sampleParams])).2.1⟩

variable {K : Type} [LinearOrderedField K]

/-- C23: each wrapper `bdy_flux_solid_wall_comp_m` returns
`∑ i < n, wt[i] * v.val[i] * numerical_flux_i(m, w_l, w_r, nx[i], ny[i])`, where `w_l` is the
interior state at point `i` and the mirrored state `w_r` has the same four components; the
value is the same for any other library functions and constants, the only other inputs of
the wall pressure `p_b` and of the rotated wall flux. -/
theorem bdy_flux_solid_wall_comp_wrappers_eq_sum
    (numerical_flux_i : Int → (Fin 4 → K) → (Fin 4 → K) → K → K → K)
    (M M' : MathOps K) (P P' : Params K) (n : Int) (wt : Nat → K) (ue : Nat → Func K)
    (v : Func K) (e : Geom K) (ext : ExtData K) :
    (∀ i, SolidWall.w_r ext i = SolidWall.w_l ext i ∧
      SolidWall.w_l ext i
        = ![(ext.fn 0).val i, (ext.fn 1).val i, (ext.fn 2).val i, (ext.fn 3).val i]) ∧
    bdy_flux_solid_wall_comp_0 numerical_flux_i M P n wt ue v e ext
      = ∑ i in Finset.range n.toNat, wt i * v.val i
          * numerical_flux_i 0 (SolidWall.w_l ext i) (SolidWall.w_r ext i) (e.nx i) (e.ny i) ∧
    bdy_flux_solid_wall_comp_1 numerical_flux_i M P n wt ue v e ext
      = ∑ i in Finset.range n.toNat, wt i * v.val i
          * numerical_flux_i 1 (SolidWall.w_l ext i) (SolidWall.w_r ext i) (e.nx i) (e.ny i) ∧
    bdy_flux_solid_wall_comp_2 numerical_flux_i M P n wt ue v e ext
      = ∑ i in Finset.range n.toNat, wt i * v.val i
          * numerical_flux_i 2 (SolidWall.w_l ext i) (SolidWall.w_r ext i) (e.nx i) (e.ny i) ∧
    bdy_flux_solid_wall_comp_3 numerical_flux_i M P n wt ue v e ext
      = ∑ i in Finset.range n.toNat, wt i * v.val i
          * numerical_flux_i 3 (SolidWall.w_l ext i) (SolidWall.w_r ext i) (e.nx i) (e.ny i) ∧
    bdy_flux_solid_wall_comp_0 numerical_flux_i M P n wt ue v e ext
      = bdy_flux_solid_wall_comp_0 numerical_flux_i M' P' n wt ue v e ext ∧
    bdy_flux_solid_wall_comp_1 numerical_flux_i M P n wt ue v e ext
      = bdy_flux_solid_wall_comp_1 numerical_flux_i M' P' n wt ue v e ext ∧
    bdy_flux_solid_wall_comp_2 numerical_flux_i M P n wt ue v e ext
      = bdy_flux_solid_wall_comp_2 numerical_flux_i M' P' n wt ue v e ext ∧
    bdy_flux_solid_wall_comp_3 numerical_flux_i M P n wt ue v e ext
      = bdy_flux_solid_wall_comp_3 numerical_flux_i M' P' n wt ue v e ext := by
  refine ⟨fun i => ⟨rfl, rfl⟩, ?_, ?_, ?_, ?_, rfl, rfl, rfl, rfl⟩ <;>
    simp only [bdy_flux_solid_wall_comp_0, bdy_flux_solid_wall_comp_1,
      bdy_flux_solid_wall_comp_2, bdy_flux_solid_wall_comp_3, bdy_flux_solid_wall_comp,
      accumulate_eq_sum]

end SolidWallClaims

/-! ## Boundary profile, pressure sign -/

section ProfileClaims

variable {K : Type} [LinearOrderedField K]

/-- C24: for every `y`, `bc_pressure(y)` equals `calc_pressure` of the profile
`(bc_density, bc_density_vel_x, bc_density_vel_y, bc_energy)(y)`, that is `(R/c_v) * 80000`,
which is `32000` when `R/c_v = 2/5`; the five profile functions are constant in `y`. -/
theorem bc_pressure_eq_calc_pressure (P : Params K) (y y' : K) :
    bc_pressure P y
      = calc_pressure P (bc_density y) (bc_density_vel_x y) (bc_density_vel_y y)
          (bc_energy y) ∧
    bc_pressure P y = P.R / P.c_v * 80000 ∧
    (P.R / P.c_v = 2 / 5 → bc_pressure P y = 32000) ∧
    bc_density y = (1 : K) ∧ bc_density_vel_x y = (200 : K) ∧ bc_density_vel_y y = (0 : K) ∧
    bc_energy y = (100000 : K) ∧
    bc_density y = bc_density y' ∧ bc_density_vel_x y = bc_density_vel_x y' ∧
    bc_density_vel_y y = bc_density_vel_y y' ∧ bc_energy y = bc_energy y' ∧
    bc_pressure P y = bc_pressure P y' := by
  have h : bc_pressure P y = P.R / P.c_v * 80000 := by
    simp only [bc_pressure, bc_energy, bc_density_vel_x, bc_density_vel_y, bc_density]
    norm_num
  refine ⟨rfl, h, fun hg => ?_, ?_, ?_, rfl, ?_, rfl, rfl, rfl, rfl, rfl⟩
  · rw [h, hg]; norm_num
  · norm_num [bc_density]
  · norm_num [bc_density_vel_x]
  · norm_num [bc_energy]

/-- C25: for `rho > 0` and `R/c_v > 0`, `calc_pressure` returns the raw value
`(R/c_v) * (E - (rho_v_x^2 + rho_v_y^2)/(2*rho))`; it is negative exactly when
`E < (rho_v_x^2 + rho_v_y^2)/(2*rho)` and zero exactly when the two are equal. -/
theorem calc_pressure_sign (P : Params K) (rho rho_v_x rho_v_y energy : K) (_hrho : 0 < rho)
    (hg : 0 < P.R / P.c_v) :
    calc_pressure P rho rho_v_x rho_v_y energy
      = (P.R / P.c_v) * (energy - (rho_v_x ^ 2 + rho_v_y ^ 2) / (2 * rho)) ∧
    (calc_pressure P rho rho_v_x rho_v_y energy < 0
      ↔ energy < (rho_v_x ^ 2 + rho_v_y ^ 2) / (2 * rho)) ∧
    (calc_pressure P rho rho_v_x rho_v_y energy = 0
      ↔ energy = (rho_v_x ^ 2 + rho_v_y ^ 2) / (2 * rho)) := by
  have h : calc_pressure P rho rho_v_x rho_v_y energy
      = (P.R / P.c_v) * (energy - (rho_v_x ^ 2 + rho_v_y ^ 2) / (2 * rho)) := by
    simp only [calc_pressure, pow_two]
  refine ⟨h, ?_, ?_⟩
  · rw [h, mul_neg_iff]
    constructor
    · rintro (⟨_, h2⟩ | ⟨h1, _⟩)
      · linarith
      · linarith
    · intro h2
      exact Or.inl ⟨hg, by linarith⟩
  · rw [h, mul_eq_zero]
    constructor
    · rintro (h1 | h2)
      · linarith
      · linarith
    · intro h2
      exact Or.inr (by linarith)

/-- Witness of C25 at `w = (2, 1, 0, 1/8)`, a state with negative pressure. -/
theorem calc_pressure_sign_witness :
    (0 : ℚ) < 2 ∧ 0 < (sampleParams ℚ).R / (sampleParams ℚ).c_v ∧
    (calc_pressure (sampleParams ℚ) 2 1 0 (1 / 8) < 0
      ↔ (1 / 8 : ℚ) < (1 ^ 2 + 0 ^ 2) / (2 * 2)) :=
  ⟨by norm_num, by norm_num [sampleParams],
    (calc_pressure_sign (sampleParams ℚ) 2 1 0 (1 / 8) (by norm_num)
      (by norm_num [sampleParams])).2.1⟩

end ProfileClaims


/-! ## Contraction flux against the analytic flux, symmetry of the Jacobians -/

section ContractionClaims

variable {K : Type} [LinearOrderedField K]

/-- The energy component of the contraction flux is the analytic energy flux plus
`(R/c_v) * rho_v_x * (rho_v_x^2 + rho_v_y^2) * (rho - 1) / (2*rho^3)`. -/
theorem f_1_3_eq_analytic_add (P : Params K) (rho rho_v_x rho_v_y energy : K)
    (hrho : rho ≠ 0) :
    f_1_3 P rho rho_v_x rho_v_y energy
      = (rho_v_x / rho) * (energy + calc_pressure P rho rho_v_x rho_v_y energy)
        + (P.R / P.c_v) * rho_v_x * (rho_v_x ^ 2 + rho_v_y ^ 2) * (rho - 1) / (2 * rho ^ 3) := by
  simp only [f_1_3, A_1_3_0, A_1_3_1, A_1_3_2, A_1_3_3, calc_pressure]
  generalize P.R / P.c_v = g
  field_simp
  ring

/-- C29: for `rho ≠ 0`, `f_x(0, w) = rho_v_x`, `f_x(1, w) = rho_v_x^2/rho + calc_pressure(w)`,
`f_x(2, w) = rho_v_x * rho_v_y / rho`, and `f_x(3, w)` is `(rho_v_x/rho)*(E + calc_pressure(w))`
plus `(R/c_v) * rho_v_x * (rho_v_x^2 + rho_v_y^2) * (rho - 1) / (2*rho^3)`, hence the analytic
energy flux when `rho = 1`. -/
theorem contraction_flux_components (P : Params K) (rho rho_v_x rho_v_y energy : K)
    (hrho : rho ≠ 0) :
    f_x P 0 rho rho_v_x rho_v_y energy = some rho_v_x ∧
    f_x P 1 rho rho_v_x rho_v_y energy
      = some (rho_v_x ^ 2 / rho + calc_pressure P rho rho_v_x rho_v_y energy) ∧
    f_x P 2 rho rho_v_x rho_v_y energy = some (rho_v_x * rho_v_y / rho) ∧
    f_x P 3 rho rho_v_x rho_v_y energy
      = some ((rho_v_x / rho) * (energy + calc_pressure P rho rho_v_x rho_v_y energy)
          + (P.R / P.c_v) * rho_v_x * (rho_v_x ^ 2 + rho_v_y ^ 2) * (rho - 1)
              / (2 * rho ^ 3)) ∧
    (rho = 1 → f_x P 3 rho rho_v_x rho_v_y energy
      = some ((rho_v_x / rho) * (energy + calc_pressure P rho rho_v_x rho_v_y energy))) := by
  have h3 : f_x P 3 rho rho_v_x rho_v_y energy
      = some ((rho_v_x / rho) * (energy + calc_pressure P rho rho_v_x rho_v_y energy)
          + (P.R / P.c_v) * rho_v_x * (rho_v_x ^ 2 + rho_v_y ^ 2) * (rho - 1)
              / (2 * rho ^ 3)) := by
    rw [← f_1_3_eq_analytic_add P rho rho_v_x rho_v_y energy hrho]
    simp [f_x]
  refine ⟨?_, ?_, ?_, h3, fun h1 => ?_⟩
  · simp [f_x, f_1_0, A_1_0_0, A_1_0_1, A_1_0_2, A_1_0_3]
  · simp only [f_x, f_1_1, A_1_1_0, A_1_1_1, A_1_1_2, A_1_1_3, calc_pressure]
    generalize P.R / P.c_v = g
    norm_num
    field_simp
    ring
  · simp only [f_x, f_1_2, A_1_2_0, A_1_2_1, A_1_2_2, A_1_2_3]
    norm_num
    field_simp
    ring
  · rw [h3, h1]
    simp

/-- Witness of C29 at `w = (2, 1, 3, 5)`. -/
theorem contraction_flux_components_witness :
    (2 : ℚ) ≠ 0 ∧
    f_x (sampleParams ℚ) 1 2 1 3 5
      = some ((1 : ℚ) ^ 2 / 2 + calc_pressure (sampleParams ℚ) 2 1 3 5) :=
  ⟨by norm_num,
    (contraction_flux_components (sampleParams ℚ) 2 1 3 5 (by norm_num)).2.1⟩

/-- C30: with `s` the permutation of `{0,1,2,3}` that swaps 1 and 2, for every `m`, `n` and
every state with `rho ≠ 0`, `A_2_{s(m)}_{s(n)}(rho, a, b, E) = A_1_m_n(rho, b, a, E)`. -/
theorem jacobian_x_y_symmetry (P : Params K) (rho a b E : K) (_hrho : rho ≠ 0)
    (m n : Fin 4) :
    A_2 P (Equiv.swap (1 : Fin 4) 2 m) (Equiv.swap (1 : Fin 4) 2 n) rho a b E
      = A_1 P m n rho b a E := by
  fin_cases m <;> fin_cases n <;>
    first
      | (simp [Equiv.swap_apply_def, A_1, A_2, A_1_0_0, A_1_0_1, A_1_0_2, A_1_0_3, A_1_1_0,
          A_1_1_1, A_1_1_2, A_1_1_3, A_1_2_0, A_1_2_1, A_1_2_2, A_1_2_3, A_1_3_0, A_1_3_1,
          A_1_3_2, A_1_3_3, A_2_0_0, A_2_0_1, A_2_0_2, A_2_0_3, A_2_1_0, A_2_1_1, A_2_1_2,
          A_2_1_3, A_2_2_0, A_2_2_1, A_2_2_2, A_2_2_3, A_2_3_0, A_2_3_1, A_2_3_2, A_2_3_3]
         done)
      | (simp [Equiv.swap_apply_def, A_1, A_2, A_1_0_0, A_1_0_1, A_1_0_2, A_1_0_3, A_1_1_0,
          A_1_1_1, A_1_1_2, A_1_1_3, A_1_2_0, A_1_2_1, A_1_2_2, A_1_2_3, A_1_3_0, A_1_3_1,
          A_1_3_2, A_1_3_3, A_2_0_0, A_2_0_1, A_2_0_2, A_2_0_3, A_2_1_0, A_2_1_1, A_2_1_2,
          A_2_1_3, A_2_2_0, A_2_2_1, A_2_2_2, A_2_2_3, A_2_3_0, A_2_3_1, A_2_3_2, A_2_3_3]
         ring1)
      | (simp [Equiv.swap_apply_def, A_1, A_2, A_1_0_0, A_1_0_1, A_1_0_2, A_1_0_3, A_1_1_0,
          A_1_1_1, A_1_1_2, A_1_1_3, A_1_2_0, A_1_2_1, A_1_2_2, A_1_2_3, A_1_3_0, A_1_3_1,
          A_1_3_2, A_1_3_3, A_2_0_0, A_2_0_1, A_2_0_2, A_2_0_3, A_2_1_0, A_2_1_1, A_2_1_2,
          A_2_1_3, A_2_2_0, A_2_2_1, A_2_2_2, A_2_2_3, A_2_3_0, A_2_3_1, A_2_3_2, A_2_3_3]
         left
         ring1)

/-- Witness of C30 at `w = (2, 1, 3, 5)`, entry `(3, 1)`: `A_2_3_2(2, 1, 3, 5) = A_1_3_1(2, 3, 1, 5)`. -/
theorem jacobian_x_y_symmetry_witness :
    (2 : ℚ) ≠ 0 ∧
    A_2 (sampleParams ℚ) (Equiv.swap (1 : Fin 4) 2 3) (Equiv.swap (1 : Fin 4) 2 1) 2 1 3 5
      = A_1 (sampleParams ℚ) 3 1 2 3 1 5 :=
  ⟨by norm_num, jacobian_x_y_symmetry (sampleParams ℚ) 2 1 3 5 (by norm_num) 3 1⟩

end ContractionClaims

/-! ## Round-trip defect, star state, wall sound speed, index safety -/

section DefectClaims

variable {K : Type} [LinearOrderedField K]

/-- C31: for `rho ≠ 0` (and `R/c_v ≠ 0`) the round trip through `calc_energy` and
`calc_pressure` misses `p` by exactly `(R/c_v) * (m_x^2 + m_y^2) * (rho^2 - 1) / (2*rho)`;
it reproduces `p` if and only if `rho = 1`, `rho = -1` or `m_x = m_y = 0`. -/
theorem eos_round_trip_defect (P : Params K) (rho m_x m_y p : K) (hrho : rho ≠ 0)
    (hg : P.R / P.c_v ≠ 0) :
    calc_pressure P rho m_x m_y (calc_energy P rho m_x m_y p) - p
      = (P.R / P.c_v) * (m_x ^ 2 + m_y ^ 2) * (rho ^ 2 - 1) / (2 * rho) ∧
    (calc_pressure P rho m_x m_y (calc_energy P rho m_x m_y p) = p
      ↔ rho = 1 ∨ rho = -1 ∨ (m_x = 0 ∧ m_y = 0)) := by
  obtain ⟨hR, hc⟩ := div_ne_zero_iff.mp hg
  have h : calc_pressure P rho m_x m_y (calc_energy P rho m_x m_y p) - p
      = (P.R / P.c_v) * (m_x ^ 2 + m_y ^ 2) * (rho ^ 2 - 1) / (2 * rho) := by
    simp only [calc_pressure, calc_energy]
    field_simp
    ring
  refine ⟨h, ?_⟩
  rw [← sub_eq_zero, h, div_eq_zero_iff, mul_eq_zero, mul_eq_zero]
  constructor
  · rintro (((h1 | h1) | h1) | h1)
    · exact absurd h1 hg
    · right; right
      constructor <;> nlinarith [sq_nonneg m_x, sq_nonneg m_y]
    · have h2 : (rho - 1) * (rho + 1) = 0 := by linear_combination h1
      rcases mul_eq_zero.mp h2 with h3 | h3
      · left; linarith
      · right; left; linarith
    · exact absurd h1 (mul_ne_zero two_ne_zero hrho)
  · rintro (h1 | h1 | ⟨h1, h2⟩)
    · left; right; rw [h1]; norm_num
    · left; right; rw [h1]; norm_num
    · left; left; right; rw [h1, h2]; norm_num

/-- Witness of C31 at `rho = 2`, momentum `(2, 0)`, `p = 1`, `R/c_v = 2/5`: the defect is
`6/5`. -/
theorem eos_round_trip_defect_witness :
    (2 : ℚ) ≠ 0 ∧ (sampleParams ℚ).R / (sampleParams ℚ).c_v ≠ 0 ∧
    calc_pressure (sampleParams ℚ) 2 2 0 (calc_energy (sampleParams ℚ) 2 2 0 1) - 1
      = ((sampleParams ℚ).R / (sampleParams ℚ).c_v) * (2 ^ 2 + 0 ^ 2) * (2 ^ 2 - 1) / (2 * 2) :=
  ⟨by norm_num, by norm_num [sampleParams],
    (eos_round_trip_defect (sampleParams ℚ) 2 2 0 1 (by norm_num)
      (by norm_num [sampleParams])).1⟩

/-- C33: for `rho_l ≠ 0` and `R/c_v > 0`, the star sound speed is
`(R/c_v)/(2 + R/c_v) * v_{x,l} + 2*a_l/(2 + R/c_v)`, the star normal velocity equals it, and
`v_star + 2*(c_v/R)*a_star = v_{x,l} + 2*(c_v/R)*a_l`; the star state written in the outlet
branch is the one written in the inlet branch. -/
theorem star_state_sonic_riemann_invariant (M : MathOps K) (P : Params K) (wl : Fin 4 → K)
    (_hrho : wl 0 ≠ 0) (hg : 0 < P.R / P.c_v) :
    sound_speed_l_star M P wl
      = (P.R / P.c_v) / (2 + P.R / P.c_v) * (wl 1 / wl 0)
        + 2 * calc_sound_speed M.sqrt P (wl 0) (wl 1) (wl 2) (wl 3) / (2 + P.R / P.c_v) ∧
    velocity_x_l_star M P wl = sound_speed_l_star M P wl ∧
    velocity_x_l_star M P wl + 2 * (P.c_v / P.R) * sound_speed_l_star M P wl
      = wl 1 / wl 0
        + 2 * (P.c_v / P.R) * calc_sound_speed M.sqrt P (wl 0) (wl 1) (wl 2) (wl 3) ∧
    (Outlet.sound_speed_l_star M P wl = sound_speed_l_star M P wl ∧
      Outlet.rho_l_star M P wl = rho_l_star M P wl ∧
      Outlet.velocity_x_l_star M P wl = velocity_x_l_star M P wl ∧
      Outlet.velocity_y_l_star wl = velocity_y_l_star wl ∧
      Outlet.p_l_star M P wl = p_l_star M P wl ∧
      Outlet.energy_l_star M P wl = energy_l_star M P wl) := by
  have hinv : P.c_v / P.R = (P.R / P.c_v)⁻¹ := (inv_div _ _).symm
  have h1 : sound_speed_l_star M P wl
      = (P.R / P.c_v) / (2 + P.R / P.c_v) * (wl 1 / wl 0)
        + 2 * calc_sound_speed M.sqrt P (wl 0) (wl 1) (wl 2) (wl 3) / (2 + P.R / P.c_v) := by
    simp only [sound_speed_l_star, sound_speed_l]
    rw [div_mul_eq_div_div, mul_div_assoc]
  refine ⟨h1, rfl, ?_, rfl, rfl, rfl, rfl, rfl, rfl⟩
  rw [velocity_x_l_star, h1, hinv]
  generalize P.R / P.c_v = g at hg ⊢
  have hg2 : (2 + g) ≠ 0 := by positivity
  field_simp
  ring

/-- Witness of C33 at the interior state `(1, 200, 0, 100000)`, `R/c_v = 2/5`, with the
identity for `std::sqrt`. -/
theorem star_state_sonic_riemann_invariant_witness :
    (![1, 200, 0, 100000] : Fin 4 → ℚ) 0 ≠ 0 ∧
    0 < (sampleParams ℚ).R / (sampleParams ℚ).c_v ∧
    velocity_x_l_star ⟨id, fun x _ => x, fun _ _ => 0, id, id⟩ (sampleParams ℚ)
        ![1, 200, 0, 100000]
      = sound_speed_l_star ⟨id, fun x _ => x, fun _ _ => 0, id, id⟩ (sampleParams ℚ)
        ![1, 200, 0, 100000] :=
  ⟨by norm_num, by norm_num [sampleParams],
    (star_state_sonic_riemann_invariant ⟨id, fun x _ => x, fun _ _ => 0, id, id⟩
      (sampleParams ℚ) ![1, 200, 0, 100000] (by norm_num) (by norm_num [sampleParams])).2.1⟩

/-- C35 (counterexample): for the unit normal `(0, 1)` and the interior state
`(1, 0, 100, 100000)` with `R/c_v = 2/5`, the normal velocity is
`(0*0 + 1*100)/1 = 100`, so the claimed value is `a_l + 20`, while the source
`sound_speed_b` is `a_l + (2/5) * 0 / (2 * 1) = a_l`. -/
theorem solid_wall_sound_speed_b_ignores_normal :
    SolidWall.sound_speed_b
        ⟨Real.sqrt, Real.rpow, fun y x => Complex.arg ⟨x, y⟩, Real.cos, Real.sin⟩
        (sampleParams ℝ) ![1, 0, 100, 100000]
      = sound_speed_l
        ⟨Real.sqrt, Real.rpow, fun y x => Complex.arg ⟨x, y⟩, Real.cos, Real.sin⟩
        (sampleParams ℝ) ![1, 0, 100, 100000] ∧
    SolidWall.sound_speed_b
        ⟨Real.sqrt, Real.rpow, fun y x => Complex.arg ⟨x, y⟩, Real.cos, Real.sin⟩
        (sampleParams ℝ) ![1, 0, 100, 100000]
      ≠ sound_speed_l
          ⟨Real.sqrt, Real.rpow, fun y x => Complex.arg ⟨x, y⟩, Real.cos, Real.sin⟩
          (sampleParams ℝ) ![1, 0, 100, 100000]
        + (((sampleParams ℝ).R / (sampleParams ℝ).c_v) / 2)
          * (((0 : ℝ) * 0 + 1 * 100) / 1) := by
  have h : SolidWall.sound_speed_b
        ⟨Real.sqrt, Real.rpow, fun y x => Complex.arg ⟨x, y⟩, Real.cos, Real.sin⟩
        (sampleParams ℝ) ![1, 0, 100, 100000]
      = sound_speed_l
        ⟨Real.sqrt, Real.rpow, fun y x => Complex.arg ⟨x, y⟩, Real.cos, Real.sin⟩
        (sampleParams ℝ) ![1, 0, 100, 100000] := by
    simp [SolidWall.sound_speed_b]
  refine ⟨h, ?_⟩
  rw [h]
  norm_num [sampleParams]

/-- C35 (amended): in the solid-wall solver, for every interior state with `rho_l > 0` and
every normal, the extrapolated sound speed is `a_b = a_l + ((R/c_v)/2) * v_x` with
`v_x = rho_v_x / rho` the interior x-velocity in the global frame; this is the normal
component `(n_x*rho_v_x + n_y*rho_v_y)/rho` when the normal is `(1, 0)`. -/
theorem solid_wall_sound_speed_b_global_x (M : MathOps K) (P : Params K) (wl : Fin 4 → K)
    (_hrho : 0 < wl 0) :
    SolidWall.sound_speed_b M P wl
      = calc_sound_speed M.sqrt P (wl 0) (wl 1) (wl 2) (wl 3)
        + ((P.R / P.c_v) / 2) * (wl 1 / wl 0) ∧
    SolidWall.sound_speed_b M P wl
      = calc_sound_speed M.sqrt P (wl 0) (wl 1) (wl 2) (wl 3)
        + ((P.R / P.c_v) / 2) * ((1 * wl 1 + 0 * wl 2) / wl 0) := by
  have h : SolidWall.sound_speed_b M P wl
      = calc_sound_speed M.sqrt P (wl 0) (wl 1) (wl 2) (wl 3)
        + ((P.R / P.c_v) / 2) * (wl 1 / wl 0) := by
    simp only [SolidWall.sound_speed_b, sound_speed_l]
    ring
  refine ⟨h, ?_⟩
  rw [h, one_mul, zero_mul, add_zero]

/-- Witness of C35 (amended) at the interior state `(1, 0, 100, 100000)`. -/
theorem solid_wall_sound_speed_b_global_x_witness :
    (0 : ℚ) < (![1, 0, 100, 100000] : Fin 4 → ℚ) 0 ∧
    SolidWall.sound_speed_b ⟨id, fun x _ => x, fun _ _ => 0, id, id⟩ (sampleParams ℚ)
        ![1, 0, 100, 100000]
      = calc_sound_speed id (sampleParams ℚ) ((![1, 0, 100, 100000] : Fin 4 → ℚ) 0)
          ((![1, 0, 100, 100000] : Fin 4 → ℚ) 1) ((![1, 0, 100, 100000] : Fin 4 → ℚ) 2)
          ((![1, 0, 100, 100000] : Fin 4 → ℚ) 3)
        + (((sampleParams ℚ).R / (sampleParams ℚ).c_v) / 2)
          * ((![1, 0, 100, 100000] : Fin 4 → ℚ) 1 / (![1, 0, 100, 100000] : Fin 4 → ℚ) 0) :=
  ⟨by norm_num,
    (solid_wall_sound_speed_b_global_x ⟨id, fun x _ => x, fun _ _ => 0, id, id⟩
      (sampleParams ℚ) ![1, 0, 100, 100000] (by norm_num)).1⟩

/-- C36: `f_x` returns a value exactly for the indices `0, 1, 2, 3`; the far-field solver,
which calls `f_x` with the literal indices `0..3`, always produces its flux vector; the
wrappers pass `element = 0, 1, 2, 3`, for which `flux[element]` is a component of the flux
array, so every wrapper of the far-field form returns a value. -/
theorem index_safety (M : MathOps K) (P : Params K)
    (numerical_flux_i : Int → (Fin 4 → K) → (Fin 4 → K) → K → K → K) (n : Int)
    (wt : Nat → K) (ue : Nat → Func K) (v : Func K) (e : Geom K) (ext : ExtData K) :
    (∀ (i : Int) (w0 w1 w3 w4 : K),
      (f_x P i w0 w1 w3 w4).isSome ↔ (i = 0 ∨ i = 1 ∨ i = 2 ∨ i = 3)) ∧
    (∀ (nx ny y : K) (wl : Fin 4 → K), (far_field_flux M P nx ny y wl).isSome) ∧
    (∀ (flux : Fin 4 → K) (k : Fin 4), vec4_get flux ((k : Nat) : Int) = some (flux k)) ∧
    (∀ (flux : Fin 4 → K) (j : Int),
      (vec4_get flux j).isSome ↔ (j = 0 ∨ j = 1 ∨ j = 2 ∨ j = 3)) ∧
    (bdy_flux_inlet_outlet_comp_0 M P n wt ue v e ext
        = bdy_flux_inlet_outlet_comp M P 0 n wt ue v e ext ∧
      bdy_flux_inlet_outlet_comp_1 M P n wt ue v e ext
        = bdy_flux_inlet_outlet_comp M P 1 n wt ue v e ext ∧
      bdy_flux_inlet_outlet_comp_2 M P n wt ue v e ext
        = bdy_flux_inlet_outlet_comp M P 2 n wt ue v e ext ∧
      bdy_flux_inlet_outlet_comp_3 M P n wt ue v e ext
        = bdy_flux_inlet_outlet_comp M P 3 n wt ue v e ext) ∧
    (bdy_flux_solid_wall_comp_0 numerical_flux_i M P n wt ue v e ext
        = bdy_flux_solid_wall_comp numerical_flux_i M P 0 n wt ue v e ext ∧
      bdy_flux_solid_wall_comp_1 numerical_flux_i M P n wt ue v e ext
        = bdy_flux_solid_wall_comp numerical_flux_i M P 1 n wt ue v e ext ∧
      bdy_flux_solid_wall_comp_2 numerical_flux_i M P n wt ue v e ext
        = bdy_flux_solid_wall_comp numerical_flux_i M P 2 n wt ue v e ext ∧
      bdy_flux_solid_wall_comp_3 numerical_flux_i M P n wt ue v e ext
        = bdy_flux_solid_wall_comp numerical_flux_i M P 3 n wt ue v e ext) ∧
    ((bdy_flux_inlet_outlet_comp_0 M P n wt ue v e ext).isSome ∧
      (bdy_flux_inlet_outlet_comp_1 M P n wt ue v e ext).isSome ∧
      (bdy_flux_inlet_outlet_comp_2 M P n wt ue v e ext).isSome ∧
      (bdy_flux_inlet_outlet_comp_3 M P n wt ue v e ext).isSome) := by
  have hff : ∀ (nx ny y : K) (wl : Fin 4 → K), (far_field_flux M P nx ny y wl).isSome := by
    intro nx ny y wl
    obtain ⟨flux, hflux⟩ := far_field_flux_eq_some M P nx ny y wl
    rw [hflux]; rfl
  have hcomp : ∀ m : Fin 4,
      (bdy_flux_inlet_outlet_comp M P ((m : Nat) : Int) n wt ue v e ext).isSome := by
    intro m
    have hex := fun i =>
      far_field_flux_eq_some M P (e.nx i) (e.ny i) (e.y i) (left_state ext i)
    choose flux hflux using hex
    rw [bdy_flux_inlet_outlet_comp_eq M P m n wt ue v e ext flux hflux]; rfl
  refine ⟨?_, hff, ?_, ?_, ⟨rfl, rfl, rfl, rfl⟩, ⟨rfl, rfl, rfl, rfl⟩,
    hcomp 0, hcomp 1, hcomp 2, hcomp 3⟩
  · intro i w0 w1 w3 w4
    unfold f_x
    split_ifs <;> simp_all
  · intro flux k
    fin_cases k <;> simp [vec4_get]
  · intro flux j
    unfold vec4_get
    split_ifs <;> simp_all

end DefectClaims


/-! ## Entropy of the boundary states, matching far field -/

section EntropyClaims

/-- A state built from `x > 0` as `rho_new = x^(1/(kappa-1)) * rho`,
`p_new = rho_new * (x * p / rho)` has the entropy `p / rho^kappa` of `(rho, p)`. -/
theorem entropy_of_isentropic_state (x rho p kappa : ℝ) (hx : 0 < x) (hrho : 0 < rho)
    (hk : 1 < kappa) :
    (x ^ (1 / (kappa - 1)) * rho) * (x * p / rho) / (x ^ (1 / (kappa - 1)) * rho) ^ kappa
      = p / rho ^ kappa := by
  have hk1 : kappa - 1 ≠ 0 := by linarith
  have hxe : 0 < x ^ (1 / (kappa - 1)) := Real.rpow_pos_of_pos hx _
  have hrb : 0 < x ^ (1 / (kappa - 1)) * rho := mul_pos hxe hrho
  have hsplit : ∀ t : ℝ, 0 < t → t ^ kappa = t * t ^ (kappa - 1) := by
    intro t ht
    rw [show kappa = 1 + (kappa - 1) by ring, Real.rpow_add ht, Real.rpow_one]
    ring_nf
  have hpow : (x ^ (1 / (kappa - 1)) * rho) ^ (kappa - 1) = x * rho ^ (kappa - 1) := by
    rw [Real.mul_rpow hxe.le hrho.le, ← Real.rpow_mul hx.le, one_div,
      inv_mul_cancel₀ hk1, Real.rpow_one]
  have hrk : 0 < rho ^ (kappa - 1) := Real.rpow_pos_of_pos hrho _
  rw [hsplit _ hrb, hsplit _ hrho, hpow]
  field_simp
  ring

/-- C32: for `rho_l > 0`, `p_l > 0`, `kappa = 1 + R/c_v > 1` and the real library functions,
the wall state and the inlet intersection state (when their sound speed is positive), the
star state (when `a_star > 0`) and the outlet state all satisfy
`p_new / rho_new^kappa = p_l / rho_l^kappa`. -/
theorem boundary_states_preserve_entropy (M : MathOps ℝ) (hM : M.IsReal) (P : Params ℝ)
    (wl : Fin 4 → ℝ) (y : ℝ) (hrho : 0 < wl 0)
    (hp : 0 < calc_pressure P (wl 0) (wl 1) (wl 2) (wl 3))
    (hk : P.kappa = 1 + P.R / P.c_v) (hk1 : 1 < P.kappa) :
    (0 < SolidWall.sound_speed_b M P wl →
      SolidWall.p_b M P wl / SolidWall.rho_b M P wl ^ P.kappa
        = calc_pressure P (wl 0) (wl 1) (wl 2) (wl 3) / wl 0 ^ P.kappa) ∧
    (0 < Inlet.sound_speed_1 M P wl y →
      Inlet.p_b M P wl y / Inlet.rho_1 M P wl y ^ P.kappa
        = calc_pressure P (wl 0) (wl 1) (wl 2) (wl 3) / wl 0 ^ P.kappa) ∧
    (0 < sound_speed_l_star M P wl →
      p_l_star M P wl / rho_l_star M P wl ^ P.kappa
        = calc_pressure P (wl 0) (wl 1) (wl 2) (wl 3) / wl 0 ^ P.kappa) ∧
    Outlet.p_b P y / Outlet.rho_b M P wl y ^ P.kappa
      = calc_pressure P (wl 0) (wl 1) (wl 2) (wl 3) / wl 0 ^ P.kappa := by
  have hk0 : 0 < P.kappa := by linarith
  have hg : P.R / P.c_v = P.kappa - 1 := by linarith
  have hexp : P.c_v / P.R = 1 / (P.kappa - 1) := by rw [← hg, one_div, inv_div]
  have hal2 : sound_speed_l M P wl * sound_speed_l M P wl
      = P.kappa * calc_pressure P (wl 0) (wl 1) (wl 2) (wl 3) / wl 0 := by
    simp only [sound_speed_l, calc_sound_speed, hM.sqrt_eq]
    exact Real.mul_self_sqrt (div_nonneg (mul_nonneg hk0.le hp.le) hrho.le)
  have hal : 0 < sound_speed_l M P wl := by
    simp only [sound_speed_l, calc_sound_speed, hM.sqrt_eq]
    exact Real.sqrt_pos.mpr (div_pos (mul_pos hk0 hp) hrho)
  -- the common shape: density and pressure built from a positive sound speed `a`
  have key : ∀ a : ℝ, 0 < a →
      (Real.rpow (a * a * wl 0 / (P.kappa * calc_pressure P (wl 0) (wl 1) (wl 2) (wl 3)))
            (P.c_v / P.R) * wl 0) * a * a / P.kappa
        / (Real.rpow (a * a * wl 0 / (P.kappa * calc_pressure P (wl 0) (wl 1) (wl 2) (wl 3)))
            (P.c_v / P.R) * wl 0) ^ P.kappa
        = calc_pressure P (wl 0) (wl 1) (wl 2) (wl 3) / wl 0 ^ P.kappa := by
    intro a ha
    have hx : 0 < a * a * wl 0 / (P.kappa * calc_pressure P (wl 0) (wl 1) (wl 2) (wl 3)) :=
      div_pos (mul_pos (mul_pos ha ha) hrho) (mul_pos hk0 hp)
    rw [← entropy_of_isentropic_state _ (wl 0) (calc_pressure P (wl 0) (wl 1) (wl 2) (wl 3))
      P.kappa hx hrho hk1, hexp]
    show _ = _
    congr 1
    simp only [Real.rpow_eq_pow]
    field_simp
    ring
  refine ⟨fun ha => ?_, fun ha => ?_, fun ha => ?_, ?_⟩
  · simp only [SolidWall.p_b, SolidWall.rho_b, hM.pow_eq]
    exact key _ ha
  · simp only [Inlet.p_b, Inlet.rho_1, hM.pow_eq]
    exact key _ ha
  · have hstar : rho_l_star M P wl
        = Real.rpow (sound_speed_l_star M P wl * sound_speed_l_star M P wl * wl 0
            / (P.kappa * calc_pressure P (wl 0) (wl 1) (wl 2) (wl 3))) (P.c_v / P.R) * wl 0 := by
      simp only [rho_l_star, hM.pow_eq]
      congr 1
      have hq : 0 ≤ sound_speed_l_star M P wl / sound_speed_l M P wl :=
        (div_pos ha hal).le
      rw [show 2 * P.c_v / P.R = 2 * (P.c_v / P.R) by ring]
      simp only [Real.rpow_eq_pow]
      rw [Real.rpow_mul hq, Real.rpow_two]
      congr 1
      rw [div_pow, pow_two, pow_two, hal2]
      field_simp
    simp only [p_l_star, hstar]
    exact key _ ha
  · have hfar : 0 < Outlet.p_b P y := by
      have h80 : Outlet.p_b P y = P.R / P.c_v * 80000 := by
        simp only [Outlet.p_b, bc_pressure, bc_energy, bc_density_vel_x, bc_density_vel_y,
          bc_density]
        norm_num
      rw [h80, hg]
      nlinarith
    have hq : 0 < Outlet.p_b P y / calc_pressure P (wl 0) (wl 1) (wl 2) (wl 3) :=
      div_pos hfar hp
    have hrk : 0 < wl 0 ^ P.kappa := Real.rpow_pos_of_pos hrho _
    simp only [Outlet.rho_b, hM.pow_eq]
    show Outlet.p_b P y
        / (wl 0 * (Outlet.p_b P y / calc_pressure P (wl 0) (wl 1) (wl 2) (wl 3))
              ^ (1 / P.kappa)) ^ P.kappa = _
    rw [Real.mul_rpow hrho.le (Real.rpow_pos_of_pos hq _).le, ← Real.rpow_mul hq.le,
      one_div, inv_mul_cancel₀ hk0.ne', Real.rpow_one]
    field_simp
    ring

/-- Witness of C32 at the interior state `(1, 200, 0, 100000)` with `R = 2`, `c_v = 5`,
`kappa = 7/5` and the real library functions. -/
theorem boundary_states_preserve_entropy_witness :
    (0 : ℝ) < (![1, 200, 0, 100000] : Fin 4 → ℝ) 0 ∧
    0 < calc_pressure (sampleParams ℝ) ((![1, 200, 0, 100000] : Fin 4 → ℝ) 0)
          ((![1, 200, 0, 100000] : Fin 4 → ℝ) 1) ((![1, 200, 0, 100000] : Fin 4 → ℝ) 2)
          ((![1, 200, 0, 100000] : Fin 4 → ℝ) 3) ∧
    (sampleParams ℝ).kappa = 1 + (sampleParams ℝ).R / (sampleParams ℝ).c_v ∧
    1 < (sampleParams ℝ).kappa ∧
    Outlet.p_b (sampleParams ℝ) 0
        / Outlet.rho_b
            ⟨Real.sqrt, Real.rpow, fun y x => Complex.arg ⟨x, y⟩, Real.cos, Real.sin⟩
            (sampleParams ℝ) ![1, 200, 0, 100000] 0 ^ (sampleParams ℝ).kappa
      = calc_pressure (sampleParams ℝ) ((![1, 200, 0, 100000] : Fin 4 → ℝ) 0)
            ((![1, 200, 0, 100000] : Fin 4 → ℝ) 1) ((![1, 200, 0, 100000] : Fin 4 → ℝ) 2)
            ((![1, 200, 0, 100000] : Fin 4 → ℝ) 3)
          / (![1, 200, 0, 100000] : Fin 4 → ℝ) 0 ^ (sampleParams ℝ).kappa :=
  ⟨by norm_num, by norm_num [calc_pressure, sampleParams], by norm_num [sampleParams],
    by norm_num [sampleParams],
    (boundary_states_preserve_entropy
      ⟨Real.sqrt, Real.rpow, fun y x => Complex.arg ⟨x, y⟩, Real.cos, Real.sin⟩
      ⟨rfl, rfl, fun _ _ => rfl, rfl, rfl⟩ (sampleParams ℝ) ![1, 200, 0, 100000] 0
      (by norm_num) (by norm_num [calc_pressure, sampleParams]) (by norm_num [sampleParams])
      (by norm_num [sampleParams])).2.2.2⟩

/-- C34: for `rho_l > 0`, `p_l > 0`, `kappa > 0` and the real library functions: in the inlet
branch, if the prescribed velocity equals the interior one, then `a_1 = a_l`,
`rho_1 = rho_l`, the intersection velocities are the interior ones and
`p_b = calc_pressure(w_l)`; in the outlet branch, if `p_far = calc_pressure(w_l)`, then
`rho_b = rho_l`, `v_{x,b} = v_{x,l}` and `v_{y,b} = v_{y,l}`. -/
theorem matching_far_field_reproduces_interior (M : MathOps ℝ) (hM : M.IsReal)
    (P : Params ℝ) (wl : Fin 4 → ℝ) (y : ℝ) (hrho : 0 < wl 0)
    (hp : 0 < calc_pressure P (wl 0) (wl 1) (wl 2) (wl 3)) (hk : 0 < P.kappa) :
    (Inlet.velocity_x_b y = wl 1 / wl 0 →
      Inlet.sound_speed_1 M P wl y = calc_sound_speed M.sqrt P (wl 0) (wl 1) (wl 2) (wl 3) ∧
      Inlet.rho_1 M P wl y = wl 0 ∧
      Inlet.velocity_x_1 y = wl 1 / wl 0 ∧
      Inlet.velocity_y_1 wl = wl 2 / wl 0 ∧
      Inlet.p_b M P wl y = calc_pressure P (wl 0) (wl 1) (wl 2) (wl 3)) ∧
    (Outlet.p_b P y = calc_pressure P (wl 0) (wl 1) (wl 2) (wl 3) →
      Outlet.rho_b M P wl y = wl 0 ∧
      Outlet.velocity_x_b M P wl y = wl 1 / wl 0 ∧
      Outlet.velocity_y_b wl = wl 2 / wl 0) := by
  have hal2 : sound_speed_l M P wl * sound_speed_l M P wl
      = P.kappa * calc_pressure P (wl 0) (wl 1) (wl 2) (wl 3) / wl 0 := by
    simp only [sound_speed_l, calc_sound_speed, hM.sqrt_eq]
    exact Real.mul_self_sqrt (div_nonneg (mul_nonneg hk.le hp.le) hrho.le)
  constructor
  · intro hv
    have ha1 : Inlet.sound_speed_1 M P wl y = sound_speed_l M P wl := by
      simp only [Inlet.sound_speed_1, hv, sub_self, mul_zero, add_zero]
    have hr1 : Inlet.rho_1 M P wl y = wl 0 := by
      simp only [Inlet.rho_1, ha1, hal2, hM.pow_eq]
      rw [show P.kappa * calc_pressure P (wl 0) (wl 1) (wl 2) (wl 3) / wl 0 * wl 0
            / (P.kappa * calc_pressure P (wl 0) (wl 1) (wl 2) (wl 3)) = 1 by field_simp]
      show (1 : ℝ) ^ (P.c_v / P.R) * wl 0 = wl 0
      rw [Real.one_rpow, one_mul]
    refine ⟨ha1, hr1, hv, rfl, ?_⟩
    simp only [Inlet.p_b, hr1, ha1]
    rw [mul_assoc, hal2]
    field_simp
  · intro hfar
    have hrb : Outlet.rho_b M P wl y = wl 0 := by
      simp only [Outlet.rho_b, hfar, hM.pow_eq]
      rw [div_self hp.ne']
      show wl 0 * (1 : ℝ) ^ (1 / P.kappa) = wl 0
      rw [Real.one_rpow, mul_one]
    refine ⟨hrb, ?_, rfl⟩
    simp only [Outlet.velocity_x_b, hrb, hfar, calc_sound_speed, sub_self, mul_zero, add_zero]

/-- Witness of C34 at the interior state `(1, 200, 0, 100000)`, which matches the example far
field (`v_x = 200`, `p = 32000` for `R/c_v = 2/5`). -/
theorem matching_far_field_reproduces_interior_witness :
    (0 : ℝ) < (![1, 200, 0, 100000] : Fin 4 → ℝ) 0 ∧
    0 < calc_pressure (sampleParams ℝ) ((![1, 200, 0, 100000] : Fin 4 → ℝ) 0)
          ((![1, 200, 0, 100000] : Fin 4 → ℝ) 1) ((![1, 200, 0, 100000] : Fin 4 → ℝ) 2)
          ((![1, 200, 0, 100000] : Fin 4 → ℝ) 3) ∧
    0 < (sampleParams ℝ).kappa ∧
    (Outlet.p_b (sampleParams ℝ) 0
        = calc_pressure (sampleParams ℝ) ((![1, 200, 0, 100000] : Fin 4 → ℝ) 0)
          ((![1, 200, 0, 100000] : Fin 4 → ℝ) 1) ((![1, 200, 0, 100000] : Fin 4 → ℝ) 2)
          ((![1, 200, 0, 100000] : Fin 4 → ℝ) 3) →
      Outlet.rho_b ⟨Real.sqrt, Real.rpow, fun y x => Complex.arg ⟨x, y⟩, Real.cos, Real.sin⟩
          (sampleParams ℝ) ![1, 200, 0, 100000] 0 = (![1, 200, 0, 100000] : Fin 4 → ℝ) 0 ∧
      Outlet.velocity_x_b
          ⟨Real.sqrt, Real.rpow, fun y x => Complex.arg ⟨x, y⟩, Real.cos, Real.sin⟩
          (sampleParams ℝ) ![1, 200, 0, 100000] 0
        = (![1, 200, 0, 100000] : Fin 4 → ℝ) 1 / (![1, 200, 0, 100000] : Fin 4 → ℝ) 0 ∧
      Outlet.velocity_y_b (![1, 200, 0, 100000] : Fin 4 → ℝ)
        = (![1, 200, 0, 100000] : Fin 4 → ℝ) 2 / (![1, 200, 0, 100000] : Fin 4 → ℝ) 0) :=
  ⟨by norm_num, by norm_num [calc_pressure, sampleParams], by norm_num [sampleParams],
    (matching_far_field_reproduces_interior
      ⟨Real.sqrt, Real.rpow, fun y x => Complex.arg ⟨x, y⟩, Real.cos, Real.sin⟩
      ⟨rfl, rfl, fun _ _ => rfl, rfl, rfl⟩ (sampleParams ℝ) ![1, 200, 0, 100000] 0
      (by norm_num) (by norm_num [calc_pressure, sampleParams])
      (by norm_num [sampleParams])).2⟩

end EntropyClaims

end Euler

/-! # Power iteration: sanity checks -/

namespace Neutronics

/-- C26: `power_iteration` ends with a fatal error, whatever the remainder of its body
(linear problem, assembly, solve) would do, when the number of solutions differs from
`N_GROUPS = 4`, or the number of spaces differs from `N_GROUPS`, or the numbers of `Solution`
and `MeshFunction` pointers differ; when the three sizes are 4 it runs the remainder. -/
theorem power_iteration_sanity_checks (spaces_size slptr_solution_size mfptr_solution_size : Nat)
    (rest : Except String Int) :
    N_GROUPS = 4 ∧
    ((slptr_solution_size ≠ N_GROUPS ∨ spaces_size ≠ N_GROUPS
        ∨ slptr_solution_size ≠ mfptr_solution_size) →
      ∃ msg, ∀ rest' : Except String Int,
        power_iteration spaces_size slptr_solution_size mfptr_solution_size rest'
          = Except.error msg) ∧
    (slptr_solution_size ≠ N_GROUPS →
      power_iteration spaces_size slptr_solution_size mfptr_solution_size rest
        = Except.error
          "Wrong number of power iteration solutions for the given number of energy groups.") ∧
    (slptr_solution_size = 4 → spaces_size = 4 → mfptr_solution_size = 4 →
      power_iteration spaces_size slptr_solution_size mfptr_solution_size rest = rest) := by
  refine ⟨rfl, ?_, ?_, ?_⟩
  · intro h
    by_cases h1 : slptr_solution_size ≠ N_GROUPS
    · exact ⟨_, fun rest' => by rw [power_iteration, if_pos h1]⟩
    · by_cases h2 : spaces_size ≠ N_GROUPS
      · exact ⟨_, fun rest' => by rw [power_iteration, if_neg h1, if_pos h2]⟩
      · have h3 : slptr_solution_size ≠ mfptr_solution_size := by tauto
        exact ⟨_, fun rest' => by rw [power_iteration, if_neg h1, if_neg h2, if_pos h3]⟩
  · intro h1
    rw [power_iteration, if_pos h1]
  · intro h1 h2 h3
    subst h1 h2 h3
    simp [power_iteration, N_GROUPS]

end Neutronics

/-! # Power iteration: stopping rule and fission source -/

namespace Neutronics

section IterationClaims

variable {K : Type} [LinearOrderedField K]

/-- The loop started in the state `(k_i, i)` returns `(N, k)` exactly when `N > i` is the
first iteration after `i` whose stopping test holds, the fuel reaches it, and `k = k_N`. -/
theorem power_iteration_loop_from (tol k_0 : K) (ratio : Nat → K) (fuel : Nat) :
    ∀ (i N : Nat) (k : K),
      power_iteration_loop tol ratio fuel (k_seq k_0 ratio i) i = some (N, k) ↔
        i < N ∧ N ≤ i + fuel ∧ k = k_seq k_0 ratio N ∧ stops_at tol k_0 ratio N ∧
          ∀ j, i < j → j < N → ¬ stops_at tol k_0 ratio j := by
  induction fuel with
  | zero =>
    intro i N k
    simp only [power_iteration_loop, add_zero]
    constructor
    · intro h; cases h
    · rintro ⟨h1, h2, -⟩; omega
  | succ f ih =>
    intro i N k
    have hs : stops_at tol k_0 ratio (i + 1)
        ↔ (k_seq k_0 ratio i * ratio i ≠ 0 ∧
            |(k_seq k_0 ratio i - k_seq k_0 ratio i * ratio i)
              / (k_seq k_0 ratio i * ratio i)| < tol) := by
      simp only [stops_at, Nat.add_sub_cancel, k_seq]
    by_cases hc : k_seq k_0 ratio i * ratio i ≠ 0 ∧
        |(k_seq k_0 ratio i - k_seq k_0 ratio i * ratio i)
          / (k_seq k_0 ratio i * ratio i)| < tol
    · have hloop : power_iteration_loop tol ratio (f + 1) (k_seq k_0 ratio i) i
          = some (i + 1, k_seq k_0 ratio (i + 1)) := by
        simp only [power_iteration_loop]
        rw [if_pos hc]
        rfl
      rw [hloop]
      constructor
      · intro h
        obtain ⟨h1, h2⟩ := Prod.mk.inj (Option.some.inj h)
        subst h1 h2
        exact ⟨by omega, by omega, rfl, hs.mpr hc, fun j hj1 hj2 => by omega⟩
      · rintro ⟨h1, h2, h3, h4, h5⟩
        have hN : N = i + 1 := by
          by_contra hne
          exact h5 (i + 1) (by omega) (by omega) (hs.mpr hc)
        subst hN
        rw [h3]
    · have hloop : power_iteration_loop tol ratio (f + 1) (k_seq k_0 ratio i) i
          = power_iteration_loop tol ratio f (k_seq k_0 ratio (i + 1)) (i + 1) := by
        simp only [power_iteration_loop]
        rw [if_neg hc]
        rfl
      rw [hloop, ih (i + 1) N k]
      constructor
      · rintro ⟨h1, h2, h3, h4, h5⟩
        refine ⟨by omega, by omega, h3, h4, fun j hj1 hj2 => ?_⟩
        by_cases hj : j = i + 1
        · subst hj
          exact fun hst => hc (hs.mp hst)
        · exact h5 j (by omega) hj2
      · rintro ⟨h1, h2, h3, h4, h5⟩
        have hN : N ≠ i + 1 := by
          intro hN
          subst hN
          exact hc (hs.mp h4)
        exact ⟨by omega, by omega, h3, h4, fun j hj1 hj2 => h5 j (by omega) hj2⟩

/-- Once the eigenvalue estimate is `0` every later estimate is `0`, the quotient of the
stopping test is never defined, and no number of passes ends the loop. -/
theorem power_iteration_loop_zero (tol : K) (ratio : Nat → K) (fuel : Nat) :
    ∀ it : Nat, power_iteration_loop tol ratio fuel 0 it = none := by
  induction fuel with
  | zero => intro it; rfl
  | succ f ih =>
    intro it
    simp only [power_iteration_loop, zero_mul, ne_eq, not_true_eq_false, false_and,
      if_false]
    exact ih (it + 1)

/-- With `k_0 ≠ 0` and non-zero ratios every eigenvalue estimate is non-zero. -/
theorem k_seq_ne_zero (k_0 : K) (ratio : Nat → K) (hk : k_0 ≠ 0) (hr : ∀ i, ratio i ≠ 0) :
    ∀ j, k_seq k_0 ratio j ≠ 0 := by
  intro j
  induction j with
  | zero => exact hk
  | succ j ih => exact mul_ne_zero ih (hr j)

/-- C37: with `k_0` the value of `k_eff` on entry and `k_i = k_{i-1} * r_i`, the loop of
`power_iteration` returns `it = N` and leaves `k_eff = k` exactly when `N ≥ 1` is the least
iteration whose relative change `(k_{N-1} - k_N) / k_N` is defined (`k_N ≠ 0`) and has
`|(k_{N-1} - k_N) / k_N| < tol`, the loop is allowed at least `N` passes, and `k = k_N`; so
it performs at least one pass and the last relative change is strictly below `tol`. When
`k_0` and all ratios are non-zero every quotient is defined and the rule is: the least
`N ≥ 1` with `|(k_{N-1} - k_N) / k_N| < tol`. -/
theorem power_iteration_loop_stopping_rule (tol k_0 : K) (ratio : Nat → K) (fuel N : Nat)
    (k : K) :
    (k_seq k_0 ratio 0 = k_0 ∧ ∀ i, k_seq k_0 ratio (i + 1) = k_seq k_0 ratio i * ratio i) ∧
    (power_iteration_loop tol ratio fuel k_0 0 = some (N, k) ↔
      1 ≤ N ∧ N ≤ fuel ∧ k = k_seq k_0 ratio N ∧
        (k_seq k_0 ratio N ≠ 0 ∧
          |(k_seq k_0 ratio (N - 1) - k_seq k_0 ratio N) / k_seq k_0 ratio N| < tol) ∧
        ∀ j, 1 ≤ j → j < N →
          ¬ (k_seq k_0 ratio j ≠ 0 ∧
            |(k_seq k_0 ratio (j - 1) - k_seq k_0 ratio j) / k_seq k_0 ratio j| < tol)) ∧
    (k_0 ≠ 0 → (∀ i, ratio i ≠ 0) →
      (power_iteration_loop tol ratio fuel k_0 0 = some (N, k) ↔
        1 ≤ N ∧ N ≤ fuel ∧ k = k_seq k_0 ratio N ∧
          |(k_seq k_0 ratio (N - 1) - k_seq k_0 ratio N) / k_seq k_0 ratio N| < tol ∧
          ∀ j, 1 ≤ j → j < N →
            ¬ |(k_seq k_0 ratio (j - 1) - k_seq k_0 ratio j) / k_seq k_0 ratio j| < tol)) := by
  have h := power_iteration_loop_from tol k_0 ratio fuel 0 N k
  simp only [zero_add, stops_at] at h
  refine ⟨⟨rfl, fun i => rfl⟩, h, fun hk hr => ?_⟩
  have hne := k_seq_ne_zero k_0 ratio hk hr
  refine Iff.trans h ?_
  simp only [hne, ne_eq, not_false_eq_true, true_and, Nat.lt_iff_add_one_le, zero_add]

/-- Witness of C37 in `ℚ`: `k_0 = 1`, ratios `2, 1, 1, ...`, `tol = 1/10`. The first pass
gives `k_1 = 2` with relative change `1/2`, the second `k_2 = 2` with relative change `0`,
and the loop returns `it = 2` with `k_eff = 2`. -/
theorem power_iteration_loop_stopping_rule_witness :
    (1 : ℚ) ≠ 0 ∧ (∀ i : Nat, (if i = 0 then (2 : ℚ) else 1) ≠ 0) ∧
    power_iteration_loop (1 / 10 : ℚ) (fun i => if i = 0 then 2 else 1) 2 1 0
      = some (2, 2) :=
  ⟨one_ne_zero, fun i => by split <;> norm_num,
    ((power_iteration_loop_stopping_rule (1 / 10 : ℚ) 1 (fun i => if i = 0 then 2 else 1)
        2 2 2).2.2 one_ne_zero (fun i => by split <;> norm_num)).mpr
      ⟨by norm_num, le_refl 2, by norm_num [k_seq], by norm_num [k_seq],
        fun j h1 h2 => by
          have hj : j = 1 := by omega
          subst hj
          norm_num [k_seq, abs_of_nonneg]⟩⟩

/-- The inner loop over the groups adds its terms to the initial value. -/
theorem foldl_add_range (c : Nat → K) (a : K) (k : Nat) :
    (List.range k).foldl (fun out_i g => out_i + c g) a = a + ∑ g in Finset.range k, c g := by
  induction k with
  | zero => simp
  | succ k ih => rw [List.range_succ, List.foldl_append, ih, Finset.sum_range_succ]; simp [add_assoc]

/-- The outer loop overwrites the entries `i < k` and leaves the others. -/
theorem foldl_update_range {A : Type} (term : Nat → A) (out : Nat → A) (k : Nat) :
    (List.range k).foldl (fun out i => Function.update out i (term i)) out
      = fun i => if i < k then term i else out i := by
  induction k with
  | zero => simp
  | succ k ih =>
    rw [List.range_succ, List.foldl_append, ih]
    funext j
    simp only [List.foldl_cons, List.foldl_nil, Function.update_apply]
    by_cases hj : j = k
    · subst hj; simp
    · have : j < k + 1 ↔ j < k := by omega
      simp [hj, this]

/-- The value written by `source_fn` at each index. -/
theorem source_fn_apply (nu Sf : Nat → Nat → K) (n : Int) (values : Nat → Nat → K)
    (out : Nat → K) (i : Nat) :
    source_fn nu Sf n values out i
      = if i < n.toNat then ∑ g in Finset.range 4, nu 1 g * Sf 1 g * values g i
        else out i := by
  unfold source_fn
  rw [foldl_update_range]
  simp only [foldl_add_range, N_GROUPS]
  norm_num

/-- C38: for every `i < n`, `source_fn` writes
`out[i] = ∑ g = 0..3, nu[1][g] * Sf[1][g] * values[g][i]` (entries `i ≥ n` are left as they
were); the written value is linear in the group fluxes and depends only on the values at
the same point `i`. -/
theorem source_fn_eq_sum (nu Sf : Nat → Nat → K) (n : Int) (values values' : Nat → Nat → K)
    (out : Nat → K) (a b : K) :
    (∀ i, i < n.toNat →
      source_fn nu Sf n values out i
        = ∑ g in Finset.range 4, nu 1 g * Sf 1 g * values g i) ∧
    (∀ i, n.toNat ≤ i → source_fn nu Sf n values out i = out i) ∧
    (∀ i, i < n.toNat →
      source_fn nu Sf n (fun g j => a * values g j + b * values' g j) out i
        = a * source_fn nu Sf n values out i + b * source_fn nu Sf n values' out i) ∧
    (∀ i, i < n.toNat → (∀ g, g < 4 → values g i = values' g i) →
      source_fn nu Sf n values out i = source_fn nu Sf n values' out i) := by
  refine ⟨fun i hi => ?_, fun i hi => ?_, fun i hi => ?_, fun i hi hv => ?_⟩
  · rw [source_fn_apply, if_pos hi]
  · rw [source_fn_apply, if_neg (by omega)]
  · simp only [source_fn_apply, if_pos hi, Finset.mul_sum, ← Finset.sum_add_distrib]
    apply Finset.sum_congr rfl
    intro g _
    ring
  · simp only [source_fn_apply, if_pos hi]
    apply Finset.sum_congr rfl
    intro g hg
    rw [hv g (Finset.mem_range.mp hg)]

end IterationClaims

end Neutronics
